import Mathlib

/-!
# Hotel booking REST API: route handlers over a SQL interface

A shallow embedding of the Express route handlers of `api/routes/bookings.js`,
`api/routes/payments.js` and `api/routes/reviews.js`, and of the route table of
`backend/app.js`.

* JavaScript values are the type `Val`; numbers are rationals, a double being
  the rational it denotes. The arithmetic of dates, page windows and amounts
  (`Val.minus`, `Val.times`, `Val.over`) rounds to the nearest double
  (`toDouble`) as JavaScript does, and `Val.parseInt` reads the text of a
  number; `Val.sub`, `Val.mul` and `Val.div` are the exact operations, which
  agree with them as long as operands and results are doubles (integers below
  2 ^ 53 are). A value JavaScript would compute as an infinity is `Val.nan`.
* The database is an `Engine`: a transition function from a state and a
  statement (one of the SQL texts of the source with its bound parameters) to
  rows or a raised error, and a next state.  Handlers are parametric in it,
  as the source is in `pool`.
* Every handler returns its response (status and the value handed to
  `res.json`), the statements it issued in order, the final database state, and
  the error its `catch` block received, if any.
* What the handlers take from outside the repository (clock, random source,
  environment, the checks of the validation library) is the record `Runtime`.
* `tableEngine` reads the statements on in-memory tables; properties about what
  is stored are stated for it.
* Routing follows Express: layers in registration order, a mounted router
  passing on a request none of its routes matches.
-/

set_option autoImplicit false

namespace HotelApi

/-! ## JavaScript values -/

/-- A JavaScript value as the handlers see it. -/
inductive Val where
  | undefined
  | null
  | nan
  | bool (b : Bool)
  | num (q : ℚ)
  | str (s : String)
  | arr (xs : List Val)
  | obj (fields : List (String × Val))

namespace Val

/-- The operator `===`. `NaN` equals nothing; arrays and objects are compared by
identity in JavaScript and two separately built ones are never equal. -/
def strictEq : Val → Val → Bool
  | .undefined, .undefined => true
  | .null, .null => true
  | .bool a, .bool b => decide (a = b)
  | .num a, .num b => decide (a = b)
  | .str a, .str b => decide (a = b)
  | _, _ => false

/-- The operator `!==`. -/
def strictNe (a b : Val) : Bool := !(strictEq a b)

/-- The conversion ToBoolean, as used by `if`, `!` and `||`. -/
def truthy : Val → Bool
  | .undefined => false
  | .null => false
  | .nan => false
  | .bool b => b
  | .num q => decide (q ≠ 0)
  | .str s => decide (s ≠ "")
  | .arr _ => true
  | .obj _ => true

/-- The operator `a || b`. -/
def orElse (a b : Val) : Val := if a.truthy then a else b

/-- Property access `v.key` on an object literal; `undefined` when absent. -/
def get (v : Val) (key : String) : Val :=
  match v with
  | .obj fields => (fields.lookup key).getD .undefined
  | _ => .undefined

end Val

/-- A result row of a query: column name to value. -/
abbrev Row := List (String × Val)

/-- Column access `row.column`; `undefined` when the row has no such column. -/
def Row.get (r : Row) (column : String) : Val := (r.lookup column).getD .undefined

/-- The method `String.prototype.includes`: `sub` occurs in `s` as a substring. -/
def includes (s sub : String) : Bool :=
  s.data.tails.any (fun t => sub.data.isPrefixOf t)

/-! ### Reading numbers from text -/

/-- The characters `parseInt` and `parseFloat` skip at the start of a string
(WhiteSpace and LineTerminator of ECMAScript). -/
def isWhiteSpace (c : Char) : Bool :=
  let n := c.toNat
  n == 9 || n == 10 || n == 11 || n == 12 || n == 13 || n == 32 || n == 0xa0 ||
  n == 0x1680 || (0x2000 ≤ n && n ≤ 0x200a) || n == 0x2028 || n == 0x2029 ||
  n == 0x202f || n == 0x205f || n == 0x3000 || n == 0xfeff

/-- The value of a character as a digit of base 36. -/
def digitValue (c : Char) : Option Nat :=
  if '0' ≤ c ∧ c ≤ '9' then some (c.toNat - 48)
  else if 'a' ≤ c ∧ c ≤ 'z' then some (c.toNat - 87)
  else if 'A' ≤ c ∧ c ≤ 'Z' then some (c.toNat - 55)
  else none

/-- The longest run of digits of the radix at the start, and what follows it. -/
def takeDigits (radix : Nat) : List Char → List Nat × List Char
  | [] => ([], [])
  | c :: cs =>
    match (digitValue c).filter (fun d => decide (d < radix)) with
    | some d => ((d :: (takeDigits radix cs).1), (takeDigits radix cs).2)
    | none => ([], c :: cs)

/-- The number a list of digits denotes, most significant first. -/
def fromDigits (radix : Nat) (ds : List Nat) : Nat :=
  ds.foldl (fun n d => n * radix + d) 0

/-- A leading sign: whether it is a minus, and the rest. -/
def takeSign : List Char → Bool × List Char
  | '-' :: cs => (true, cs)
  | '+' :: cs => (false, cs)
  | cs => (false, cs)

/-- The function `parseInt(string)` with no radix argument: leading white space
is skipped, a sign and a `0x` mark are read, then the longest run of digits;
`NaN` when there is no digit. -/
def parseIntChars (cs : List Char) : Val :=
  let (neg, body) := takeSign (cs.dropWhile isWhiteSpace)
  let (radix, digits) : Nat × List Char :=
    match body with
    | '0' :: 'x' :: r => (16, r)
    | '0' :: 'X' :: r => (16, r)
    | r => (10, r)
  match (takeDigits radix digits).1 with
  | [] => .nan
  | ds => .num (if neg then -(fromDigits radix ds : ℚ) else (fromDigits radix ds : ℚ))

/-- An exponent part `e[+-]digits` at the start, if there is a complete one. -/
def takeExponent : List Char → Int × List Char
  | c :: cs =>
    if c = 'e' ∨ c = 'E' then
      match takeDigits 10 (takeSign cs).2 with
      | ([], _) => (0, c :: cs)
      | (ds, rest) =>
        ((if (takeSign cs).1 then -(fromDigits 10 ds : Int) else (fromDigits 10 ds : Int)), rest)
    else (0, c :: cs)
  | [] => (0, [])

/-- An unsigned decimal literal at the start (`12`, `12.5`, `12.`, `.5`, each
with an optional exponent): its value and what follows it. -/
def takeDecimal (cs : List Char) : Option (ℚ × List Char) :=
  let ip := takeDigits 10 cs
  let fp : List Nat × List Char :=
    match ip.2 with
    | '.' :: r => takeDigits 10 r
    | r => ([], r)
  if ip.1.isEmpty && fp.1.isEmpty then none
  else
    let e := takeExponent fp.2
    some (((fromDigits 10 (ip.1 ++ fp.1) : ℚ) / (10 : ℚ) ^ fp.1.length) * (10 : ℚ) ^ e.1, e.2)

/-- The function `parseFloat(string)`: the longest decimal literal after leading
white space and a sign; `NaN` when there is none. The literal `Infinity` has no
value in this model and reads as `NaN`. -/
def parseFloatChars (cs : List Char) : Val :=
  let (neg, body) := takeSign (cs.dropWhile isWhiteSpace)
  match takeDecimal body with
  | some (q, _) => .num (if neg then -q else q)
  | none => .nan

/-- The conversion StringToNumber on the whole string: white space is trimmed
at both ends, the empty string is 0, `0x`, `0o` and `0b` literals are read
without a sign, anything else must be one signed decimal literal. -/
def stringToNumber (s : String) : Val :=
  let cs := ((s.data.dropWhile isWhiteSpace).reverse.dropWhile isWhiteSpace).reverse
  let based (radix : Nat) (r : List Char) : Val :=
    match takeDigits radix r with
    | ([], _) => .nan
    | (ds, []) => .num (fromDigits radix ds : ℚ)
    | (_, _ :: _) => .nan
  match cs with
  | [] => .num 0
  | '0' :: 'x' :: r => based 16 r
  | '0' :: 'X' :: r => based 16 r
  | '0' :: 'o' :: r => based 8 r
  | '0' :: 'O' :: r => based 8 r
  | '0' :: 'b' :: r => based 2 r
  | '0' :: 'B' :: r => based 2 r
  | _ =>
    match takeDecimal (takeSign cs).2 with
    | some (q, []) => .num (if (takeSign cs).1 then -q else q)
    | _ => .nan

/-! ### Double precision

A JavaScript number is a double (IEEE 754 binary64). Where a handler multiplies
a price, or turns a number into text, the result depends on the rounding to the
nearest double, which these definitions follow; an infinity has no value in
this model. -/

/-- The exponent of the greatest power of two at or below a natural number of at
least 1, found by halving; `fuel` bounds the number of halvings. -/
def log2Floor : Nat → Nat → Nat
  | 0, _ => 0
  | fuel + 1, n => if n < 2 then 0 else log2Floor fuel (n / 2) + 1

/-- The power of two with an integer exponent. -/
def pow2 (e : Int) : ℚ :=
  if 0 ≤ e then ((2 ^ e.toNat : Nat) : ℚ) else 1 / ((2 ^ (-e).toNat : Nat) : ℚ)

/-- The integer `e` with `2 ^ e <= a < 2 ^ (e + 1)`, for a positive rational. -/
def binaryExponent (a : ℚ) : Int :=
  let e : Int := (log2Floor a.num.natAbs a.num.natAbs : Int) - (log2Floor a.den a.den : Int)
  if pow2 e ≤ a then e else e - 1

/-- Rounding to the nearest integer, a tie going to the even one. -/
def roundHalfEven (x : ℚ) : Int :=
  if x - ⌊x⌋ < 1 / 2 then ⌊x⌋
  else if 1 / 2 < x - ⌊x⌋ then ⌊x⌋ + 1
  else if ⌊x⌋ % 2 = 0 then ⌊x⌋ else ⌊x⌋ + 1

/-- The double nearest to a rational, a tie going to the even mantissa: 53 bits
of mantissa, the exponent not below -1022 (subnormal numbers have fewer bits);
`none` where the nearest double would be an infinity. -/
def toDouble (q : ℚ) : Option ℚ :=
  if q = 0 then some 0
  else
    let e := max (binaryExponent |q|) (-1022)
    let m := roundHalfEven (|q| / pow2 (e - 52))
    if 1024 ≤ e ∨ (e = 1023 ∧ m = 2 ^ 53) then none
    else some (if q < 0 then -((m : ℚ) * pow2 (e - 52)) else (m : ℚ) * pow2 (e - 52))

/-- The double nearest to 0.000001, exactly. Its text is `0.000001`; the text of
every smaller positive double is in exponent notation. -/
def double_1e_6 : ℚ := 4722366482869645 / 2 ^ 72

/-- The power of ten with an integer exponent. -/
def pow10 (n : Int) : ℚ :=
  if 0 ≤ n then ((10 ^ n.toNat : Nat) : ℚ) else 1 / ((10 ^ (-n).toNat : Nat) : ℚ)

/-- The integer `n` with `10 ^ n <= a < 10 ^ (n + 1)`, for a positive rational. -/
def decimalExponent (a : ℚ) : Int :=
  if 1 ≤ a then ((Nat.repr ⌊a⌋.toNat).length : Int) - 1
  else
    let j : Nat := (Nat.repr ⌊1 / a⌋.toNat).length - 1
    if 1 ≤ a * ((10 ^ j : Nat) : ℚ) then -(j : Int) else -(j : Int) - 1

/-- The first digit of the text of a positive double in exponent notation
(`1e+21`, `1.5e-7`). The text is the shortest decimal that reads back as the
same double, so the digit is the first digit of the number itself, unless the
next number of one digit reads back as the same double (the double nearest to
1e23 is below 1e23 and its text is `1e+23`). -/
def leadingDigit (a : ℚ) : Nat :=
  let n := decimalExponent a
  let d := ⌊a / pow10 n⌋.toNat
  match toDouble (((d + 1 : Nat) : ℚ) * pow10 n) with
  | some up => if up ≤ a ∧ a ≤ up then (if d = 9 then 1 else d + 1) else d
  | none => d

namespace Val

/-- The conversion ToNumber. An array or an object is `NaN` here (the joining of
an array into a string is not modelled). -/
def toNumber : Val → Val
  | .undefined => .nan
  | .null => .num 0
  | .nan => .nan
  | .bool b => .num (if b then 1 else 0)
  | .num q => .num q
  | .str s => stringToNumber s
  | .arr _ => .nan
  | .obj _ => .nan

/-- A binary arithmetic operator on the operands converted by ToNumber. -/
def arith (f : ℚ → ℚ → Val) (a b : Val) : Val :=
  match a.toNumber, b.toNumber with
  | .num x, .num y => f x y
  | _, _ => .nan

/-- The operator `a - b` with an exact difference: the JavaScript result whenever
the operands and their difference are doubles. -/
def sub (a b : Val) : Val := arith (fun x y => .num (x - y)) a b

/-- The operator `a * b` with an exact product: the JavaScript result whenever
the operands and their product are doubles, as for integers below 2 ^ 53. -/
def mul (a b : Val) : Val := arith (fun x y => .num (x * y)) a b

/-- The operator `a * b` as JavaScript computes it: the operands converted by
ToNumber to doubles, and the double nearest to their product; an overflow, an
infinity in JavaScript, is `NaN` here. -/
def times (a b : Val) : Val :=
  match a.toNumber, b.toNumber with
  | .num x, .num y =>
    match toDouble x, toDouble y with
    | some dx, some dy =>
      match toDouble (dx * dy) with
      | some product => .num product
      | none => .nan
    | _, _ => .nan
  | _, _ => .nan

/-- The operator `a - b` as JavaScript computes it: the operands converted by
ToNumber to doubles, and the double nearest to their difference. -/
def minus (a b : Val) : Val :=
  match a.toNumber, b.toNumber with
  | .num x, .num y =>
    match toDouble x, toDouble y with
    | some dx, some dy =>
      match toDouble (dx - dy) with
      | some difference => .num difference
      | none => .nan
    | _, _ => .nan
  | _, _ => .nan

/-- The operator `a / b` as JavaScript computes it: the operands converted by
ToNumber to doubles, and the double nearest to their quotient; a division by
zero, an infinity or `NaN` in JavaScript, is `NaN` here. -/
def over (a b : Val) : Val :=
  match a.toNumber, b.toNumber with
  | .num x, .num y =>
    match toDouble x, toDouble y with
    | some dx, some dy =>
      if dy = 0 then .nan
      else
        match toDouble (dx / dy) with
        | some quotient => .num quotient
        | none => .nan
    | _, _ => .nan
  | _, _ => .nan

/-- The operator `a / b` with an exact quotient: the JavaScript result whenever
the operands and their quotient are doubles; a division by zero, an infinity or
`NaN` in JavaScript, is `NaN` here. -/
def div (a b : Val) : Val := arith (fun x y => if y = 0 then .nan else .num (x / y)) a b

/-- The operator `a < b` on operands converted by ToNumber (dates and numbers). -/
def lt (a b : Val) : Bool :=
  match a.toNumber, b.toNumber with
  | .num x, .num y => decide (x < y)
  | _, _ => false

/-- The operator `a >= b` on operands converted by ToNumber. -/
def ge (a b : Val) : Bool :=
  match a.toNumber, b.toNumber with
  | .num x, .num y => decide (y ≤ x)
  | _, _ => false

/-- The function `Math.ceil`. -/
def ceil (a : Val) : Val :=
  match a.toNumber with
  | .num x => .num (⌈x⌉ : Int)
  | _ => .nan

/-- The function `parseInt(v)`: of a string its leading integer; of a number the
leading integer of its text, which is the integer part where the text is in
decimal notation (zero, and magnitudes from the double 1e-6 up to 1e21), and
the first digit where the text is in exponent notation (`parseInt(1e21)` is 1). -/
def parseInt : Val → Val
  | .str s => parseIntChars s.data
  | .num q =>
    if q = 0 ∨ (double_1e_6 ≤ |q| ∧ |q| < 1000000000000000000000) then
      .num (if 0 ≤ q then (⌊q⌋ : Int) else (⌈q⌉ : Int))
    else if 0 ≤ q then .num (leadingDigit q : ℚ)
    else .num (-(leadingDigit (-q) : ℚ))
  | _ => .nan

/-- The function `parseFloat(v)`: of a string its leading decimal literal, of a
number the number. -/
def parseFloat : Val → Val
  | .str s => parseFloatChars s.data
  | .num q => .num q
  | _ => .nan

end Val

/-- The property `v.length`: of a string its number of UTF-16 code units, of an
array its number of elements, of anything else `undefined`. -/
def Val.length : Val → Val
  | .str s => .num (s.data.foldl (fun n c => n + (if 0x10000 ≤ c.toNat then 2 else 1)) 0 : Nat)
  | .arr xs => .num (xs.length : Nat)
  | _ => .undefined

/-! ## The database interface -/

/-- A statement handed to `pool.execute`: the SQL text (white space runs of the
source text written as one blank) and the bound parameters. -/
structure Stmt where
  sql : String
  params : List Val

/-- The database behind `pool`: running a statement in a state gives the rows or
the message of the error raised, and the next state. -/
structure Engine (σ : Type) where
  exec : σ → Stmt → Except String (List Row) × σ

/-- What the handlers take from their surroundings: the process environment,
the clock, the random source, built-in functions whose tables are not part of
this repository, and the checks of the validation library. -/
structure Runtime where
  /-- The variable `process.env.NODE_ENV`. -/
  nodeEnv : Val
  /-- The value `Math.random()` returns in this request, a number in [0, 1). -/
  random : ℚ
  /-- The value of `Date.now()`. -/
  now : Val
  /-- The time value of `new Date()` after `setHours(0, 0, 0, 0)`. -/
  today : Val
  /-- The time value of `new Date(x)`: milliseconds, or `NaN` for an invalid date. -/
  newDate : Val → Val
  /-- The method `String.prototype.toUpperCase`. -/
  toUpperCase : String → String
  /-- The conversion ToString, as a template literal applies it. -/
  toText : Val → String
  /-- The check `isInt` of the validation library with its `min` option. -/
  isInt : Int → Val → Bool
  /-- The check `isIn` of the validation library. -/
  isIn : List String → Val → Bool
  /-- The check `isCreditCard` of the validation library. -/
  isCreditCard : Val → Bool
  /-- The check `isDate` of the validation library. -/
  isDate : Val → Bool
  /-- The check `isLength` of the validation library with its `min` and `max`. -/
  isLength : Nat → Nat → Val → Bool
  /-- The entry of `errors.array()` for a failed field: field, message, value. -/
  validationError : String → String → Val → Val

/-- The authenticated requester, `req.user`, as `authenticateToken` sets it. -/
structure User where
  user_id : Val
  role : Val

/-- An HTTP response: status code and JSON body. -/
structure Response where
  status : Nat
  body : Val

/-- The call `res.status(code).json(fields)`. -/
def json (status : Nat) (fields : List (String × Val)) : Response := ⟨status, .obj fields⟩

/-- The result of running a handler: the response, the statements issued in
order, the final database state, and the message of the error its `catch`
block received, if control passed through it. -/
structure Outcome (σ : Type) where
  response : Response
  log : List Stmt
  db : σ
  caught : Option String := none

/-- The expression `process.env.NODE_ENV === 'development' ? error.message :
'Internal server error'` of every `catch` block. -/
def errorDetail (rt : Runtime) (message : String) : Val :=
  if Val.strictEq rt.nodeEnv (.str "development") then .str message
  else .str "Internal server error"

/-- The response of a validation failure (`!errors.isEmpty()`). -/
def validationFailed (errors : List Val) : Response :=
  json 400 [("success", .bool false), ("message", .str "Validation failed"),
    ("errors", .arr errors)]

/-- One chain `body(field).<check>().withMessage(message)`: the error entry when
the check fails. -/
def checkField (rt : Runtime) (body : Val) (field message : String) (check : Val → Bool) :
    List Val :=
  if check (body.get field) then [] else [rt.validationError field message (body.get field)]

/-- One chain `body(field).optional().<check>().withMessage(message)`: an
`undefined` field is skipped. -/
def checkOptional (rt : Runtime) (body : Val) (field message : String) (check : Val → Bool) :
    List Val :=
  match body.get field with
  | .undefined => []
  | _ => checkField rt body field message check

/-! ## api/routes/bookings.js -/

namespace Sql

/-- The price lookup of POST /bookings. -/
def seasonalPrice : String := "SELECT GetSeasonalPrice(?, ?) as price_per_night"

/-- The stored procedure call of POST /bookings. -/
def makeBooking : String := "CALL MakeBooking(?, ?, ?, ?, ?, ?)"

/-- The read-back of the created booking in POST /bookings. -/
def createdBooking : String :=
  "SELECT b.booking_id, b.status, b.created_at, rt.name as room_type_name, " ++
  "h.name as hotel_name, p.amount as total_amount FROM Booking b " ++
  "JOIN RoomType rt ON b.room_type_id = rt.room_type_id " ++
  "JOIN Hotel h ON rt.hotel_id = h.hotel_id " ++
  "LEFT JOIN Payment p ON b.booking_id = p.booking_id " ++
  "WHERE b.user_id = ? AND b.room_type_id = ? AND b.check_in = ? " ++
  "ORDER BY b.created_at DESC LIMIT 1"

/-- The query of GET /bookings/:booking_id. -/
def bookingDetail : String :=
  "SELECT b.booking_id, b.user_id, b.check_in, b.check_out, b.status, b.created_at, " ++
  "rt.name as room_type, rt.max_guests, h.name as hotel, h.address, h.rating, " ++
  "c.name as city, c.country, p.amount as total_amount, p.method as payment_method, " ++
  "p.status as payment_status, u.full_name as guest_name, u.email as guest_email " ++
  "FROM Booking b JOIN RoomType rt ON b.room_type_id = rt.room_type_id " ++
  "JOIN Hotel h ON rt.hotel_id = h.hotel_id JOIN City c ON h.city_id = c.city_id " ++
  "LEFT JOIN Payment p ON b.booking_id = p.booking_id " ++
  "JOIN `User` u ON b.user_id = u.user_id WHERE b.booking_id = ?"

/-- The ownership query of PUT /bookings/:booking_id/cancel. -/
def bookingOwner : String := "SELECT user_id, status FROM Booking WHERE booking_id = ?"

/-- The stored procedure call of PUT /bookings/:booking_id/cancel. -/
def cancelBooking : String := "CALL CancelBooking(?)"

/-- The listing query of GET /users/:user_id/bookings, with or without the
status filter. -/
def userBookings (withStatus : Bool) : String :=
  "SELECT b.booking_id, b.check_in, b.check_out, b.status, b.created_at, " ++
  "rt.name as room_type, h.name as hotel, h.rating, c.name as city, " ++
  "p.amount as total_amount, p.status as payment_status FROM Booking b " ++
  "JOIN RoomType rt ON b.room_type_id = rt.room_type_id " ++
  "JOIN Hotel h ON rt.hotel_id = h.hotel_id JOIN City c ON h.city_id = c.city_id " ++
  "LEFT JOIN Payment p ON b.booking_id = p.booking_id WHERE b.user_id = ?" ++
  (if withStatus then " AND b.status = ?" else "") ++
  " ORDER BY b.created_at DESC LIMIT ? OFFSET ?"

/-- The count query of GET /users/:user_id/bookings. -/
def userBookingsCount (withStatus : Bool) : String :=
  "SELECT COUNT(*) as total FROM Booking WHERE user_id = ?" ++
  (if withStatus then " AND status = ?" else "")

end Sql

/-- The chains of `validateBooking`, in order. -/
def validateBooking (rt : Runtime) (body : Val) : List Val :=
  checkField rt body "room_type_id" "Valid room_type_id required" (rt.isInt 1) ++
  checkField rt body "check_in" "Valid check_in date required (YYYY-MM-DD)" rt.isDate ++
  checkField rt body "check_out" "Valid check_out date required (YYYY-MM-DD)" rt.isDate

/-- The `catch` block of POST /bookings. -/
def createBookingCatch (rt : Runtime) (message : String) : Response :=
  if includes message "Insufficient inventory" then
    json 409 [("success", .bool false), ("message", .str "Selected dates are not available")]
  else
    json 500 [("success", .bool false), ("message", .str "Failed to create booking"),
      ("error", errorDetail rt message)]

/-- The handler of POST /bookings, after `authenticateToken`. -/
def createBooking {σ : Type} (E : Engine σ) (rt : Runtime) (user : User) (body : Val)
    (db : σ) : Outcome σ :=
  let errors := validateBooking rt body
  if !errors.isEmpty then ⟨validationFailed errors, [], db, none⟩
  else
    let room_type_id := body.get "room_type_id"
    let check_in := body.get "check_in"
    let check_out := body.get "check_out"
    let user_id := user.user_id
    let checkInDate := rt.newDate check_in
    let checkOutDate := rt.newDate check_out
    let today := rt.today
    if Val.lt checkInDate today then
      ⟨json 400 [("success", .bool false),
        ("message", .str "Check-in date cannot be in the past")], [], db, none⟩
    else if Val.ge checkInDate checkOutDate then
      ⟨json 400 [("success", .bool false),
        ("message", .str "Check-out date must be after check-in date")], [], db, none⟩
    else
      let q1 : Stmt := ⟨Sql.seasonalPrice, [room_type_id, check_in]⟩
      match E.exec db q1 with
      | (.error e, db1) => ⟨createBookingCatch rt e, [q1], db1, some e⟩
      | (.ok priceInfo, db1) =>
        let pricePerNight :=
          Val.orElse ((priceInfo.head?.map (fun r => r.get "price_per_night")).getD .undefined)
            (.num 0)
        let nights :=
          Val.ceil (Val.over (Val.minus checkOutDate checkInDate) (.num (1000 * 60 * 60 * 24)))
        let totalAmount := Val.times pricePerNight nights
        let q2 : Stmt :=
          ⟨Sql.makeBooking, [user_id, room_type_id, check_in, check_out, totalAmount, .str "CARD"]⟩
        match E.exec db1 q2 with
        | (.error e, db2) => ⟨createBookingCatch rt e, [q1, q2], db2, some e⟩
        | (.ok _, db2) =>
          let q3 : Stmt := ⟨Sql.createdBooking, [user_id, room_type_id, check_in]⟩
          match E.exec db2 q3 with
          | (.error e, db3) => ⟨createBookingCatch rt e, [q1, q2, q3], db3, some e⟩
          | (.ok [], db3) =>
            ⟨json 500 [("success", .bool false), ("message", .str "Booking creation failed")],
              [q1, q2, q3], db3, none⟩
          | (.ok (booking :: _), db3) =>
            ⟨json 201 [("success", .bool true), ("message", .str "Booking created successfully"),
              ("data", .obj [("booking_id", booking.get "booking_id"),
                ("status", booking.get "status"),
                ("total_amount", Val.parseFloat (booking.get "total_amount")),
                ("hotel_name", booking.get "hotel_name"),
                ("room_type", booking.get "room_type_name"),
                ("check_in", check_in), ("check_out", check_out), ("nights", nights)])],
              [q1, q2, q3], db3, none⟩

/-- The handler of GET /bookings/:booking_id, after `authenticateToken`. -/
def getBooking {σ : Type} (E : Engine σ) (rt : Runtime) (user : User) (booking_id : Val)
    (db : σ) : Outcome σ :=
  let user_id := user.user_id
  let isAdmin := Val.strictEq user.role (.str "ADMIN")
  let q : Stmt := ⟨Sql.bookingDetail, [booking_id]⟩
  match E.exec db q with
  | (.error e, db1) =>
    ⟨json 500 [("success", .bool false), ("message", .str "Failed to fetch booking"),
      ("error", errorDetail rt e)], [q], db1, some e⟩
  | (.ok [], db1) =>
    ⟨json 404 [("success", .bool false), ("message", .str "Booking not found")], [q], db1, none⟩
  | (.ok (booking :: _), db1) =>
    if Val.strictNe (booking.get "user_id") user_id && !isAdmin then
      ⟨json 403 [("success", .bool false), ("message", .str "Access denied")], [q], db1, none⟩
    else
      ⟨json 200 [("success", .bool true), ("data", .obj booking)], [q], db1, none⟩

/-- The `catch` block of PUT /bookings/:booking_id/cancel. -/
def cancelBookingCatch (rt : Runtime) (message : String) : Response :=
  if includes message "already cancelled" then
    json 400 [("success", .bool false), ("message", .str "Booking is already cancelled")]
  else
    json 500 [("success", .bool false), ("message", .str "Failed to cancel booking"),
      ("error", errorDetail rt message)]

/-- The handler of PUT /bookings/:booking_id/cancel, after `authenticateToken`. -/
def cancelBooking {σ : Type} (E : Engine σ) (rt : Runtime) (user : User) (booking_id : Val)
    (db : σ) : Outcome σ :=
  let user_id := user.user_id
  let isAdmin := Val.strictEq user.role (.str "ADMIN")
  let q : Stmt := ⟨Sql.bookingOwner, [booking_id]⟩
  match E.exec db q with
  | (.error e, db1) => ⟨cancelBookingCatch rt e, [q], db1, some e⟩
  | (.ok [], db1) =>
    ⟨json 404 [("success", .bool false), ("message", .str "Booking not found")], [q], db1, none⟩
  | (.ok (booking :: _), db1) =>
    if Val.strictNe (booking.get "user_id") user_id && !isAdmin then
      ⟨json 403 [("success", .bool false), ("message", .str "Access denied")], [q], db1, none⟩
    else if Val.strictEq (booking.get "status") (.str "CANCELLED") then
      ⟨json 400 [("success", .bool false), ("message", .str "Booking is already cancelled")],
        [q], db1, none⟩
    else
      let c : Stmt := ⟨Sql.cancelBooking, [booking_id]⟩
      match E.exec db1 c with
      | (.error e, db2) => ⟨cancelBookingCatch rt e, [q, c], db2, some e⟩
      | (.ok _, db2) =>
        ⟨json 200 [("success", .bool true), ("message", .str "Booking cancelled successfully")],
          [q, c], db2, none⟩

/-- The message of the TypeError raised by calling an absent method. -/
def notAFunction (what : String) : String := what ++ " is not a function"

/-- The message of the TypeError raised by reading a property of `undefined`. -/
def readOfUndefined (property : String) : String :=
  "Cannot read properties of undefined (reading '" ++ property ++ "')"

/-- The `catch` block of GET /users/:user_id/bookings. -/
def userBookingsCatch (rt : Runtime) (message : String) : Response :=
  json 500 [("success", .bool false), ("message", .str "Failed to fetch bookings"),
    ("error", errorDetail rt message)]

/-- A destructuring default `{ field = fallback }`: used when the field is
`undefined`. -/
def withDefault (v fallback : Val) : Val :=
  match v with
  | .undefined => fallback
  | _ => v

/-- The handler of GET /users/:user_id/bookings, after `authenticateToken`;
`query` is `req.query`. -/
def userBookings {σ : Type} (E : Engine σ) (rt : Runtime) (user : User) (user_id : Val)
    (query : Val) (db : σ) : Outcome σ :=
  let requestingUserId := user.user_id
  let isAdmin := Val.strictEq user.role (.str "ADMIN")
  if Val.strictNe (Val.parseInt user_id) requestingUserId && !isAdmin then
    ⟨json 403 [("success", .bool false), ("message", .str "Access denied")], [], db, none⟩
  else
    let status := query.get "status"
    let page := withDefault (query.get "page") (.num 1)
    let limit := withDefault (query.get "limit") (.num 10)
    let offset := Val.times (Val.minus page (.num 1)) limit
    -- `status.toUpperCase()` is evaluated when `status` is truthy
    let filter : Except String (List Val) :=
      if status.truthy then
        match status with
        | .str s => .ok [.str (rt.toUpperCase s)]
        | _ => .error (notAFunction "status.toUpperCase")
      else .ok []
    match filter with
    | .error e => ⟨userBookingsCatch rt e, [], db, some e⟩
    | .ok statusParams =>
      let q : Stmt :=
        ⟨Sql.userBookings status.truthy,
          [user_id] ++ statusParams ++ [Val.parseInt limit, Val.parseInt offset]⟩
      match E.exec db q with
      | (.error e, db1) => ⟨userBookingsCatch rt e, [q], db1, some e⟩
      | (.ok bookings, db1) =>
        let c : Stmt := ⟨Sql.userBookingsCount status.truthy, [user_id] ++ statusParams⟩
        match E.exec db1 c with
        | (.error e, db2) => ⟨userBookingsCatch rt e, [q, c], db2, some e⟩
        | (.ok [], db2) =>
          ⟨userBookingsCatch rt (readOfUndefined "total"), [q, c], db2,
            some (readOfUndefined "total")⟩
        | (.ok (countRow :: _), db2) =>
          let total := countRow.get "total"
          ⟨json 200 [("success", .bool true),
            ("data", .obj [("bookings", .arr (bookings.map Val.obj)),
              ("pagination", .obj [("current_page", Val.parseInt page),
                ("per_page", Val.parseInt limit), ("total_items", total),
                ("total_pages", Val.ceil (Val.over total limit))])])],
            [q, c], db2, none⟩

/-! ## api/routes/payments.js -/

namespace Sql

/-- The booking lookup of POST /payments. -/
def paymentBooking : String :=
  "SELECT b.booking_id, b.user_id, b.status, p.status as payment_status, " ++
  "rt.name as room_type, h.name as hotel_name FROM Booking b " ++
  "LEFT JOIN Payment p ON b.booking_id = p.booking_id " ++
  "JOIN RoomType rt ON b.room_type_id = rt.room_type_id " ++
  "JOIN Hotel h ON rt.hotel_id = h.hotel_id WHERE b.booking_id = ?"

/-- The amount lookup of POST /payments. -/
def paymentAmount : String := "SELECT amount FROM Payment WHERE booking_id = ?"

/-- The update of POST /payments after a failed payment. -/
def paymentFailed : String :=
  "UPDATE Payment SET status = 'FAILED', paid_at = NOW() WHERE booking_id = ?"

/-- The update of POST /payments after a successful payment. -/
def paymentSucceeded : String :=
  "UPDATE Payment SET status = 'SUCCESS', paid_at = NOW(), method = ? WHERE booking_id = ?"

/-- The read-back of POST /payments. -/
def updatedPayment : String :=
  "SELECT payment_id, amount, status, paid_at FROM Payment WHERE booking_id = ?"

/-- The query of GET /payments/:payment_id. -/
def paymentDetail : String :=
  "SELECT p.payment_id, p.booking_id, p.amount, p.method, p.status, p.paid_at, " ++
  "b.user_id, b.check_in, b.check_out, rt.name as room_type, h.name as hotel_name " ++
  "FROM Payment p JOIN Booking b ON p.booking_id = b.booking_id " ++
  "JOIN RoomType rt ON b.room_type_id = rt.room_type_id " ++
  "JOIN Hotel h ON rt.hotel_id = h.hotel_id WHERE p.payment_id = ?"

/-- The payment lookup of POST /payments/:payment_id/refund. -/
def refundPayment : String :=
  "SELECT p.payment_id, p.booking_id, p.status, p.amount, b.status as booking_status " ++
  "FROM Payment p JOIN Booking b ON p.booking_id = b.booking_id WHERE p.payment_id = ?"

/-- The update of POST /payments/:payment_id/refund. -/
def paymentRefunded : String := "UPDATE Payment SET status = 'REFUNDED' WHERE payment_id = ?"

end Sql

/-- Whether a statement is an UPDATE of the Payment table. -/
def Stmt.updatesPayment (s : Stmt) : Bool := "UPDATE Payment".data.isPrefixOf s.sql.data

/-- The pattern `/^(0[1-9]|1[0-2])\/\d{2}$/` of the `expiry` chain. -/
def expiryPattern : List Char → Bool
  | [m1, m2, '/', y1, y2] =>
    ((m1 == '0' && decide ('1' ≤ m2 ∧ m2 ≤ '9')) || (m1 == '1' && decide ('0' ≤ m2 ∧ m2 ≤ '2')))
      && decide ('0' ≤ y1 ∧ y1 ≤ '9') && decide ('0' ≤ y2 ∧ y2 ≤ '9')
  | _ => false

/-- The chains of `validatePayment`, in order. -/
def validatePayment (rt : Runtime) (body : Val) : List Val :=
  checkField rt body "booking_id" "Valid booking_id required" (rt.isInt 1) ++
  checkField rt body "payment_method" "Valid payment method required"
    (rt.isIn ["CARD", "UPI", "NETBANKING", "CASH"]) ++
  checkOptional rt body "card_number" "Valid card number required" rt.isCreditCard ++
  checkOptional rt body "expiry" "Valid expiry format required (MM/YY)"
    (fun v => expiryPattern (rt.toText v).data) ++
  checkOptional rt body "cvv" "Valid CVV required" (rt.isLength 3 4)

/-- The double nearest to 0.05, exactly. -/
def double_0_05 : ℚ := 3602879701896397 / 2 ^ 56

/-- The double nearest to 0.02, exactly. -/
def double_0_02 : ℚ := 5764607523034235 / 2 ^ 58

/-- The function `simulatePaymentProcessing(paymentMethod, cardNumber)`;
`rt.random` is the value of its one call of `Math.random()`. -/
def simulatePaymentProcessing (rt : Runtime) (paymentMethod cardNumber : Val) : Bool :=
  if Val.strictEq paymentMethod (.str "CARD") then
    if !cardNumber.truthy || Val.lt cardNumber.length (.num 15) then false
    else decide (rt.random > double_0_05)
  else decide (rt.random > double_0_02)

/-- The `catch` block of POST /payments. -/
def processPaymentCatch (rt : Runtime) (message : String) : Response :=
  json 500 [("success", .bool false), ("message", .str "Payment processing failed"),
    ("error", errorDetail rt message)]

/-- The handler of POST /payments, after `authenticateToken`. -/
def processPayment {σ : Type} (E : Engine σ) (rt : Runtime) (user : User) (body : Val)
    (db : σ) : Outcome σ :=
  let errors := validatePayment rt body
  if !errors.isEmpty then ⟨validationFailed errors, [], db, none⟩
  else
    let booking_id := body.get "booking_id"
    let payment_method := body.get "payment_method"
    let card_number := body.get "card_number"
    let user_id := user.user_id
    let q1 : Stmt := ⟨Sql.paymentBooking, [booking_id]⟩
    match E.exec db q1 with
    | (.error e, db1) => ⟨processPaymentCatch rt e, [q1], db1, some e⟩
    | (.ok [], db1) =>
      ⟨json 404 [("success", .bool false), ("message", .str "Booking not found")],
        [q1], db1, none⟩
    | (.ok (booking :: _), db1) =>
      if Val.strictNe (booking.get "user_id") user_id then
        ⟨json 403 [("success", .bool false), ("message", .str "Access denied")],
          [q1], db1, none⟩
      else if Val.strictEq (booking.get "status") (.str "CANCELLED") then
        ⟨json 400 [("success", .bool false),
          ("message", .str "Cannot pay for cancelled booking")], [q1], db1, none⟩
      else if Val.strictEq (booking.get "payment_status") (.str "SUCCESS") then
        ⟨json 400 [("success", .bool false),
          ("message", .str "Payment already completed for this booking")], [q1], db1, none⟩
      else
        let q2 : Stmt := ⟨Sql.paymentAmount, [booking_id]⟩
        match E.exec db1 q2 with
        | (.error e, db2) => ⟨processPaymentCatch rt e, [q1, q2], db2, some e⟩
        | (.ok [], db2) =>
          ⟨json 404 [("success", .bool false), ("message", .str "Payment record not found")],
            [q1, q2], db2, none⟩
        | (.ok (_ :: _), db2) =>
          let isPaymentSuccessful := simulatePaymentProcessing rt payment_method card_number
          if !isPaymentSuccessful then
            let q3 : Stmt := ⟨Sql.paymentFailed, [booking_id]⟩
            match E.exec db2 q3 with
            | (.error e, db3) => ⟨processPaymentCatch rt e, [q1, q2, q3], db3, some e⟩
            | (.ok _, db3) =>
              ⟨json 400 [("success", .bool false),
                ("message", .str "Payment processing failed. Please try again.")],
                [q1, q2, q3], db3, none⟩
          else
            let q4 : Stmt := ⟨Sql.paymentSucceeded, [payment_method, booking_id]⟩
            match E.exec db2 q4 with
            | (.error e, db3) => ⟨processPaymentCatch rt e, [q1, q2, q4], db3, some e⟩
            | (.ok _, db3) =>
              let transactionRef := "txn_" ++ rt.toText rt.now ++ "_" ++ rt.toText booking_id
              let q5 : Stmt := ⟨Sql.updatedPayment, [booking_id]⟩
              match E.exec db3 q5 with
              | (.error e, db4) => ⟨processPaymentCatch rt e, [q1, q2, q4, q5], db4, some e⟩
              | (.ok [], db4) =>
                ⟨processPaymentCatch rt (readOfUndefined "payment_id"), [q1, q2, q4, q5], db4,
                  some (readOfUndefined "payment_id")⟩
              | (.ok (updated :: _), db4) =>
                ⟨json 200 [("success", .bool true),
                  ("message", .str "Payment processed successfully"),
                  ("data", .obj [("payment_id", updated.get "payment_id"),
                    ("booking_id", Val.parseInt booking_id),
                    ("amount", Val.parseFloat (updated.get "amount")),
                    ("status", updated.get "status"),
                    ("transaction_ref", .str transactionRef),
                    ("paid_at", updated.get "paid_at"),
                    ("hotel_name", booking.get "hotel_name"),
                    ("room_type", booking.get "room_type")])],
                  [q1, q2, q4, q5], db4, none⟩

/-- The handler of GET /payments/:payment_id, after `authenticateToken`. -/
def getPayment {σ : Type} (E : Engine σ) (rt : Runtime) (user : User) (payment_id : Val)
    (db : σ) : Outcome σ :=
  let user_id := user.user_id
  let isAdmin := Val.strictEq user.role (.str "ADMIN")
  let q : Stmt := ⟨Sql.paymentDetail, [payment_id]⟩
  match E.exec db q with
  | (.error e, db1) =>
    ⟨json 500 [("success", .bool false), ("message", .str "Failed to fetch payment details"),
      ("error", errorDetail rt e)], [q], db1, some e⟩
  | (.ok [], db1) =>
    ⟨json 404 [("success", .bool false), ("message", .str "Payment not found")], [q], db1, none⟩
  | (.ok (payment :: _), db1) =>
    if Val.strictNe (payment.get "user_id") user_id && !isAdmin then
      ⟨json 403 [("success", .bool false), ("message", .str "Access denied")], [q], db1, none⟩
    else
      ⟨json 200 [("success", .bool true), ("data", .obj payment)], [q], db1, none⟩

/-- The `catch` block of POST /payments/:payment_id/refund. -/
def refundCatch (rt : Runtime) (message : String) : Response :=
  json 500 [("success", .bool false), ("message", .str "Refund processing failed"),
    ("error", errorDetail rt message)]

/-- The handler of POST /payments/:payment_id/refund, after `authenticateToken`. -/
def refund {σ : Type} (E : Engine σ) (rt : Runtime) (user : User) (payment_id : Val)
    (body : Val) (db : σ) : Outcome σ :=
  if Val.strictNe user.role (.str "ADMIN") then
    ⟨json 403 [("success", .bool false), ("message", .str "Admin access required")],
      [], db, none⟩
  else
    let reason := body.get "reason"
    let q : Stmt := ⟨Sql.refundPayment, [payment_id]⟩
    match E.exec db q with
    | (.error e, db1) => ⟨refundCatch rt e, [q], db1, some e⟩
    | (.ok [], db1) =>
      ⟨json 404 [("success", .bool false), ("message", .str "Payment not found")],
        [q], db1, none⟩
    | (.ok (payment :: _), db1) =>
      if Val.strictNe (payment.get "status") (.str "SUCCESS") then
        ⟨json 400 [("success", .bool false),
          ("message", .str "Can only refund successful payments")], [q], db1, none⟩
      else if Val.strictEq (payment.get "status") (.str "REFUNDED") then
        ⟨json 400 [("success", .bool false), ("message", .str "Payment already refunded")],
          [q], db1, none⟩
      else
        let u : Stmt := ⟨Sql.paymentRefunded, [payment_id]⟩
        match E.exec db1 u with
        | (.error e, db2) => ⟨refundCatch rt e, [q, u], db2, some e⟩
        | (.ok _, db2) =>
          ⟨json 200 [("success", .bool true), ("message", .str "Refund processed successfully"),
            ("data", .obj [("payment_id", Val.parseInt payment_id),
              ("booking_id", payment.get "booking_id"),
              ("refund_amount", Val.parseFloat (payment.get "amount")),
              ("reason", Val.orElse reason (.str "Refund requested by admin"))])],
            [q, u], db2, none⟩

/-! ## api/routes/reviews.js: the two GET routes -/

namespace Sql

/-- The query of GET /reviews/:review_id. -/
def reviewDetail : String :=
  "SELECT r.review_id, r.rating, r.review_title, r.review_text, r.helpful_count, " ++
  "r.created_at, r.is_verified, u.full_name as reviewer_name, h.name as hotel_name, " ++
  "h.hotel_id, c.name as city_name FROM Review r JOIN `User` u ON r.user_id = u.user_id " ++
  "JOIN Hotel h ON r.hotel_id = h.hotel_id JOIN City c ON h.city_id = c.city_id " ++
  "WHERE r.review_id = ?"

/-- The query of GET /reviews/recent. -/
def recentReviews : String :=
  "SELECT r.review_id, r.rating, r.review_title, r.review_text, r.helpful_count, " ++
  "r.created_at, u.full_name as reviewer_name, h.name as hotel_name, h.hotel_id, " ++
  "c.name as city_name FROM Review r JOIN `User` u ON r.user_id = u.user_id " ++
  "JOIN Hotel h ON r.hotel_id = h.hotel_id JOIN City c ON h.city_id = c.city_id " ++
  "WHERE r.is_verified = TRUE ORDER BY r.created_at DESC LIMIT ? OFFSET ?"

end Sql

/-- The handler of GET /reviews/:review_id. -/
def getReview {σ : Type} (E : Engine σ) (rt : Runtime) (review_id : Val) (db : σ) :
    Outcome σ :=
  let q : Stmt := ⟨Sql.reviewDetail, [review_id]⟩
  match E.exec db q with
  | (.error e, db1) =>
    ⟨json 500 [("success", .bool false), ("message", .str "Failed to fetch review"),
      ("error", errorDetail rt e)], [q], db1, some e⟩
  | (.ok [], db1) =>
    ⟨json 404 [("success", .bool false), ("message", .str "Review not found")], [q], db1, none⟩
  | (.ok (review :: _), db1) =>
    ⟨json 200 [("success", .bool true), ("data", .obj review)], [q], db1, none⟩

/-- The handler of GET /reviews/recent; `query` is `req.query`. -/
def recentReviews {σ : Type} (E : Engine σ) (rt : Runtime) (query : Val) (db : σ) :
    Outcome σ :=
  let limit := withDefault (query.get "limit") (.num 10)
  let page := withDefault (query.get "page") (.num 1)
  let offset := Val.times (Val.minus page (.num 1)) limit
  let q : Stmt := ⟨Sql.recentReviews, [Val.parseInt limit, Val.parseInt offset]⟩
  match E.exec db q with
  | (.error e, db1) =>
    ⟨json 500 [("success", .bool false), ("message", .str "Failed to fetch recent reviews"),
      ("error", errorDetail rt e)], [q], db1, some e⟩
  | (.ok reviews, db1) =>
    ⟨json 200 [("success", .bool true), ("data", .arr (reviews.map Val.obj))], [q], db1, none⟩

/-! ## Routing: the routers and backend/app.js -/

/-- The request methods that reach the routers (an OPTIONS request is answered
by the CORS middleware before them). -/
inductive Method where
  | GET | POST | PUT | DELETE | PATCH | HEAD
  deriving DecidableEq

/-- A segment of a route path: a literal, or a named parameter `:name`. -/
inductive Seg where
  | lit (s : String)
  | param (name : String)

/-- The handlers the routes of the application name. -/
inductive Handler where
  | health | documentation | notFound
  | listCities | cityHotels
  | getHotel | hotelReviews
  | availability | calendar
  | createBooking | getBooking | cancelBooking | userBookings
  | processPayment | getPayment | refund
  | addReview | getReview | markHelpful | updateReview | deleteReview | recentReviews
  | listPricing | createPricing | getPricing | updatePricing | deletePricing | currentPrice
  | auth (name : String)
  deriving DecidableEq

/-- A route of a router: `router.METHOD(path, ..., handler)`. -/
structure Route where
  method : Method
  path : List Seg
  handler : Handler

/-- Where a request ends up: the handler and the values of `req.params`. -/
structure Target where
  handler : Handler
  params : List (String × String)
  deriving DecidableEq

/-- The pieces of a list of characters between slashes. -/
def splitSlash : List Char → List (List Char)
  | [] => [[]]
  | c :: cs =>
    match splitSlash cs with
    | [] => if c = '/' then [[], []] else [[c]]
    | seg :: rest => if c = '/' then [] :: seg :: rest else (c :: seg) :: rest

/-- The segments of a request path: the pieces between slashes, without the
empty piece before the leading slash and without an empty piece after a
trailing slash (routing is not strict about it). -/
def segments (path : String) : List String :=
  let pieces := (splitSlash path.data).map String.mk
  let pieces := match pieces with
    | "" :: rest => rest
    | ps => ps
  match pieces.reverse with
  | "" :: rest => rest.reverse
  | _ => pieces

/-- Literal segments are compared without regard to the case of ASCII letters
(routing is not case sensitive). -/
def sameLiteral (a b : String) : Bool := a.data.map Char.toLower == b.data.map Char.toLower

/-- Matching a route path against the segments of a request path: the bound
parameters when every segment matches; a parameter takes one non-empty segment. -/
def matchPath : List Seg → List String → Option (List (String × String))
  | [], [] => some []
  | .lit s :: ps, x :: xs => if sameLiteral s x then matchPath ps xs else none
  | .param name :: ps, x :: xs =>
    if x = "" then none else (matchPath ps xs).map (fun bound => (name, x) :: bound)
  | _, _ => none

/-- Whether a route registered for `route` serves a request of method `m`: the
same method, or a HEAD request on a GET route. -/
def servesMethod (route m : Method) : Bool :=
  decide (route = m) || (decide (m = .HEAD) && decide (route = .GET))

/-- The first route of a router, in registration order, that serves the request. -/
def dispatchRouter : List Route → Method → List String → Option Target
  | [], _, _ => none
  | r :: rs, m, segs =>
    if servesMethod r.method m then
      match matchPath r.path segs with
      | some params => some ⟨r.handler, params⟩
      | none => dispatchRouter rs m segs
    else dispatchRouter rs m segs

/-- The request path below a mount point: `some rest` when the path starts with
the segments of the mount point. -/
def belowMount : List String → List String → Option (List String)
  | [], segs => some segs
  | b :: bs, x :: xs => if sameLiteral b x then belowMount bs xs else none
  | _ :: _, [] => none

/-- A layer of the application, in registration order. -/
inductive Layer where
  /-- A route of the application itself, `app.get(path, handler)`. -/
  | route (r : Route)
  /-- A mounted router, `app.use(base, router)`. -/
  | mount (base : List String) (router : List Route)
  /-- A catch-all, `app.use('*', handler)`. -/
  | all (h : Handler)

/-- The layer that answers a request: the first one, in registration order,
that matches; a mounted router with no matching route passes the request on. -/
def dispatch : List Layer → Method → List String → Option Target
  | [], _, _ => none
  | .route r :: ls, m, segs =>
    match dispatchRouter [r] m segs with
    | some t => some t
    | none => dispatch ls m segs
  | .mount base router :: ls, m, segs =>
    match belowMount base segs with
    | some rest =>
      match dispatchRouter router m rest with
      | some t => some t
      | none => dispatch ls m segs
    | none => dispatch ls m segs
  | .all h :: _, _, _ => some ⟨h, []⟩

/-- The routes of api/routes/cities.js. -/
def cityRoutes : List Route :=
  [⟨.GET, [], .listCities⟩,
   ⟨.GET, [.param "city_id", .lit "hotels"], .cityHotels⟩]

/-- The routes of api/routes/hotels.js. -/
def hotelRoutes : List Route :=
  [⟨.GET, [.param "hotel_id"], .getHotel⟩,
   ⟨.GET, [.param "hotel_id", .lit "reviews"], .hotelReviews⟩]

/-- The routes of backend/routes/roomtypes.js. -/
def roomTypeRoutes : List Route :=
  [⟨.GET, [.param "room_type_id", .lit "availability"], .availability⟩,
   ⟨.GET, [.param "room_type_id", .lit "calendar"], .calendar⟩]

/-- The routes of api/routes/bookings.js. -/
def bookingRoutes : List Route :=
  [⟨.POST, [], .createBooking⟩,
   ⟨.GET, [.param "booking_id"], .getBooking⟩,
   ⟨.PUT, [.param "booking_id", .lit "cancel"], .cancelBooking⟩,
   ⟨.GET, [.lit "users", .param "user_id", .lit "bookings"], .userBookings⟩]

/-- The routes of api/routes/payments.js. -/
def paymentRoutes : List Route :=
  [⟨.POST, [], .processPayment⟩,
   ⟨.GET, [.param "payment_id"], .getPayment⟩,
   ⟨.POST, [.param "payment_id", .lit "refund"], .refund⟩]

/-- The routes of api/routes/reviews.js. -/
def reviewRoutes : List Route :=
  [⟨.POST, [], .addReview⟩,
   ⟨.GET, [.param "review_id"], .getReview⟩,
   ⟨.POST, [.param "review_id", .lit "helpful"], .markHelpful⟩,
   ⟨.PUT, [.param "review_id"], .updateReview⟩,
   ⟨.DELETE, [.param "review_id"], .deleteReview⟩,
   ⟨.GET, [.lit "recent"], .recentReviews⟩]

/-- The routes of backend/routes/seasonal-pricing.js. -/
def seasonalPricingRoutes : List Route :=
  [⟨.GET, [], .listPricing⟩,
   ⟨.POST, [], .createPricing⟩,
   ⟨.GET, [.param "pricing_id"], .getPricing⟩,
   ⟨.PUT, [.param "pricing_id"], .updatePricing⟩,
   ⟨.DELETE, [.param "pricing_id"], .deletePricing⟩,
   ⟨.GET, [.lit "room-types", .param "room_type_id", .lit "current-price"], .currentPrice⟩]

/-- The layers of backend/app.js after its middleware, in registration order.
`apiVersion` is `API_VERSION` ('v1' unless the environment sets it). The routers
it requires from `./routes` are the route files at hand (those of api/routes
and backend/routes); `authRoutes` are the routes of routes/auth.js, which is
not among them. -/
def app (apiVersion : String) (authRoutes : List Route) : List Layer :=
  [.route ⟨.GET, [.lit "health"], .health⟩,
   .route ⟨.GET, [.lit "api", .lit apiVersion], .documentation⟩,
   .mount ["api", apiVersion, "auth"] authRoutes,
   .mount ["api", apiVersion, "cities"] cityRoutes,
   .mount ["api", apiVersion, "hotels"] hotelRoutes,
   .mount ["api", apiVersion, "roomtypes"] roomTypeRoutes,
   .mount ["api", apiVersion, "bookings"] bookingRoutes,
   .mount ["api", apiVersion, "payments"] paymentRoutes,
   .mount ["api", apiVersion, "reviews"] reviewRoutes,
   .mount ["api", apiVersion, "seasonal-pricing"] seasonalPricingRoutes,
   .mount ["api", apiVersion, "users"] bookingRoutes,
   .all .notFound]

/-! ## A reference engine: the statements of bookings.js and payments.js on tables

The handlers above hold for every `Engine`.  Where a property speaks of what is
stored, it is stated for this engine, which reads the plain SELECT and UPDATE
texts on in-memory tables.  A Booking row carries the columns its joins with
RoomType, Hotel, City and User add (every booking has those rows).  The stored
procedure `CancelBooking` is not part of the sources at hand and is a parameter. -/

/-- A row of Booking with the columns of its joined RoomType, Hotel, City and
User rows; `details` holds the columns only GET /bookings/:booking_id selects. -/
structure BookingRec where
  booking_id : Val
  user_id : Val
  status : Val
  room_type : Val
  hotel_name : Val
  details : Row

/-- A row of Payment. -/
structure PaymentRec where
  payment_id : Val
  booking_id : Val
  amount : Val
  method : Val
  status : Val
  paid_at : Val

/-- The tables, and the value of `NOW()`. -/
structure Database where
  bookings : List BookingRec
  payments : List PaymentRec
  clock : Val

/-- The stored procedures, as functions on the tables. -/
structure Procedures where
  /-- The procedure `CancelBooking(booking_id)`. -/
  cancelBooking : Database → Val → Except String Database

/-- The comparison `column = ?` of a key column with a bound parameter, which
the engine reads as a number (the text '12' and the number 12 name one key). -/
def keyEq (column param : Val) : Bool := Val.strictEq column param.toNumber

/-- The payments joined to a booking by `ON b.booking_id = p.booking_id`. -/
def paymentsOf (db : Database) (b : BookingRec) : List PaymentRec :=
  db.payments.filter (fun p => Val.strictEq p.booking_id b.booking_id)

/-- The rows of a `LEFT JOIN Payment`: one per joined payment, or one with no
payment when there is none. -/
def leftJoinPayment (db : Database) (b : BookingRec) (row : Option PaymentRec → Row) :
    List Row :=
  match paymentsOf db b with
  | [] => [row none]
  | ps => ps.map (fun p => row (some p))

/-- A payment column of a left join: NULL when no payment is joined. -/
def paymentColumn (p : Option PaymentRec) (column : PaymentRec → Val) : Val :=
  match p with
  | some r => column r
  | none => .null

/-- The statements of bookings.js and payments.js that name one booking or one
payment, read on the tables; any other statement raises. -/
def tableExec (P : Procedures) (db : Database) (s : Stmt) :
    Except String (List Row) × Database :=
  match s.params with
  | [key] =>
    if s.sql = Sql.bookingOwner then
      (.ok ((db.bookings.filter (fun b => keyEq b.booking_id key)).map
        (fun b => [("user_id", b.user_id), ("status", b.status)])), db)
    else if s.sql = Sql.cancelBooking then
      match P.cancelBooking db key with
      | .ok db1 => (.ok [], db1)
      | .error e => (.error e, db)
    else if s.sql = Sql.bookingDetail then
      (.ok ((db.bookings.filter (fun b => keyEq b.booking_id key)).flatMap
        (fun b => leftJoinPayment db b (fun p =>
          [("booking_id", b.booking_id), ("user_id", b.user_id), ("status", b.status),
           ("room_type", b.room_type), ("hotel", b.hotel_name),
           ("total_amount", paymentColumn p (fun r => r.amount)),
           ("payment_method", paymentColumn p (fun r => r.method)),
           ("payment_status", paymentColumn p (fun r => r.status))] ++ b.details))), db)
    else if s.sql = Sql.paymentBooking then
      (.ok ((db.bookings.filter (fun b => keyEq b.booking_id key)).flatMap
        (fun b => leftJoinPayment db b (fun p =>
          [("booking_id", b.booking_id), ("user_id", b.user_id), ("status", b.status),
           ("payment_status", paymentColumn p (fun r => r.status)),
           ("room_type", b.room_type), ("hotel_name", b.hotel_name)]))), db)
    else if s.sql = Sql.paymentAmount then
      (.ok ((db.payments.filter (fun p => keyEq p.booking_id key)).map
        (fun p => [("amount", p.amount)])), db)
    else if s.sql = Sql.paymentFailed then
      (.ok [], { db with payments := db.payments.map (fun p =>
        if keyEq p.booking_id key then { p with status := .str "FAILED", paid_at := db.clock }
        else p) })
    else if s.sql = Sql.updatedPayment then
      (.ok ((db.payments.filter (fun p => keyEq p.booking_id key)).map
        (fun p => [("payment_id", p.payment_id), ("amount", p.amount), ("status", p.status),
          ("paid_at", p.paid_at)])), db)
    else if s.sql = Sql.refundPayment then
      (.ok ((db.payments.filter (fun p => keyEq p.payment_id key)).flatMap
        (fun p => (db.bookings.filter (fun b => Val.strictEq p.booking_id b.booking_id)).map
          (fun b => [("payment_id", p.payment_id), ("booking_id", p.booking_id),
            ("status", p.status), ("amount", p.amount), ("booking_status", b.status)]))), db)
    else if s.sql = Sql.paymentRefunded then
      (.ok [], { db with payments := db.payments.map (fun p =>
        if keyEq p.payment_id key then { p with status := .str "REFUNDED" } else p) })
    else (.error "statement not supported by the reference engine", db)
  | [method, key] =>
    if s.sql = Sql.paymentSucceeded then
      (.ok [], { db with payments := db.payments.map (fun p =>
        if keyEq p.booking_id key then
          { p with status := .str "SUCCESS", paid_at := db.clock, method := method }
        else p) })
    else (.error "statement not supported by the reference engine", db)
  | _ => (.error "statement not supported by the reference engine", db)

/-- The reference engine. -/
def tableEngine (P : Procedures) : Engine Database := ⟨tableExec P⟩

/-! ## Sample data -/

/-- The number of days from 1970-01-01 to a date of the civil calendar. -/
def daysFromCivil (year month day : Int) : Int :=
  let y := if month ≤ 2 then year - 1 else year
  let era := y / 400
  let yoe := y - era * 400
  let doy := (153 * (if month > 2 then month - 3 else month + 9) + 2) / 5 + day - 1
  let doe := yoe * 365 + yoe / 4 - yoe / 100 + doy
  era * 146097 + doe - 719468

/-- The time value of a date written `YYYY-MM-DD`, read as midnight UTC; `NaN`
for any other value. -/
def isoDate (v : Val) : Val :=
  match v with
  | .str s =>
    match s.data with
    | [y1, y2, y3, y4, '-', m1, m2, '-', d1, d2] =>
      match (takeDigits 10 [y1, y2, y3, y4]).1, (takeDigits 10 [m1, m2]).1,
        (takeDigits 10 [d1, d2]).1 with
      | [a, b, c, d], [m, n], [x, y] =>
        .num ((daysFromCivil (fromDigits 10 [a, b, c, d]) (fromDigits 10 [m, n])
          (fromDigits 10 [x, y]) * 86400000 : Int) : ℚ)
      | _, _, _ => .nan
    | _ => .nan
  | _ => .nan

/-- A runtime for the examples: production mode, a random draw of one half, and
simple stand-ins for the checks of the validation library. -/
def sampleRuntime : Runtime where
  nodeEnv := .str "production"
  random := 1 / 2
  now := .num 1762300800000
  today := isoDate (.str "2025-11-05")
  newDate := isoDate
  toUpperCase := fun s => String.mk (s.data.map Char.toUpper)
  toText := fun v => match v with
    | .str s => s
    | _ => ""
  isInt := fun min v => match v.toNumber with
    | .num q => decide ((min : ℚ) ≤ q)
    | _ => false
  isIn := fun allowed v => match v with
    | .str s => allowed.contains s
    | _ => false
  isCreditCard := fun v => match v with
    | .str s => s.data.all Char.isDigit && decide (13 ≤ s.data.length)
    | _ => false
  isDate := fun v => match v with
    | .str s => decide (s.data.length = 10)
    | _ => false
  isLength := fun lo hi v => match v with
    | .str s => decide (lo ≤ s.data.length ∧ s.data.length ≤ hi)
    | _ => false
  validationError := fun field message value =>
    .obj [("msg", .str message), ("path", .str field), ("value", value)]

/-- Three bookings (the second one cancelled, the third of another user) and
two payments. -/
def sampleDb : Database where
  bookings :=
    [⟨.num 1, .num 7, .str "CONFIRMED", .str "Deluxe", .str "Grand Hotel", []⟩,
     ⟨.num 2, .num 7, .str "CANCELLED", .str "Suite", .str "Grand Hotel", []⟩,
     ⟨.num 3, .num 8, .str "CONFIRMED", .str "Deluxe", .str "Sea View", []⟩]
  payments :=
    [⟨.num 10, .num 1, .str "150.00", .str "CARD", .str "PENDING", .null⟩,
     ⟨.num 11, .num 3, .str "99.50", .str "UPI", .str "SUCCESS", .str "2025-11-01 10:00:00"⟩]
  clock := .str "2025-11-05 12:00:00"

/-- A `CancelBooking` that raises on a cancelled booking and otherwise marks the
booking cancelled. -/
def sampleProcedures : Procedures where
  cancelBooking := fun db key =>
    if db.bookings.any (fun b => keyEq b.booking_id key && Val.strictEq b.status (.str "CANCELLED"))
    then .error "Booking is already cancelled"
    else .ok { db with bookings := db.bookings.map (fun b =>
      if keyEq b.booking_id key then { b with status := .str "CANCELLED" } else b) }

/-- A `CancelBooking` that finds the booking cancelled by someone else in the
meantime. -/
def racingProcedures : Procedures where
  cancelBooking := fun _ _ => .error "Booking is already cancelled"

/-- The requester who owns bookings 1 and 2 of `sampleDb`. -/
def alice : User := ⟨.num 7, .str "USER"⟩

/-- The requester who owns booking 3 of `sampleDb`. -/
def bob : User := ⟨.num 8, .str "USER"⟩

/-- An administrator. -/
def admin : User := ⟨.num 1, .str "ADMIN"⟩

/-- The sample runtime with a random draw of one hundredth. -/
def unluckyRuntime : Runtime := { sampleRuntime with random := 1 / 100 }

/-- A card payment for a booking. -/
def cardBodyFor (booking_id : Val) : Val :=
  .obj [("booking_id", booking_id), ("payment_method", .str "CARD"),
    ("card_number", .str "4242424242424242"), ("expiry", .str "12/25"), ("cvv", .str "123")]

/-- A card payment for booking 1 of `sampleDb`. -/
def cardBody : Val := cardBodyFor (.num 1)

/-- A booking request for two nights in December 2025. -/
def bookingBody : Val :=
  .obj [("room_type_id", .num 1), ("check_in", .str "2025-12-01"),
    ("check_out", .str "2025-12-03")]

/-- An engine without state that answers every statement with the same rows. -/
def answering (rows : List Row) : Engine Unit := ⟨fun _ _ => (.ok rows, ())⟩

/-- An engine without state whose `MakeBooking` finds no inventory. -/
def soldOut : Engine Unit :=
  ⟨fun _ s =>
    if s.sql = Sql.makeBooking then (.error "Insufficient inventory for selected dates", ())
    else (.ok [[("price_per_night", .str "120.00")]], ())⟩

/-- An engine without state that cannot be reached. -/
def offline : Engine Unit := ⟨fun _ _ => (.error "connect ECONNREFUSED", ())⟩

/-! ## More of the surroundings: sanitizers, further checks, dates as text -/

/-- The runtime together with the further functions of the validation library
that reviews.js and seasonal-pricing.js use. -/
structure Platform extends Runtime where
  /-- The check `isInt` with its `min` and `max` options. -/
  isIntBetween : Int → Int → Val → Bool
  /-- The check `isFloat` with its `min` and `max` options. -/
  isFloatBetween : ℚ → ℚ → Val → Bool
  /-- The sanitizer `trim`: the field value as a string without white space at
  either end. -/
  trim : Val → Val

/-- Assignment of a property in an object literal: an existing key keeps its
place and takes the new value, a new key goes last. -/
def setField : List (String × Val) → String → Val → List (String × Val)
  | [], key, x => [(key, x)]
  | (k, y) :: rest, key, x =>
    if k = key then (key, x) :: rest else (k, y) :: setField rest key x

/-- The assignment `v[key] = x` on an object; other values are left as they are. -/
def Val.set (v : Val) (key : String) (x : Val) : Val :=
  match v with
  | .obj fields => .obj (setField fields key x)
  | _ => v

/-- A chain `body(field).<sanitizer>().<check>().withMessage(message)`: the
check sees the sanitized value. -/
def checkSanitized (rt : Runtime) (body : Val) (field message : String)
    (sanitize : Val → Val) (check : Val → Bool) : List Val :=
  if check (sanitize (body.get field)) then []
  else [rt.validationError field message (sanitize (body.get field))]

/-- A chain `body(field).optional().<sanitizer>().<check>().withMessage(message)`:
an `undefined` field is skipped. -/
def checkOptionalSanitized (rt : Runtime) (body : Val) (field message : String)
    (sanitize : Val → Val) (check : Val → Bool) : List Val :=
  match body.get field with
  | .undefined => []
  | _ => checkSanitized rt body field message sanitize check

/-- The request body after a sanitizer ran on a field: the sanitized value is
written back. -/
def sanitizeField (body : Val) (field : String) (sanitize : Val → Val) : Val :=
  body.set field (sanitize (body.get field))

/-- A sanitizer behind `optional()`: an `undefined` field is left alone. -/
def sanitizeOptional (body : Val) (field : String) (sanitize : Val → Val) : Val :=
  match body.get field with
  | .undefined => body
  | _ => sanitizeField body field sanitize

/-- The text of a value in a template literal: a string is itself, any other
value goes through ToString. -/
def Val.text (rt : Runtime) : Val → String
  | .str s => s
  | v => rt.toText v

/-- The function `Math.round`: the nearest integer, a half going up. -/
def Val.round (a : Val) : Val :=
  match a.toNumber with
  | .num x => .num (⌊x + 1 / 2⌋ : Int)
  | _ => .nan

/-- The operator `a > b` on operands converted by ToNumber. -/
def Val.gt (a b : Val) : Bool := Val.lt b a

/-- A natural number in decimal, padded with zeros to a width. -/
def padded (width n : Nat) : String :=
  String.mk (List.replicate (width - (Nat.repr n).length) '0') ++ Nat.repr n

/-- The method `toFixed(2)` of a number: a minus sign for a negative number, then
the multiple of one hundredth nearest to its absolute value, the larger one of
two equally near, written with two decimals. -/
def toFixed2 (x : ℚ) : String :=
  let n : Nat := (⌊|x| * 100 + 1 / 2⌋ : Int).toNat
  (if x < 0 then "-" else "") ++ Nat.repr (n / 100) ++ "." ++ padded 2 (n % 100)

/-- The civil date (year, month, day) of a number of days from 1970-01-01. -/
def civilFromDays (days : Int) : Int × Int × Int :=
  let z := days + 719468
  let era := z / 146097
  let doe := z - era * 146097
  let yoe := (doe - doe / 1460 + doe / 36524 - doe / 146096) / 365
  let doy := doe - (365 * yoe + yoe / 4 - yoe / 100)
  let mp := (5 * doy + 2) / 153
  let d := doy - (153 * mp + 2) / 5 + 1
  let m := if mp < 10 then mp + 3 else mp - 9
  (if m ≤ 2 then yoe + era * 400 + 1 else yoe + era * 400, m, d)

/-- The date part `YYYY-MM-DD` of `toISOString()` for a time value in
milliseconds (years 0 to 9999). -/
def isoDay (ms : Int) : String :=
  let (y, m, d) := civilFromDays (ms / 86400000)
  padded 4 y.toNat ++ "-" ++ padded 2 m.toNat ++ "-" ++ padded 2 d.toNat

/-- The method `toISOString()` for a time value in milliseconds: the UTC date
and time `YYYY-MM-DDTHH:mm:ss.sssZ`. -/
def isoInstant (ms : Int) : String :=
  let t := (ms % 86400000).toNat
  isoDay ms ++ "T" ++ padded 2 (t / 3600000) ++ ":" ++ padded 2 (t / 60000 % 60) ++ ":" ++
    padded 2 (t / 1000 % 60) ++ "." ++ padded 3 (t % 1000) ++ "Z"

/-- The time value of `new Date()` in whole milliseconds, read from the clock of
the runtime. -/
def clockMs (rt : Runtime) : Int :=
  match rt.now with
  | .num q => ⌊q⌋
  | _ => 0

/-- The expression `new Date().toISOString().split('T')[0]`: today's UTC date. -/
def todayIso (rt : Runtime) : Val := .str (isoDay (clockMs rt))

/-! ## api/routes/reviews.js: the routes that write -/

namespace Sql

/-- The stored procedure call of POST /reviews. -/
def addReview : String := "CALL AddReview(?, ?, ?, ?, ?)"

/-- The read-back of the created review in POST /reviews. -/
def createdReview : String :=
  "SELECT r.review_id, r.rating, r.review_title, r.review_text, r.created_at, " ++
  "r.is_verified, h.name as hotel_name, h.hotel_id FROM Review r " ++
  "JOIN Hotel h ON r.hotel_id = h.hotel_id WHERE r.booking_id = ?"

/-- The stored procedure call of POST /reviews/:review_id/helpful. -/
def markReviewHelpful : String := "CALL MarkReviewHelpful(?, ?)"

/-- The ownership query of PUT and DELETE /reviews/:review_id. -/
def reviewOwner : String := "SELECT user_id FROM Review WHERE review_id = ?"

/-- The update of PUT /reviews/:review_id. -/
def updateReview : String :=
  "UPDATE Review SET rating = ?, review_title = ?, review_text = ?, updated_at = NOW() " ++
  "WHERE review_id = ?"

/-- The statement of DELETE /reviews/:review_id. -/
def deleteReview : String := "DELETE FROM Review WHERE review_id = ?"

end Sql

/-- The chains of `validateReview`, in order. -/
def validateReview (pf : Platform) (body : Val) : List Val :=
  checkField pf.toRuntime body "booking_id" "Valid booking_id required" (pf.isInt 1) ++
  checkField pf.toRuntime body "rating" "Rating must be between 1 and 5"
    (pf.isIntBetween 1 5) ++
  checkSanitized pf.toRuntime body "review_title" "Review title must be 5-200 characters"
    pf.trim (pf.isLength 5 200) ++
  checkSanitized pf.toRuntime body "review_text" "Review text must be 10-2000 characters"
    pf.trim (pf.isLength 10 2000)

/-- The request body after the sanitizers of `validateReview` ran. -/
def sanitizeReview (pf : Platform) (body : Val) : Val :=
  sanitizeField (sanitizeField body "review_title" pf.trim) "review_text" pf.trim

/-- The `catch` block of POST /reviews. -/
def addReviewCatch (rt : Runtime) (message : String) : Response :=
  if includes message "already exists" then
    json 409 [("success", .bool false),
      ("message", .str "You have already reviewed this booking")]
  else if includes message "only review your own" then
    json 403 [("success", .bool false),
      ("message", .str "You can only review your own bookings")]
  else if includes message "cancelled booking" then
    json 400 [("success", .bool false), ("message", .str "Cannot review a cancelled booking")]
  else
    json 500 [("success", .bool false), ("message", .str "Failed to add review"),
      ("error", errorDetail rt message)]

/-- The element `rows[0]` as a value: `undefined` when there is no row. -/
def firstRow (rows : List Row) : Val := (rows.head?.map Val.obj).getD .undefined

/-- The handler of POST /reviews, after `authenticateToken` and the chains of
`validateReview`. -/
def addReview {σ : Type} (E : Engine σ) (pf : Platform) (user : User) (body : Val)
    (db : σ) : Outcome σ :=
  let errors := validateReview pf body
  if !errors.isEmpty then ⟨validationFailed errors, [], db, none⟩
  else
    let body := sanitizeReview pf body
    let booking_id := body.get "booking_id"
    let rating := body.get "rating"
    let review_title := body.get "review_title"
    let review_text := body.get "review_text"
    let user_id := user.user_id
    let c : Stmt := ⟨Sql.addReview, [booking_id, user_id, rating, review_title, review_text]⟩
    match E.exec db c with
    | (.error e, db1) => ⟨addReviewCatch pf.toRuntime e, [c], db1, some e⟩
    | (.ok _, db1) =>
      let q : Stmt := ⟨Sql.createdReview, [booking_id]⟩
      match E.exec db1 q with
      | (.error e, db2) => ⟨addReviewCatch pf.toRuntime e, [c, q], db2, some e⟩
      | (.ok reviews, db2) =>
        ⟨json 201 [("success", .bool true), ("message", .str "Review added successfully"),
          ("data", firstRow reviews)], [c, q], db2, none⟩

/-- The `catch` block of POST /reviews/:review_id/helpful. -/
def markHelpfulCatch (rt : Runtime) (message : String) : Response :=
  if includes message "already marked" then
    json 409 [("success", .bool false),
      ("message", .str "You have already marked this review as helpful")]
  else
    json 500 [("success", .bool false), ("message", .str "Failed to mark review as helpful"),
      ("error", errorDetail rt message)]

/-- The handler of POST /reviews/:review_id/helpful, after `authenticateToken`. -/
def markHelpful {σ : Type} (E : Engine σ) (rt : Runtime) (user : User) (review_id : Val)
    (db : σ) : Outcome σ :=
  let user_id := user.user_id
  let c : Stmt := ⟨Sql.markReviewHelpful, [review_id, user_id]⟩
  match E.exec db c with
  | (.error e, db1) => ⟨markHelpfulCatch rt e, [c], db1, some e⟩
  | (.ok _, db1) =>
    ⟨json 200 [("success", .bool true), ("message", .str "Review marked as helpful")],
      [c], db1, none⟩

/-- The `catch` block of PUT /reviews/:review_id. -/
def updateReviewCatch (rt : Runtime) (message : String) : Response :=
  json 500 [("success", .bool false), ("message", .str "Failed to update review"),
    ("error", errorDetail rt message)]

/-- The handler of PUT /reviews/:review_id, after `authenticateToken` and the
chains of `validateReview`. -/
def updateReview {σ : Type} (E : Engine σ) (pf : Platform) (user : User) (review_id : Val)
    (body : Val) (db : σ) : Outcome σ :=
  let errors := validateReview pf body
  if !errors.isEmpty then ⟨validationFailed errors, [], db, none⟩
  else
    let body := sanitizeReview pf body
    let rating := body.get "rating"
    let review_title := body.get "review_title"
    let review_text := body.get "review_text"
    let user_id := user.user_id
    let q : Stmt := ⟨Sql.reviewOwner, [review_id]⟩
    match E.exec db q with
    | (.error e, db1) => ⟨updateReviewCatch pf.toRuntime e, [q], db1, some e⟩
    | (.ok [], db1) =>
      ⟨json 404 [("success", .bool false), ("message", .str "Review not found")],
        [q], db1, none⟩
    | (.ok (review :: _), db1) =>
      if Val.strictNe (review.get "user_id") user_id then
        ⟨json 403 [("success", .bool false),
          ("message", .str "You can only update your own reviews")], [q], db1, none⟩
      else
        let u : Stmt := ⟨Sql.updateReview, [rating, review_title, review_text, review_id]⟩
        match E.exec db1 u with
        | (.error e, db2) => ⟨updateReviewCatch pf.toRuntime e, [q, u], db2, some e⟩
        | (.ok _, db2) =>
          ⟨json 200 [("success", .bool true), ("message", .str "Review updated successfully")],
            [q, u], db2, none⟩

/-- The `catch` block of DELETE /reviews/:review_id. -/
def deleteReviewCatch (rt : Runtime) (message : String) : Response :=
  json 500 [("success", .bool false), ("message", .str "Failed to delete review"),
    ("error", errorDetail rt message)]

/-- The handler of DELETE /reviews/:review_id, after `authenticateToken`. -/
def deleteReview {σ : Type} (E : Engine σ) (rt : Runtime) (user : User) (review_id : Val)
    (db : σ) : Outcome σ :=
  let user_id := user.user_id
  let isAdmin := Val.strictEq user.role (.str "ADMIN")
  let q : Stmt := ⟨Sql.reviewOwner, [review_id]⟩
  match E.exec db q with
  | (.error e, db1) => ⟨deleteReviewCatch rt e, [q], db1, some e⟩
  | (.ok [], db1) =>
    ⟨json 404 [("success", .bool false), ("message", .str "Review not found")], [q], db1, none⟩
  | (.ok (review :: _), db1) =>
    if Val.strictNe (review.get "user_id") user_id && !isAdmin then
      ⟨json 403 [("success", .bool false), ("message", .str "Access denied")], [q], db1, none⟩
    else
      let d : Stmt := ⟨Sql.deleteReview, [review_id]⟩
      match E.exec db1 d with
      | (.error e, db2) => ⟨deleteReviewCatch rt e, [q, d], db2, some e⟩
      | (.ok _, db2) =>
        ⟨json 200 [("success", .bool true), ("message", .str "Review deleted successfully")],
          [q, d], db2, none⟩

/-! ## api/routes/cities.js -/

namespace Sql

/-- The query of GET /cities. -/
def listCities : String := "SELECT city_id, name, country FROM City ORDER BY name"

/-- The query text of GET /cities/:city_id/hotels as the handler builds it: the
fixed SELECT, the rating filters that are added, the GROUP BY, and the ORDER BY
made of a sort field and a sort order. -/
def cityHotels (withMin withMax : Bool) (sortField sortOrder : String) : String :=
  "SELECT h.hotel_id, h.name, h.address, h.rating, c.name as city_name, c.country, " ++
  "COUNT(rt.room_type_id) as room_types_count, MIN(rt.base_price) as price_from " ++
  "FROM Hotel h JOIN City c ON h.city_id = c.city_id " ++
  "LEFT JOIN RoomType rt ON h.hotel_id = rt.hotel_id WHERE h.city_id = ?" ++
  (if withMin then " AND h.rating >= ?" else "") ++
  (if withMax then " AND h.rating <= ?" else "") ++
  " GROUP BY h.hotel_id, h.name, h.address, h.rating, c.name, c.country" ++
  " ORDER BY " ++ sortField ++ " " ++ sortOrder

end Sql

/-- The handler of GET /cities. -/
def listCities {σ : Type} (E : Engine σ) (rt : Runtime) (db : σ) : Outcome σ :=
  let q : Stmt := ⟨Sql.listCities, []⟩
  match E.exec db q with
  | (.error e, db1) =>
    ⟨json 500 [("success", .bool false), ("message", .str "Failed to fetch cities"),
      ("error", errorDetail rt e)], [q], db1, some e⟩
  | (.ok cities, db1) =>
    ⟨json 200 [("success", .bool true), ("data", .arr (cities.map Val.obj))], [q], db1, none⟩

/-- The array `validSortFields` of GET /cities/:city_id/hotels. -/
def validSortFields : List String := ["name", "rating", "price_from"]

/-- The `catch` block of GET /cities/:city_id/hotels. -/
def cityHotelsCatch (rt : Runtime) (message : String) : Response :=
  json 500 [("success", .bool false), ("message", .str "Failed to fetch hotels"),
    ("error", errorDetail rt message)]

/-- The handler of GET /cities/:city_id/hotels; `query` is `req.query`. -/
def cityHotels {σ : Type} (E : Engine σ) (rt : Runtime) (city_id : Val) (query : Val)
    (db : σ) : Outcome σ :=
  let rating_min := query.get "rating_min"
  let rating_max := query.get "rating_max"
  let sort_by := withDefault (query.get "sort_by") (.str "name")
  let order := withDefault (query.get "order") (.str "ASC")
  let params : List Val :=
    [city_id] ++ (if rating_min.truthy then [Val.parseFloat rating_min] else []) ++
      (if rating_max.truthy then [Val.parseFloat rating_max] else [])
  let sortField : Val :=
    if validSortFields.any (fun f => Val.strictEq (.str f) sort_by) then sort_by
    else .str "name"
  -- `order.toUpperCase()` needs a string
  match order with
  | .str o =>
    let sortOrder : String := if rt.toUpperCase o = "DESC" then "DESC" else "ASC"
    let q : Stmt :=
      ⟨Sql.cityHotels rating_min.truthy rating_max.truthy (Val.text rt sortField) sortOrder,
        params⟩
    match E.exec db q with
    | (.error e, db1) => ⟨cityHotelsCatch rt e, [q], db1, some e⟩
    | (.ok hotels, db1) =>
      ⟨json 200 [("success", .bool true), ("data", .arr (hotels.map Val.obj))],
        [q], db1, none⟩
  | _ =>
    ⟨cityHotelsCatch rt (notAFunction "order.toUpperCase"), [], db,
      some (notAFunction "order.toUpperCase")⟩

/-! ## api/routes/hotels.js -/

namespace Sql

/-- The hotel query of GET /hotels/:hotel_id. -/
def hotelDetail : String :=
  "SELECT h.hotel_id, h.name, h.address, h.rating, c.name as city_name, c.country " ++
  "FROM Hotel h JOIN City c ON h.city_id = c.city_id WHERE h.hotel_id = ?"

/-- The room type query of GET /hotels/:hotel_id. -/
def hotelRoomTypes : String :=
  "SELECT rt.room_type_id, rt.name, rt.base_price, rt.max_guests, " ++
  "GetSeasonalPrice(rt.room_type_id, CURRENT_DATE) as current_price " ++
  "FROM RoomType rt WHERE rt.hotel_id = ? ORDER BY rt.base_price"

/-- The rating summary query of GET /hotels/:hotel_id. -/
def hotelRatingSummary : String :=
  "SELECT COUNT(r.review_id) as total_reviews, ROUND(AVG(r.rating), 1) as average_rating " ++
  "FROM Review r WHERE r.hotel_id = ?"

/-- The listing query of GET /hotels/:hotel_id/reviews, with or without the
rating filter. -/
def hotelReviews (withRating : Bool) : String :=
  "SELECT r.review_id, r.rating, r.review_title, r.review_text, r.helpful_count, " ++
  "r.created_at, r.is_verified, u.full_name as reviewer_name FROM Review r " ++
  "JOIN `User` u ON r.user_id = u.user_id WHERE r.hotel_id = ?" ++
  (if withRating then " AND r.rating = ?" else "") ++
  " ORDER BY r.created_at DESC LIMIT ? OFFSET ?"

/-- The count query of GET /hotels/:hotel_id/reviews. -/
def hotelReviewsCount (withRating : Bool) : String :=
  "SELECT COUNT(*) as total FROM Review WHERE hotel_id = ?" ++
  (if withRating then " AND rating = ?" else "")

end Sql

/-- The `catch` block of GET /hotels/:hotel_id. -/
def getHotelCatch (rt : Runtime) (message : String) : Response :=
  json 500 [("success", .bool false), ("message", .str "Failed to fetch hotel details"),
    ("error", errorDetail rt message)]

/-- The expression `rows[0]?.column`. -/
def firstColumn (rows : List Row) (column : String) : Val :=
  (rows.head?.map (fun r => r.get column)).getD .undefined

/-- The handler of GET /hotels/:hotel_id. -/
def getHotel {σ : Type} (E : Engine σ) (rt : Runtime) (hotel_id : Val) (db : σ) :
    Outcome σ :=
  let q1 : Stmt := ⟨Sql.hotelDetail, [hotel_id]⟩
  match E.exec db q1 with
  | (.error e, db1) => ⟨getHotelCatch rt e, [q1], db1, some e⟩
  | (.ok [], db1) =>
    ⟨json 404 [("success", .bool false), ("message", .str "Hotel not found")], [q1], db1, none⟩
  | (.ok (hotel :: _), db1) =>
    let q2 : Stmt := ⟨Sql.hotelRoomTypes, [hotel_id]⟩
    match E.exec db1 q2 with
    | (.error e, db2) => ⟨getHotelCatch rt e, [q1, q2], db2, some e⟩
    | (.ok roomTypes, db2) =>
      let q3 : Stmt := ⟨Sql.hotelRatingSummary, [hotel_id]⟩
      match E.exec db2 q3 with
      | (.error e, db3) => ⟨getHotelCatch rt e, [q1, q2, q3], db3, some e⟩
      | (.ok ratingSummary, db3) =>
        ⟨json 200 [("success", .bool true),
          ("data", .obj (setField (setField (setField hotel
            "total_reviews" (Val.orElse (firstColumn ratingSummary "total_reviews") (.num 0)))
            "average_rating"
              (Val.orElse (firstColumn ratingSummary "average_rating") (hotel.get "rating")))
            "room_types" (.arr (roomTypes.map Val.obj))))],
          [q1, q2, q3], db3, none⟩

/-- The `catch` block of GET /hotels/:hotel_id/reviews. -/
def hotelReviewsCatch (rt : Runtime) (message : String) : Response :=
  json 500 [("success", .bool false), ("message", .str "Failed to fetch hotel reviews"),
    ("error", errorDetail rt message)]

/-- The handler of GET /hotels/:hotel_id/reviews; `query` is `req.query`. -/
def hotelReviews {σ : Type} (E : Engine σ) (rt : Runtime) (hotel_id : Val) (query : Val)
    (db : σ) : Outcome σ :=
  let page := withDefault (query.get "page") (.num 1)
  let limit := withDefault (query.get "limit") (.num 10)
  let rating_filter := query.get "rating_filter"
  let offset := Val.times (Val.minus page (.num 1)) limit
  let ratingParams : List Val :=
    if rating_filter.truthy then [Val.parseInt rating_filter] else []
  let q : Stmt :=
    ⟨Sql.hotelReviews rating_filter.truthy,
      [hotel_id] ++ ratingParams ++ [Val.parseInt limit, Val.parseInt offset]⟩
  match E.exec db q with
  | (.error e, db1) => ⟨hotelReviewsCatch rt e, [q], db1, some e⟩
  | (.ok reviews, db1) =>
    let c : Stmt := ⟨Sql.hotelReviewsCount rating_filter.truthy, [hotel_id] ++ ratingParams⟩
    match E.exec db1 c with
    | (.error e, db2) => ⟨hotelReviewsCatch rt e, [q, c], db2, some e⟩
    | (.ok [], db2) =>
      ⟨hotelReviewsCatch rt (readOfUndefined "total"), [q, c], db2,
        some (readOfUndefined "total")⟩
    | (.ok (countRow :: _), db2) =>
      let total := countRow.get "total"
      ⟨json 200 [("success", .bool true),
        ("data", .obj [("reviews", .arr (reviews.map Val.obj)),
          ("pagination", .obj [("current_page", Val.parseInt page),
            ("per_page", Val.parseInt limit), ("total_items", total),
            ("total_pages", Val.ceil (Val.over total limit))])])],
        [q, c], db2, none⟩

/-! ## backend/routes/roomtypes.js -/

namespace Sql

/-- The room type query of GET /roomtypes/:room_type_id/availability. -/
def availabilityRoomType : String :=
  "SELECT rt.room_type_id, rt.name, rt.base_price, rt.max_guests, h.name as hotel_name, " ++
  "GetSeasonalPrice(rt.room_type_id, ?) as current_price FROM RoomType rt " ++
  "JOIN Hotel h ON rt.hotel_id = h.hotel_id WHERE rt.room_type_id = ?"

/-- The inventory query of GET /roomtypes/:room_type_id/availability. -/
def availabilityInventory : String :=
  "SELECT MIN(qty) as min_available FROM RoomInventory WHERE room_type_id = ? " ++
  "AND stay_date >= ? AND stay_date < ?"

/-- The query of GET /roomtypes/:room_type_id/calendar. -/
def calendar : String :=
  "SELECT ri.stay_date, ri.qty as available_rooms, " ++
  "GetSeasonalPrice(ri.room_type_id, ri.stay_date) as price_per_night " ++
  "FROM RoomInventory ri WHERE ri.room_type_id = ? AND ri.stay_date >= ? " ++
  "AND ri.stay_date <= ? ORDER BY ri.stay_date"

end Sql

/-- The chains of `validateAvailability`, in order; they check `req.query`. -/
def validateAvailability (rt : Runtime) (query : Val) : List Val :=
  checkField rt query "check_in" "Valid check_in date required (YYYY-MM-DD)" rt.isDate ++
  checkField rt query "check_out" "Valid check_out date required (YYYY-MM-DD)" rt.isDate

/-- The `catch` block of GET /roomtypes/:room_type_id/availability. -/
def availabilityCatch (rt : Runtime) (message : String) : Response :=
  json 500 [("success", .bool false), ("message", .str "Failed to check availability"),
    ("error", errorDetail rt message)]

/-- The expression `parseFloat(x.toFixed(2))` for the result `x` of a
multiplication (a number or `NaN`). -/
def roundedToCents (x : Val) : Val :=
  match x with
  | .num q => Val.parseFloat (.str (toFixed2 q))
  | _ => .nan

/-- The handler of GET /roomtypes/:room_type_id/availability, after the chains
of `validateAvailability`; `query` is `req.query`. -/
def availability {σ : Type} (E : Engine σ) (rt : Runtime) (room_type_id : Val) (query : Val)
    (db : σ) : Outcome σ :=
  let errors := validateAvailability rt query
  if !errors.isEmpty then ⟨validationFailed errors, [], db, none⟩
  else
    let check_in := query.get "check_in"
    let check_out := query.get "check_out"
    let checkInDate := rt.newDate check_in
    let checkOutDate := rt.newDate check_out
    let today := rt.today
    if Val.lt checkInDate today then
      ⟨json 400 [("success", .bool false),
        ("message", .str "Check-in date cannot be in the past")], [], db, none⟩
    else if Val.ge checkInDate checkOutDate then
      ⟨json 400 [("success", .bool false),
        ("message", .str "Check-out date must be after check-in date")], [], db, none⟩
    else
      let q1 : Stmt := ⟨Sql.availabilityRoomType, [check_in, room_type_id]⟩
      match E.exec db q1 with
      | (.error e, db1) => ⟨availabilityCatch rt e, [q1], db1, some e⟩
      | (.ok [], db1) =>
        ⟨json 404 [("success", .bool false), ("message", .str "Room type not found")],
          [q1], db1, none⟩
      | (.ok (roomType :: _), db1) =>
        let q2 : Stmt := ⟨Sql.availabilityInventory, [room_type_id, check_in, check_out]⟩
        match E.exec db1 q2 with
        | (.error e, db2) => ⟨availabilityCatch rt e, [q1, q2], db2, some e⟩
        | (.ok inventory, db2) =>
          let minAvailable := Val.orElse (firstColumn inventory "min_available") (.num 0)
          let isAvailable := Val.gt minAvailable (.num 0)
          let days :=
            Val.ceil (Val.over (Val.minus checkOutDate checkInDate) (.num (1000 * 60 * 60 * 24)))
          let totalAmount := Val.times (roomType.get "current_price") days
          ⟨json 200 [("success", .bool true),
            ("data", .obj [("room_type_id", Val.parseInt room_type_id),
              ("room_type_name", roomType.get "name"),
              ("hotel_name", roomType.get "hotel_name"),
              ("check_in", check_in), ("check_out", check_out), ("nights", days),
              ("available", .bool isAvailable), ("available_count", minAvailable),
              ("price_per_night", Val.parseFloat (roomType.get "current_price")),
              ("total_amount", roundedToCents totalAmount)])],
            [q1, q2], db2, none⟩

/-- The handler of GET /roomtypes/:room_type_id/calendar; `query` is `req.query`. -/
def calendar {σ : Type} (E : Engine σ) (rt : Runtime) (room_type_id : Val) (query : Val)
    (db : σ) : Outcome σ :=
  let startDate := Val.orElse (query.get "start_date") (todayIso rt)
  let endDate := Val.orElse (query.get "end_date")
    (.str (isoDay (clockMs rt + 30 * 24 * 60 * 60 * 1000)))
  let q : Stmt := ⟨Sql.calendar, [room_type_id, startDate, endDate]⟩
  match E.exec db q with
  | (.error e, db1) =>
    ⟨json 500 [("success", .bool false), ("message", .str "Failed to fetch calendar"),
      ("error", errorDetail rt e)], [q], db1, some e⟩
  | (.ok days, db1) =>
    ⟨json 200 [("success", .bool true),
      ("data", .obj [("room_type_id", Val.parseInt room_type_id),
        ("calendar", .arr (days.map Val.obj))])], [q], db1, none⟩

/-! ## backend/routes/seasonal-pricing.js -/

namespace Sql

/-- The query text of GET /seasonal-pricing with the filters that are added. -/
def listPricing (byRoomType byHotel byActive byDate : Bool) : String :=
  "SELECT sp.pricing_id, sp.room_type_id, sp.season_name, sp.description, sp.start_date, " ++
  "sp.end_date, sp.price_multiplier, sp.is_active, sp.priority, sp.created_at, " ++
  "sp.updated_at, rt.name as room_type_name, rt.base_price, h.name as hotel_name, " ++
  "h.hotel_id FROM SeasonalPricing sp JOIN RoomType rt ON sp.room_type_id = rt.room_type_id " ++
  "JOIN Hotel h ON rt.hotel_id = h.hotel_id WHERE 1=1" ++
  (if byRoomType then " AND sp.room_type_id = ?" else "") ++
  (if byHotel then " AND h.hotel_id = ?" else "") ++
  (if byActive then " AND sp.is_active = ?" else "") ++
  (if byDate then " AND ? BETWEEN sp.start_date AND sp.end_date" else "") ++
  " ORDER BY sp.priority DESC, sp.start_date"

/-- The stored procedure call of POST /seasonal-pricing. -/
def addSeasonalPricing : String := "CALL AddSeasonalPricing(?, ?, ?, ?, ?, ?, ?)"

/-- The read-back of the created rule in POST /seasonal-pricing. -/
def createdPricing : String :=
  "SELECT sp.pricing_id, sp.room_type_id, sp.season_name, sp.description, sp.start_date, " ++
  "sp.end_date, sp.price_multiplier, sp.priority, rt.name as room_type_name, " ++
  "rt.base_price, h.name as hotel_name FROM SeasonalPricing sp " ++
  "JOIN RoomType rt ON sp.room_type_id = rt.room_type_id " ++
  "JOIN Hotel h ON rt.hotel_id = h.hotel_id " ++
  "WHERE sp.room_type_id = ? AND sp.season_name = ? AND sp.start_date = ? " ++
  "ORDER BY sp.created_at DESC LIMIT 1"

/-- The query of GET /seasonal-pricing/:pricing_id. -/
def pricingDetail : String :=
  "SELECT sp.pricing_id, sp.room_type_id, sp.season_name, sp.description, sp.start_date, " ++
  "sp.end_date, sp.price_multiplier, sp.is_active, sp.priority, sp.created_at, " ++
  "sp.updated_at, rt.name as room_type_name, rt.base_price, h.name as hotel_name, " ++
  "h.hotel_id, c.name as city_name FROM SeasonalPricing sp " ++
  "JOIN RoomType rt ON sp.room_type_id = rt.room_type_id " ++
  "JOIN Hotel h ON rt.hotel_id = h.hotel_id JOIN City c ON h.city_id = c.city_id " ++
  "WHERE sp.pricing_id = ?"

/-- The existence query of PUT /seasonal-pricing/:pricing_id. -/
def pricingExists : String := "SELECT pricing_id FROM SeasonalPricing WHERE pricing_id = ?"

/-- The update of PUT /seasonal-pricing/:pricing_id. -/
def updatePricing : String :=
  "UPDATE SeasonalPricing SET season_name = ?, description = ?, start_date = ?, " ++
  "end_date = ?, price_multiplier = ?, priority = ?, is_active = ?, updated_at = NOW() " ++
  "WHERE pricing_id = ?"

/-- The statement of DELETE /seasonal-pricing/:pricing_id. -/
def deletePricing : String := "DELETE FROM SeasonalPricing WHERE pricing_id = ?"

/-- The query of GET /seasonal-pricing/room-types/:room_type_id/current-price. -/
def currentPrice : String :=
  "SELECT rt.room_type_id, rt.name as room_type_name, rt.base_price, " ++
  "GetSeasonalPrice(rt.room_type_id, ?) as current_price, h.name as hotel_name, " ++
  "sp.season_name, sp.price_multiplier FROM RoomType rt " ++
  "JOIN Hotel h ON rt.hotel_id = h.hotel_id " ++
  "LEFT JOIN SeasonalPricing sp ON rt.room_type_id = sp.room_type_id " ++
  "AND ? BETWEEN sp.start_date AND sp.end_date AND sp.is_active = TRUE " ++
  "WHERE rt.room_type_id = ? ORDER BY sp.priority DESC LIMIT 1"

end Sql

/-- The chains of `validateSeasonalPricing`, in order. -/
def validateSeasonalPricing (pf : Platform) (body : Val) : List Val :=
  checkField pf.toRuntime body "room_type_id" "Valid room_type_id required" (pf.isInt 1) ++
  checkSanitized pf.toRuntime body "season_name" "Season name must be 3-50 characters"
    pf.trim (pf.isLength 3 50) ++
  checkField pf.toRuntime body "start_date" "Valid start_date required (YYYY-MM-DD)"
    pf.isDate ++
  checkField pf.toRuntime body "end_date" "Valid end_date required (YYYY-MM-DD)" pf.isDate ++
  checkField pf.toRuntime body "price_multiplier"
    "Price multiplier must be between 0.1 and 5.0" (pf.isFloatBetween (1 / 10) 5) ++
  checkOptional pf.toRuntime body "priority" "Priority must be between 1 and 10"
    (pf.isIntBetween 1 10) ++
  checkOptionalSanitized pf.toRuntime body "description"
    "Description must be max 500 characters" pf.trim (pf.isLength 0 500)

/-- The request body after the sanitizers of `validateSeasonalPricing` ran. -/
def sanitizeSeasonalPricing (pf : Platform) (body : Val) : Val :=
  sanitizeOptional (sanitizeField body "season_name" pf.trim) "description" pf.trim

/-- The handler of GET /seasonal-pricing; `query` is `req.query`. -/
def listPricing {σ : Type} (E : Engine σ) (rt : Runtime) (query : Val) (db : σ) :
    Outcome σ :=
  let room_type_id := query.get "room_type_id"
  let hotel_id := query.get "hotel_id"
  let is_active := query.get "is_active"
  let date := query.get "date"
  let params : List Val :=
    (if room_type_id.truthy then [Val.parseInt room_type_id] else []) ++
    (if hotel_id.truthy then [Val.parseInt hotel_id] else []) ++
    (if Val.strictNe is_active .undefined then [.bool (Val.strictEq is_active (.str "true"))]
      else []) ++
    (if date.truthy then [date] else [])
  let q : Stmt :=
    ⟨Sql.listPricing room_type_id.truthy hotel_id.truthy (Val.strictNe is_active .undefined)
      date.truthy, params⟩
  match E.exec db q with
  | (.error e, db1) =>
    ⟨json 500 [("success", .bool false), ("message", .str "Failed to fetch seasonal pricing"),
      ("error", errorDetail rt e)], [q], db1, some e⟩
  | (.ok pricingRules, db1) =>
    ⟨json 200 [("success", .bool true), ("data", .arr (pricingRules.map Val.obj))],
      [q], db1, none⟩

/-- The `catch` block of POST /seasonal-pricing. -/
def createPricingCatch (rt : Runtime) (message : String) : Response :=
  if includes message "Start date must be before end date" then
    json 400 [("success", .bool false), ("message", .str "Start date must be before end date")]
  else if includes message "Price multiplier must be between" then
    json 400 [("success", .bool false),
      ("message", .str "Price multiplier must be between 0 and 5.0")]
  else
    json 500 [("success", .bool false), ("message", .str "Failed to create seasonal pricing"),
      ("error", errorDetail rt message)]

/-- The handler of POST /seasonal-pricing, after `authenticateToken`,
`requireAdmin` and the chains of `validateSeasonalPricing`. -/
def createPricing {σ : Type} (E : Engine σ) (pf : Platform) (body : Val) (db : σ) :
    Outcome σ :=
  let errors := validateSeasonalPricing pf body
  if !errors.isEmpty then ⟨validationFailed errors, [], db, none⟩
  else
    let body := sanitizeSeasonalPricing pf body
    let room_type_id := body.get "room_type_id"
    let season_name := body.get "season_name"
    let description := body.get "description"
    let start_date := body.get "start_date"
    let end_date := body.get "end_date"
    let price_multiplier := body.get "price_multiplier"
    let priority := withDefault (body.get "priority") (.num 1)
    let c : Stmt :=
      ⟨Sql.addSeasonalPricing,
        [room_type_id, season_name, description, start_date, end_date, price_multiplier,
          priority]⟩
    match E.exec db c with
    | (.error e, db1) => ⟨createPricingCatch pf.toRuntime e, [c], db1, some e⟩
    | (.ok _, db1) =>
      let q : Stmt := ⟨Sql.createdPricing, [room_type_id, season_name, start_date]⟩
      match E.exec db1 q with
      | (.error e, db2) => ⟨createPricingCatch pf.toRuntime e, [c, q], db2, some e⟩
      | (.ok newPricing, db2) =>
        ⟨json 201 [("success", .bool true),
          ("message", .str "Seasonal pricing created successfully"),
          ("data", firstRow newPricing)], [c, q], db2, none⟩

/-- The handler of GET /seasonal-pricing/:pricing_id. -/
def getPricing {σ : Type} (E : Engine σ) (rt : Runtime) (pricing_id : Val) (db : σ) :
    Outcome σ :=
  let q : Stmt := ⟨Sql.pricingDetail, [pricing_id]⟩
  match E.exec db q with
  | (.error e, db1) =>
    ⟨json 500 [("success", .bool false), ("message", .str "Failed to fetch pricing rule"),
      ("error", errorDetail rt e)], [q], db1, some e⟩
  | (.ok [], db1) =>
    ⟨json 404 [("success", .bool false), ("message", .str "Seasonal pricing rule not found")],
      [q], db1, none⟩
  | (.ok (rule :: _), db1) =>
    ⟨json 200 [("success", .bool true), ("data", .obj rule)], [q], db1, none⟩

/-- The `catch` block of PUT /seasonal-pricing/:pricing_id. -/
def updatePricingCatch (rt : Runtime) (message : String) : Response :=
  json 500 [("success", .bool false), ("message", .str "Failed to update seasonal pricing"),
    ("error", errorDetail rt message)]

/-- The handler of PUT /seasonal-pricing/:pricing_id, after `authenticateToken`,
`requireAdmin` and the chains of `validateSeasonalPricing`. -/
def updatePricing {σ : Type} (E : Engine σ) (pf : Platform) (pricing_id : Val) (body : Val)
    (db : σ) : Outcome σ :=
  let errors := validateSeasonalPricing pf body
  if !errors.isEmpty then ⟨validationFailed errors, [], db, none⟩
  else
    let body := sanitizeSeasonalPricing pf body
    let season_name := body.get "season_name"
    let description := body.get "description"
    let start_date := body.get "start_date"
    let end_date := body.get "end_date"
    let price_multiplier := body.get "price_multiplier"
    let priority := body.get "priority"
    let is_active := body.get "is_active"
    let q : Stmt := ⟨Sql.pricingExists, [pricing_id]⟩
    match E.exec db q with
    | (.error e, db1) => ⟨updatePricingCatch pf.toRuntime e, [q], db1, some e⟩
    | (.ok [], db1) =>
      ⟨json 404 [("success", .bool false),
        ("message", .str "Seasonal pricing rule not found")], [q], db1, none⟩
    | (.ok (_ :: _), db1) =>
      if Val.ge (pf.newDate start_date) (pf.newDate end_date) then
        ⟨json 400 [("success", .bool false),
          ("message", .str "Start date must be before end date")], [q], db1, none⟩
      else
        let u : Stmt :=
          ⟨Sql.updatePricing,
            [season_name, description, start_date, end_date, price_multiplier, priority,
              (if Val.strictNe is_active .undefined then is_active else .bool true),
              pricing_id]⟩
        match E.exec db1 u with
        | (.error e, db2) => ⟨updatePricingCatch pf.toRuntime e, [q, u], db2, some e⟩
        | (.ok _, db2) =>
          ⟨json 200 [("success", .bool true),
            ("message", .str "Seasonal pricing updated successfully")], [q, u], db2, none⟩

/-- The result header of a DELETE: `pool.execute` resolves to it in place of
rows, and the engine hands it over as one row holding `affectedRows`. -/
def resultHeader (rows : List Row) : Val := .obj (rows.headD [])

/-- The handler of DELETE /seasonal-pricing/:pricing_id, after
`authenticateToken` and `requireAdmin`. -/
def deletePricing {σ : Type} (E : Engine σ) (rt : Runtime) (pricing_id : Val) (db : σ) :
    Outcome σ :=
  let d : Stmt := ⟨Sql.deletePricing, [pricing_id]⟩
  match E.exec db d with
  | (.error e, db1) =>
    ⟨json 500 [("success", .bool false), ("message", .str "Failed to delete seasonal pricing"),
      ("error", errorDetail rt e)], [d], db1, some e⟩
  | (.ok result, db1) =>
    if Val.strictEq ((resultHeader result).get "affectedRows") (.num 0) then
      ⟨json 404 [("success", .bool false),
        ("message", .str "Seasonal pricing rule not found")], [d], db1, none⟩
    else
      ⟨json 200 [("success", .bool true),
        ("message", .str "Seasonal pricing deleted successfully")], [d], db1, none⟩

/-- The expression for `priceChangePercent`: `(price_multiplier - 1) * 100`
rounded to two decimals, or 0 for a falsy multiplier. -/
def priceChangePercent (price_multiplier : Val) : Val :=
  if price_multiplier.truthy then
    Val.div (Val.round (Val.mul (Val.mul (Val.sub price_multiplier (.num 1)) (.num 100))
      (.num 100))) (.num 100)
  else .num 0

/-- The handler of GET /seasonal-pricing/room-types/:room_type_id/current-price;
`query` is `req.query`. -/
def currentPrice {σ : Type} (E : Engine σ) (rt : Runtime) (room_type_id : Val) (query : Val)
    (db : σ) : Outcome σ :=
  let date := withDefault (query.get "date") (todayIso rt)
  let q : Stmt := ⟨Sql.currentPrice, [date, date, room_type_id]⟩
  match E.exec db q with
  | (.error e, db1) =>
    ⟨json 500 [("success", .bool false), ("message", .str "Failed to get current price"),
      ("error", errorDetail rt e)], [q], db1, some e⟩
  | (.ok [], db1) =>
    ⟨json 404 [("success", .bool false), ("message", .str "Room type not found")],
      [q], db1, none⟩
  | (.ok (roomInfo :: _), db1) =>
    ⟨json 200 [("success", .bool true),
      ("data", .obj [("room_type_id", Val.parseInt room_type_id),
        ("room_type_name", roomInfo.get "room_type_name"),
        ("hotel_name", roomInfo.get "hotel_name"),
        ("base_price", Val.parseFloat (roomInfo.get "base_price")),
        ("current_price", Val.parseFloat (roomInfo.get "current_price")),
        ("price_change_percent", priceChangePercent (roomInfo.get "price_multiplier")),
        ("active_season", Val.orElse (roomInfo.get "season_name") .null),
        ("date", date)])], [q], db1, none⟩

/-! ## backend/app.js: its own handlers -/

/-- The handler of GET /health; `apiVersion` is `API_VERSION`. -/
def health (rt : Runtime) (apiVersion : String) : Response :=
  json 200 [("success", .bool true), ("message", .str "Travel Booking API is running"),
    ("timestamp", .str (isoInstant (clockMs rt))), ("version", .str apiVersion),
    ("environment", Val.orElse rt.nodeEnv (.str "development"))]

/-- The object `documentation.endpoints` of the documentation endpoint. -/
def documentedEndpoints : Val :=
  .obj [
    ("auth", .obj [("POST /auth/register", .str "Register a new user"),
      ("POST /auth/login", .str "Login user"), ("POST /auth/logout", .str "Logout user")]),
    ("cities", .obj [("GET /cities", .str "Get all cities"),
      ("GET /cities/:city_id/hotels", .str "Get hotels in a city")]),
    ("hotels", .obj [("GET /hotels/:hotel_id", .str "Get hotel details with room types"),
      ("GET /hotels/:hotel_id/reviews", .str "Get hotel reviews")]),
    ("roomTypes", .obj [
      ("GET /roomtypes/:room_type_id/availability", .str "Check room availability"),
      ("GET /roomtypes/:room_type_id/calendar", .str "Get availability calendar")]),
    ("bookings", .obj [("POST /bookings", .str "Create a new booking"),
      ("GET /bookings/:booking_id", .str "Get booking details"),
      ("PUT /bookings/:booking_id/cancel", .str "Cancel a booking"),
      ("GET /users/:user_id/bookings", .str "Get user bookings")]),
    ("payments", .obj [("POST /payments", .str "Process payment for booking"),
      ("GET /payments/:payment_id", .str "Get payment details"),
      ("POST /payments/:payment_id/refund", .str "Process refund (Admin only)")]),
    ("reviews", .obj [("POST /reviews", .str "Add a review"),
      ("GET /reviews/:review_id", .str "Get specific review"),
      ("PUT /reviews/:review_id", .str "Update review"),
      ("DELETE /reviews/:review_id", .str "Delete review"),
      ("POST /reviews/:review_id/helpful", .str "Mark review as helpful"),
      ("GET /reviews/recent", .str "Get recent reviews")]),
    ("seasonalPricing", .obj [("GET /seasonal-pricing", .str "Get seasonal pricing rules"),
      ("POST /seasonal-pricing", .str "Create pricing rule (Admin only)"),
      ("GET /seasonal-pricing/:pricing_id", .str "Get specific pricing rule"),
      ("PUT /seasonal-pricing/:pricing_id", .str "Update pricing rule (Admin only)"),
      ("DELETE /seasonal-pricing/:pricing_id", .str "Delete pricing rule (Admin only)"),
      ("GET /seasonal-pricing/room-types/:room_type_id/current-price",
        .str "Get current price")])]

/-- The handler of the documentation endpoint GET /api/<version>; `protocol` is
`req.protocol` and `host` is `req.get('host')`. -/
def documentation (rt : Runtime) (apiVersion : String) (protocol host : Val) : Response :=
  json 200 [("success", .bool true), ("message", .str "Travel & Hotel Booking System API"),
    ("version", .str apiVersion),
    ("documentation", .obj [("endpoints", documentedEndpoints),
      ("authentication", .str "Bearer token required for protected endpoints"),
      ("baseUrl", .str (Val.text rt protocol ++ "://" ++ Val.text rt host ++ "/api/" ++
        apiVersion))])]

/-- The 404 handler `app.use('*', ...)`; `originalUrl` is `req.originalUrl` and
`method` is `req.method`. -/
def notFoundHandler (apiVersion : String) (originalUrl method : Val) : Response :=
  json 404 [("success", .bool false), ("message", .str "Endpoint not found"),
    ("path", originalUrl), ("method", method),
    ("suggestion", .str ("Try GET /api/" ++ apiVersion ++ " for API documentation"))]

/-- A response whose status is the value handed to `res.status`. -/
structure ErrorResponse where
  status : Val
  body : Val

/-- The global error handler `app.use((error, req, res, next) => ...)`; `error`
is the value that was thrown or passed to `next`. -/
def globalErrorHandler (rt : Runtime) (error : Val) : ErrorResponse :=
  if Val.strictEq (error.get "type") (.str "entity.parse.failed") then
    ⟨.num 400, .obj [("success", .bool false), ("message", .str "Invalid JSON in request body")]⟩
  else if Val.strictEq (error.get "code") (.str "EBADCSRFTOKEN") then
    ⟨.num 403, .obj [("success", .bool false), ("message", .str "Invalid CSRF token")]⟩
  else
    ⟨Val.orElse (error.get "status") (.num 500),
      .obj ([("success", .bool false),
        ("message", Val.orElse (error.get "message") (.str "Internal server error"))] ++
        (if Val.strictEq rt.nodeEnv (.str "development") then [("stack", error.get "stack")]
          else []))⟩

/-! ## Every route handler at once -/

/-- A request as it reaches a route handler: which handler, and the parts of the
request it reads (`req.user`, `req.params`, `req.query`, `req.body`). -/
inductive Call where
  | health
  | documentation (protocol host : Val)
  | notFound (originalUrl method : Val)
  | listCities
  | cityHotels (city_id query : Val)
  | getHotel (hotel_id : Val)
  | hotelReviews (hotel_id query : Val)
  | availability (room_type_id query : Val)
  | calendar (room_type_id query : Val)
  | createBooking (user : User) (body : Val)
  | getBooking (user : User) (booking_id : Val)
  | cancelBooking (user : User) (booking_id : Val)
  | userBookings (user : User) (user_id query : Val)
  | processPayment (user : User) (body : Val)
  | getPayment (user : User) (payment_id : Val)
  | refund (user : User) (payment_id body : Val)
  | addReview (user : User) (body : Val)
  | getReview (review_id : Val)
  | markHelpful (user : User) (review_id : Val)
  | updateReview (user : User) (review_id body : Val)
  | deleteReview (user : User) (review_id : Val)
  | recentReviews (query : Val)
  | listPricing (query : Val)
  | createPricing (body : Val)
  | getPricing (pricing_id : Val)
  | updatePricing (pricing_id body : Val)
  | deletePricing (pricing_id : Val)
  | currentPrice (room_type_id query : Val)

/-- The handler a call is for. -/
def Call.handler : Call → Handler
  | .health => .health
  | .documentation _ _ => .documentation
  | .notFound _ _ => .notFound
  | .listCities => .listCities
  | .cityHotels _ _ => .cityHotels
  | .getHotel _ => .getHotel
  | .hotelReviews _ _ => .hotelReviews
  | .availability _ _ => .availability
  | .calendar _ _ => .calendar
  | .createBooking _ _ => .createBooking
  | .getBooking _ _ => .getBooking
  | .cancelBooking _ _ => .cancelBooking
  | .userBookings _ _ _ => .userBookings
  | .processPayment _ _ => .processPayment
  | .getPayment _ _ => .getPayment
  | .refund _ _ _ => .refund
  | .addReview _ _ => .addReview
  | .getReview _ => .getReview
  | .markHelpful _ _ => .markHelpful
  | .updateReview _ _ _ => .updateReview
  | .deleteReview _ _ => .deleteReview
  | .recentReviews _ => .recentReviews
  | .listPricing _ => .listPricing
  | .createPricing _ => .createPricing
  | .getPricing _ => .getPricing
  | .updatePricing _ _ => .updatePricing
  | .deletePricing _ => .deletePricing
  | .currentPrice _ _ => .currentPrice

/-- Running the handler of a call. -/
def handle {σ : Type} (E : Engine σ) (pf : Platform) (apiVersion : String) (call : Call)
    (db : σ) : Outcome σ :=
  match call with
  | .health => ⟨health pf.toRuntime apiVersion, [], db, none⟩
  | .documentation protocol host =>
    ⟨documentation pf.toRuntime apiVersion protocol host, [], db, none⟩
  | .notFound originalUrl method => ⟨notFoundHandler apiVersion originalUrl method, [], db, none⟩
  | .listCities => listCities E pf.toRuntime db
  | .cityHotels city_id query => cityHotels E pf.toRuntime city_id query db
  | .getHotel hotel_id => getHotel E pf.toRuntime hotel_id db
  | .hotelReviews hotel_id query => hotelReviews E pf.toRuntime hotel_id query db
  | .availability room_type_id query => availability E pf.toRuntime room_type_id query db
  | .calendar room_type_id query => calendar E pf.toRuntime room_type_id query db
  | .createBooking user body => createBooking E pf.toRuntime user body db
  | .getBooking user booking_id => getBooking E pf.toRuntime user booking_id db
  | .cancelBooking user booking_id => cancelBooking E pf.toRuntime user booking_id db
  | .userBookings user user_id query => userBookings E pf.toRuntime user user_id query db
  | .processPayment user body => processPayment E pf.toRuntime user body db
  | .getPayment user payment_id => getPayment E pf.toRuntime user payment_id db
  | .refund user payment_id body => refund E pf.toRuntime user payment_id body db
  | .addReview user body => addReview E pf user body db
  | .getReview review_id => getReview E pf.toRuntime review_id db
  | .markHelpful user review_id => markHelpful E pf.toRuntime user review_id db
  | .updateReview user review_id body => updateReview E pf user review_id body db
  | .deleteReview user review_id => deleteReview E pf.toRuntime user review_id db
  | .recentReviews query => recentReviews E pf.toRuntime query db
  | .listPricing query => listPricing E pf.toRuntime query db
  | .createPricing body => createPricing E pf body db
  | .getPricing pricing_id => getPricing E pf.toRuntime pricing_id db
  | .updatePricing pricing_id body => updatePricing E pf pricing_id body db
  | .deletePricing pricing_id => deletePricing E pf.toRuntime pricing_id db
  | .currentPrice room_type_id query => currentPrice E pf.toRuntime room_type_id query db

/-! ## Middleware chains -/

/-- The middleware the routes name before their handlers. -/
inductive Middleware where
  | authenticateToken | requireAdmin
  | validateBooking | validatePayment | validateReview | validateAvailability
  | validateSeasonalPricing
  deriving DecidableEq

/-- The middleware chain of the route of each handler, as registered: the
arguments of `router.METHOD(path, ...)` before the handler. The routes of
routes/auth.js are not at hand; none is listed for them. -/
def Handler.chain : Handler → List Middleware
  | .createBooking => [.authenticateToken, .validateBooking]
  | .getBooking => [.authenticateToken]
  | .cancelBooking => [.authenticateToken]
  | .userBookings => [.authenticateToken]
  | .processPayment => [.authenticateToken, .validatePayment]
  | .getPayment => [.authenticateToken]
  | .refund => [.authenticateToken]
  | .addReview => [.authenticateToken, .validateReview]
  | .markHelpful => [.authenticateToken]
  | .updateReview => [.authenticateToken, .validateReview]
  | .deleteReview => [.authenticateToken]
  | .availability => [.validateAvailability]
  | .createPricing => [.authenticateToken, .requireAdmin, .validateSeasonalPricing]
  | .updatePricing => [.authenticateToken, .requireAdmin, .validateSeasonalPricing]
  | .deletePricing => [.authenticateToken, .requireAdmin]
  | _ => []

/-- What the middleware of middleware/auth.js, which is not among the sources at
hand, does with the request: `none` when it passes the request on, the response
it sends when it answers the request itself. -/
structure Gate where
  authenticateToken : Option Response
  requireAdmin : Option Response

/-- Running a middleware chain and then the handler body: a middleware that
answers ends the request, the validation chains record their errors and pass
the request on. -/
def throughChain {σ : Type} (gate : Gate) :
    List Middleware → (σ → Outcome σ) → σ → Outcome σ
  | [], body, db => body db
  | .authenticateToken :: rest, body, db =>
    match gate.authenticateToken with
    | some r => ⟨r, [], db, none⟩
    | none => throughChain gate rest body db
  | .requireAdmin :: rest, body, db =>
    match gate.requireAdmin with
    | some r => ⟨r, [], db, none⟩
    | none => throughChain gate rest body db
  | _ :: rest, body, db => throughChain gate rest body db

/-- Serving a call: its middleware chain, then its handler. -/
def serve {σ : Type} (E : Engine σ) (pf : Platform) (apiVersion : String) (gate : Gate)
    (call : Call) (db : σ) : Outcome σ :=
  throughChain gate call.handler.chain (handle E pf apiVersion call) db

/-! ## frontend/src/services/index.js: bookingService.cancelBooking -/

/-- A request the frontend issues through its `api` client: the method and the
path relative to the base URL of the client. -/
structure ClientRequest where
  method : Method
  path : String

/-- The request of `bookingService.cancelBooking(bookingId)`:
`api.post('/bookings/' + bookingId + '/cancel')`. -/
def bookingService.cancelBooking (bookingId : String) : ClientRequest :=
  ⟨.POST, "/bookings/" ++ bookingId ++ "/cancel"⟩

/-- The path of a client request on the server, for a client whose base URL ends
in the path `base`. -/
def ClientRequest.serverPath (base : String) (r : ClientRequest) : String := base ++ r.path

/-! ## A reference engine for the current-price query

The query of GET /seasonal-pricing/room-types/:room_type_id/current-price read
on in-memory tables: a room type row carries the name of its hotel, a date is
the text `YYYY-MM-DD`, and the stored function `GetSeasonalPrice` is a
parameter. -/

/-- A row of RoomType with the name of its Hotel row. -/
structure RoomTypeRec where
  room_type_id : Val
  name : Val
  base_price : Val
  hotel_name : Val

/-- A row of SeasonalPricing. -/
structure PricingRule where
  room_type_id : Val
  season_name : Val
  price_multiplier : Val
  start_date : Val
  end_date : Val
  is_active : Bool
  priority : Int

/-- The tables of the current-price query and the stored function
`GetSeasonalPrice(room_type_id, date)`. -/
structure PricingDb where
  roomTypes : List RoomTypeRec
  rules : List PricingRule
  seasonalPrice : Val → Val → Val

/-- The condition `? BETWEEN sp.start_date AND sp.end_date` on dates. -/
def dateBetween (date : Val) (rule : PricingRule) : Bool :=
  Val.ge (isoDate date) (isoDate rule.start_date) &&
    Val.ge (isoDate rule.end_date) (isoDate date)

/-- The rules the LEFT JOIN attaches to a room type for a date: those of the
room type whose range contains the date and that are active. -/
def activeRules (db : PricingDb) (roomType : RoomTypeRec) (date : Val) : List PricingRule :=
  db.rules.filter (fun rule =>
    Val.strictEq roomType.room_type_id rule.room_type_id && dateBetween date rule &&
      rule.is_active)

/-- The rows of the LEFT JOIN for one room type: one per attached rule, or one
without a rule. -/
def joinedRules (db : PricingDb) (roomType : RoomTypeRec) (date : Val) :
    List (RoomTypeRec × Option PricingRule) :=
  match activeRules db roomType date with
  | [] => [(roomType, none)]
  | rules => rules.map (fun rule => (roomType, some rule))

/-- Whether a row comes strictly before another under `ORDER BY sp.priority
DESC`: a greater priority first, a row without a rule (NULL) last. -/
def outranks (a b : Option PricingRule) : Bool :=
  match a, b with
  | some x, some y => decide (y.priority < x.priority)
  | some _, none => true
  | none, _ => false

/-- The row `ORDER BY sp.priority DESC LIMIT 1` keeps: one that no other row
outranks, the earliest such. -/
def topRow : List (RoomTypeRec × Option PricingRule) →
    Option (RoomTypeRec × Option PricingRule)
  | [] => none
  | x :: xs =>
    match topRow xs with
    | some best => if outranks best.2 x.2 then some best else some x
    | none => some x

/-- The current-price query on the tables; any other statement raises. -/
def pricingExec (db : PricingDb) (s : Stmt) : Except String (List Row) × PricingDb :=
  match s.params with
  | [priceDate, date, key] =>
    if s.sql = Sql.currentPrice then
      (.ok (match topRow ((db.roomTypes.filter (fun rt => keyEq rt.room_type_id key)).flatMap
          (fun rt => joinedRules db rt date)) with
        | none => []
        | some (rt, rule) =>
          [[("room_type_id", rt.room_type_id), ("room_type_name", rt.name),
            ("base_price", rt.base_price),
            ("current_price", db.seasonalPrice rt.room_type_id priceDate),
            ("hotel_name", rt.hotel_name),
            ("season_name", (rule.map (fun r => r.season_name)).getD .null),
            ("price_multiplier", (rule.map (fun r => r.price_multiplier)).getD .null)]]), db)
    else (.error "statement not supported by the reference engine", db)
  | _ => (.error "statement not supported by the reference engine", db)

/-- The reference engine of the current-price query. -/
def pricingEngine : Engine PricingDb := ⟨pricingExec⟩

/-! ## More sample data -/

/-- The characters of a string without white space at either end. -/
def trimChars (cs : List Char) : List Char :=
  ((cs.dropWhile isWhiteSpace).reverse.dropWhile isWhiteSpace).reverse

/-- The sample runtime with simple stand-ins for the further library functions. -/
def samplePlatform : Platform where
  toRuntime := sampleRuntime
  isIntBetween := fun lo hi v => match v.toNumber with
    | .num q => decide ((lo : ℚ) ≤ q ∧ q ≤ (hi : ℚ))
    | _ => false
  isFloatBetween := fun lo hi v => match v.toNumber with
    | .num q => decide (lo ≤ q ∧ q ≤ hi)
    | _ => false
  trim := fun v => match v with
    | .str s => .str (String.mk (trimChars s.data))
    | _ => .str ""

/-- The sample platform in development mode. -/
def developmentPlatform : Platform :=
  { samplePlatform with nodeEnv := .str "development" }

/-- A review of booking 1 with a title and a text of valid length. -/
def reviewBody : Val :=
  .obj [("booking_id", .num 1), ("rating", .num 5),
    ("review_title", .str "  Amazing Experience!  "),
    ("review_text", .str "The hotel was fantastic and the service was excellent.")]

/-- An engine without state whose `AddReview` raises an error with a message. -/
def rejectingReview (message : String) : Engine Unit :=
  ⟨fun _ s => if s.sql = Sql.addReview then (.error message, ()) else (.ok [], ())⟩

/-- The body of the test 'Should return 400 for invalid booking data'. -/
def invalidBookingBody : Val :=
  .obj [("room_type_id", .str "invalid"), ("check_in", .str "invalid-date")]

/-- A gate that lets every request pass. -/
def openGate : Gate := ⟨none, none⟩

/-- A gate whose `authenticateToken` answers 401. -/
def closedGate : Gate :=
  ⟨some (json 401 [("success", .bool false), ("message", .str "Access token required")]),
    none⟩

/-- The room type 1 of the sample pricing tables. -/
def deluxe : RoomTypeRec := ⟨.num 1, .str "Deluxe", .str "100.00", .str "Grand Hotel"⟩

/-- Two room types and three rules for room type 1: a summer rule of priority 1,
a festival rule of priority 5 inside it, and an inactive rule of priority 9. -/
def samplePricingDb : PricingDb where
  roomTypes :=
    [deluxe,
     ⟨.num 2, .str "Suite", .str "250.00", .str "Grand Hotel"⟩]
  rules :=
    [⟨.num 1, .str "Summer", .str "1.20", .str "2025-06-01", .str "2025-08-31", true, 1⟩,
     ⟨.num 1, .str "Festival", .str "1.50", .str "2025-07-10", .str "2025-07-20", true, 5⟩,
     ⟨.num 1, .str "Closed", .str "3.00", .str "2025-07-01", .str "2025-07-31", false, 9⟩]
  seasonalPrice := fun _ _ => .str "150.00"

/-- A query string whose values try to reach the query text:
`?rating_min=3&sort_by=name; DROP TABLE Hotel&order=desc`. -/
def hostileHotelQuery : Val :=
  .obj [("rating_min", .str "3"), ("sort_by", .str "name; DROP TABLE Hotel"),
    ("order", .str "desc")]

/-- The query string `?date=2025-07-15`, a day of the festival. -/
def festivalQuery : Val := .obj [("date", .str "2025-07-15")]

/-! ## The response envelope -/

/-- The envelope of a handler's outcome: the body carries `success`, true
exactly for a status below 400; and when an error was caught and the status is
500, the body carries the error detail of that error. -/
def Enveloped {σ : Type} (rt : Runtime) (out : Outcome σ) : Prop :=
  out.response.body.get "success" = .bool (decide (out.response.status < 400)) ∧
  ∀ e : String, out.caught = some e → out.response.status = 500 →
    out.response.body.get "success" = .bool false ∧
    out.response.body.get "error" = errorDetail rt e

/-! ## Pagination, reviews and inventory read on tables -/

/-- The rows that `LIMIT limit OFFSET offset` keeps of an ordered result. -/
def pageWindow {α : Type} (limit offset : Nat) (rows : List α) : List α :=
  (rows.drop offset).take limit

/-- A row of Review: its id and the id of its author. -/
structure ReviewRec where
  review_id : Val
  user_id : Val

/-- The statements of DELETE /reviews/:review_id read on a Review table; any
other statement raises. -/
def reviewExec (db : List ReviewRec) (s : Stmt) : Except String (List Row) × List ReviewRec :=
  match s.params with
  | [key] =>
    if s.sql = Sql.reviewOwner then
      (.ok ((db.filter (fun r => keyEq r.review_id key)).map
        (fun r => [("user_id", r.user_id)])), db)
    else if s.sql = Sql.deleteReview then
      (.ok [], db.filter (fun r => !keyEq r.review_id key))
    else (.error "statement not supported by the reference engine", db)
  | _ => (.error "statement not supported by the reference engine", db)

/-- The reference engine of the Review table. -/
def reviewEngine : Engine (List ReviewRec) := ⟨reviewExec⟩

/-- A row of RoomType with the name of its Hotel row, as the availability query
selects it. -/
structure RoomRec where
  room_type_id : Val
  name : Val
  base_price : Val
  max_guests : Val
  hotel_name : Val

/-- A row of RoomInventory: the rooms of a room type left for one night. -/
structure InventoryRec where
  room_type_id : Val
  stay_date : Val
  qty : Int

/-- The tables of the availability queries and the stored function
`GetSeasonalPrice(room_type_id, date)`. -/
structure InventoryDb where
  roomTypes : List RoomRec
  inventory : List InventoryRec
  seasonalPrice : Val → Val → Val

/-- The inventory rows the WHERE clause of the availability query keeps: those
of the room type with `stay_date >= ?` and `stay_date < ?`. -/
def inventoryInRange (db : InventoryDb) (key first last : Val) : List InventoryRec :=
  db.inventory.filter (fun r =>
    keyEq r.room_type_id key && Val.ge (isoDate r.stay_date) (isoDate first) &&
      Val.lt (isoDate r.stay_date) (isoDate last))

/-- The aggregate `MIN(qty)`: NULL over no rows. -/
def minQty : List InventoryRec → Val
  | [] => .null
  | r :: rs =>
    match minQty rs with
    | .num q => .num (min (r.qty : ℚ) q)
    | _ => .num (r.qty : ℚ)

/-- The two queries of GET /roomtypes/:room_type_id/availability read on the
tables; any other statement raises. -/
def inventoryExec (db : InventoryDb) (s : Stmt) : Except String (List Row) × InventoryDb :=
  match s.params with
  | [date, key] =>
    if s.sql = Sql.availabilityRoomType then
      (.ok ((db.roomTypes.filter (fun rt => keyEq rt.room_type_id key)).map
        (fun rt => [("room_type_id", rt.room_type_id), ("name", rt.name),
          ("base_price", rt.base_price), ("max_guests", rt.max_guests),
          ("hotel_name", rt.hotel_name),
          ("current_price", db.seasonalPrice rt.room_type_id date)])), db)
    else (.error "statement not supported by the reference engine", db)
  | [key, first, last] =>
    if s.sql = Sql.availabilityInventory then
      (.ok [[("min_available", minQty (inventoryInRange db key first last))]], db)
    else (.error "statement not supported by the reference engine", db)
  | _ => (.error "statement not supported by the reference engine", db)

/-- The reference engine of the availability queries. -/
def inventoryEngine : Engine InventoryDb := ⟨inventoryExec⟩

/-! ## The server's clock and time zone

`new Date('YYYY-MM-DD')` is midnight UTC of that date, while `new Date()`
followed by `setHours(0, 0, 0, 0)` is midnight of the current day in the time
zone of the server. A zone is given by its offset from UTC in minutes, positive
to the east, taken as constant. -/

/-- Midnight UTC of the date that is the current day in the zone, for a clock in
milliseconds: the time value of `new Date(text)` for the text of that date. -/
def localDayStart (nowMs offsetMinutes : Int) : Int :=
  (nowMs + offsetMinutes * 60000) / 86400000 * 86400000

/-- The time value of `new Date()` after `setHours(0, 0, 0, 0)`: midnight of
the current day in the zone. -/
def localMidnight (nowMs offsetMinutes : Int) : Int :=
  localDayStart nowMs offsetMinutes - offsetMinutes * 60000

/-- The server's current local calendar date, written `YYYY-MM-DD`. -/
def localDate (nowMs offsetMinutes : Int) : String := isoDay (nowMs + offsetMinutes * 60000)

/-- A runtime whose dates follow a clock and a zone; everything else is taken
from `base`. -/
def zonedRuntime (base : Runtime) (nowMs offsetMinutes : Int) : Runtime :=
  { base with
    now := .num nowMs
    today := .num (localMidnight nowMs offsetMinutes)
    newDate := isoDate }

/-! ## frontend/src/services/index.js -/

/-- The request of `cityService.getCities()`. -/
def cityService.getCities : ClientRequest := ⟨.GET, "/cities"⟩

/-- The request of `cityService.getCityHotels(cityId)`. -/
def cityService.getCityHotels (cityId : String) : ClientRequest :=
  ⟨.GET, "/cities/" ++ cityId ++ "/hotels"⟩

/-- The request of `hotelService.getHotels()`. -/
def hotelService.getHotels : ClientRequest := ⟨.GET, "/hotels"⟩

/-- The request of `hotelService.getHotelDetails(hotelId)`. -/
def hotelService.getHotelDetails (hotelId : String) : ClientRequest :=
  ⟨.GET, "/hotels/" ++ hotelId⟩

/-- The request of `hotelService.searchHotels(params)`, without its query string. -/
def hotelService.searchHotels : ClientRequest := ⟨.GET, "/hotels/search"⟩

/-- The request of `bookingService.getUserBookings()`. -/
def bookingService.getUserBookings : ClientRequest := ⟨.GET, "/bookings"⟩

/-- The request of `bookingService.createBooking(bookingData)`. -/
def bookingService.createBooking : ClientRequest := ⟨.POST, "/bookings"⟩

/-- The request of `bookingService.getBookingDetails(bookingId)`. -/
def bookingService.getBookingDetails (bookingId : String) : ClientRequest :=
  ⟨.GET, "/bookings/" ++ bookingId⟩

/-- The request of `reviewService.getHotelReviews(hotelId)`. -/
def reviewService.getHotelReviews (hotelId : String) : ClientRequest :=
  ⟨.GET, "/reviews/hotel/" ++ hotelId⟩

/-- The request of `reviewService.addReview(reviewData)`. -/
def reviewService.addReview : ClientRequest := ⟨.POST, "/reviews"⟩

/-- The request of `reviewService.markReviewHelpful(reviewId)`. -/
def reviewService.markReviewHelpful (reviewId : String) : ClientRequest :=
  ⟨.POST, "/reviews/" ++ reviewId ++ "/helpful"⟩

/-- The request of `roomService.checkAvailability(roomTypeId, checkIn, checkOut)`,
without its query string. -/
def roomService.checkAvailability (roomTypeId : String) : ClientRequest :=
  ⟨.GET, "/roomtypes/" ++ roomTypeId ++ "/availability"⟩

/-- The request of `roomService.getRoomPricing(roomTypeId, checkIn, checkOut)`,
without its query string. -/
def roomService.getRoomPricing (roomTypeId : String) : ClientRequest :=
  ⟨.GET, "/roomtypes/" ++ roomTypeId ++ "/pricing"⟩

/-- Where the backend sends a client request whose base URL ends in `/api/v1`. -/
def ClientRequest.target (authRoutes : List Route) (r : ClientRequest) : Option Target :=
  dispatch (app "v1" authRoutes) r.method (segments (r.serverPath "/api/v1"))

/-! ## Sample data for pagination, payments, reviews, inventory and zones -/

/-- The query string `?page=2&limit=5`. -/
def secondPageQuery : Val := .obj [("page", .str "2"), ("limit", .str "5")]

/-- The sample tables with the payment of booking 1 marked SUCCESS. -/
def paidDb : Database :=
  { sampleDb with payments := sampleDb.payments.map (fun p =>
      if keyEq p.booking_id (.num 1) then { p with status := .str "SUCCESS" } else p) }

/-- The sample tables with the payment of booking 1 marked REFUNDED. -/
def refundedDb : Database :=
  { sampleDb with payments := sampleDb.payments.map (fun p =>
      if keyEq p.booking_id (.num 1) then { p with status := .str "REFUNDED" } else p) }

/-- A card payment for booking 1 with a valid card number of 13 digits. -/
def shortCardBody : Val :=
  .obj [("booking_id", .num 1), ("payment_method", .str "CARD"),
    ("card_number", .str "4222222222222")]

/-- A card payment for booking 1 without a card number. -/
def noCardBody : Val := .obj [("booking_id", .num 1), ("payment_method", .str "CARD")]

/-- Two reviews: review 1 of user 7 and review 2 of user 8. -/
def sampleReviews : List ReviewRec := [⟨.num 1, .num 7⟩, ⟨.num 2, .num 8⟩]

/-- One room type with inventory for the nights of 2025-12-01 and 2025-12-03,
and none for the night of 2025-12-02. -/
def gappedInventory : InventoryDb where
  roomTypes := [⟨.num 1, .str "Deluxe", .str "100.00", .num 2, .str "Grand Hotel"⟩]
  inventory := [⟨.num 1, .str "2025-12-01", 3⟩, ⟨.num 1, .str "2025-12-03", 4⟩]
  seasonalPrice := fun _ _ => .str "120.00"

/-- The query string `?check_in=2025-12-01&check_out=2025-12-03`. -/
def decemberStay : Val :=
  .obj [("check_in", .str "2025-12-01"), ("check_out", .str "2025-12-03")]

/-- The clock at 2025-11-05T17:00:00Z. -/
def sampleClock : Int := 1762362000000

/-- A request for one night from a check-in date. -/
def stayFrom (room_type_id : Val) (check_in check_out : String) : Val :=
  .obj [("room_type_id", room_type_id), ("check_in", .str check_in),
    ("check_out", .str check_out)]

/-! ## The listing of a user's bookings read on tables -/

/-- The number of rows a bound LIMIT or OFFSET parameter stands for. -/
def rowCount (v : Val) : Nat :=
  match v.toNumber with
  | .num q => ⌊q⌋.toNat
  | _ => 0

/-- The bookings the WHERE clause of the listing and of the count query keeps:
those whose `user_id` column equals the bound parameter, which the engine reads
as a number, and whose status is the bound status, if there is one. The table
is taken to hold the bookings from the newest to the oldest, the order of
`ORDER BY b.created_at DESC`. -/
def bookingsOfUser (db : Database) (key : Val) (status : Option Val) : List BookingRec :=
  db.bookings.filter (fun b =>
    keyEq b.user_id key &&
      (match status with
        | none => true
        | some s => Val.strictEq b.status s))

/-- The rows of the listing query before LIMIT and OFFSET. -/
def listingRows (db : Database) (key : Val) (status : Option Val) : List Row :=
  (bookingsOfUser db key status).flatMap (fun b => leftJoinPayment db b (fun p =>
    [("booking_id", b.booking_id), ("status", b.status), ("room_type", b.room_type),
     ("hotel", b.hotel_name), ("total_amount", paymentColumn p (fun r => r.amount)),
     ("payment_status", paymentColumn p (fun r => r.status))] ++ b.details))

/-- The listing query and the count query of GET /users/:user_id/bookings read
on the tables; any other statement raises. -/
def listingExec (db : Database) (s : Stmt) : Except String (List Row) × Database :=
  match s.params with
  | [key, limit, offset] =>
    if s.sql = Sql.userBookings false then
      (.ok (pageWindow (rowCount limit) (rowCount offset) (listingRows db key none)), db)
    else (.error "statement not supported by the reference engine", db)
  | [key, status, limit, offset] =>
    if s.sql = Sql.userBookings true then
      (.ok (pageWindow (rowCount limit) (rowCount offset) (listingRows db key (some status))), db)
    else (.error "statement not supported by the reference engine", db)
  | [key] =>
    if s.sql = Sql.userBookingsCount false then
      (.ok [[("total", .num ((bookingsOfUser db key none).length : ℚ))]], db)
    else (.error "statement not supported by the reference engine", db)
  | [key, status] =>
    if s.sql = Sql.userBookingsCount true then
      (.ok [[("total", .num ((bookingsOfUser db key (some status)).length : ℚ))]], db)
    else (.error "statement not supported by the reference engine", db)
  | _ => (.error "statement not supported by the reference engine", db)

/-- The reference engine of the listing of a user's bookings. -/
def listingEngine : Engine Database := ⟨listingExec⟩

/-- The sample tables with one more booking, booking 4 of user 700. -/
def crowdedDb : Database :=
  { sampleDb with bookings := sampleDb.bookings ++
      [⟨.num 4, .num 700, .str "CONFIRMED", .str "Suite", .str "Sea View", []⟩] }

/-! ## Dates written with slashes, in a zone with daylight saving time

The validation library's `isDate` admits `YYYY/MM/DD` as well as `YYYY-MM-DD`.
`new Date('YYYY/MM/DD')` is midnight of that date in the time zone of the
server, so two such dates are a whole number of days apart only if the zone has
the same offset on both. -/

/-- The civil date of a text `YYYY/MM/DD` as a number of days from 1970-01-01. -/
def slashDay (v : Val) : Option Int :=
  match v with
  | .str s =>
    match s.data with
    | [y1, y2, y3, y4, '/', m1, m2, '/', d1, d2] =>
      match (takeDigits 10 [y1, y2, y3, y4]).1, (takeDigits 10 [m1, m2]).1,
        (takeDigits 10 [d1, d2]).1 with
      | [a, b, c, d], [m, n], [x, y] =>
        some (daysFromCivil (fromDigits 10 [a, b, c, d]) (fromDigits 10 [m, n])
          (fromDigits 10 [x, y]))
      | _, _, _ => none
    | _ => none
  | _ => none

/-- The offset from UTC, in minutes, at local midnight of a day, in a zone two
hours ahead of UTC that goes back to one hour ahead in the night of 2025-10-26
(as Central Europe does); days are numbered from 1970-01-01. -/
def autumnOffset (day : Int) : Int := if day ≤ daysFromCivil 2025 10 26 then 120 else 60

/-- The time value of `new Date(text)` in that zone: midnight UTC for a date
written `YYYY-MM-DD`, local midnight for a date written `YYYY/MM/DD`. -/
def autumnDate (v : Val) : Val :=
  match isoDate v with
  | .num x => .num x
  | _ =>
    match slashDay v with
    | some day => .num ((day * 86400000 - autumnOffset day * 60000 : Int) : ℚ)
    | none => .nan

/-- The sample runtime on a server in that zone, on 2025-10-20; `isDate` admits
the texts of the two formats. -/
def autumnRuntime : Runtime :=
  { sampleRuntime with
    now := .num 1760954400000
    today := autumnDate (.str "2025/10/20")
    newDate := autumnDate
    isDate := fun v => match autumnDate v with
      | .num _ => true
      | _ => false }

/-- An engine without state that answers every statement with one row holding a
price of 120.10 a night and the columns of a created booking. -/
def pricedAt12010 : Engine Unit :=
  answering [[("price_per_night", .str "120.10"), ("booking_id", .num 42)]]

/-- The query string `?page=2&limit=1000000000000000000000`. -/
def hugeLimitQuery : Val :=
  .obj [("page", .str "2"), ("limit", .str "1000000000000000000000")]

/-- The query string `?page=4&limit=4503599627370497`, a limit of 2 ^ 52 + 1. -/
def oddLimitQuery : Val :=
  .obj [("page", .str "4"), ("limit", .str "4503599627370497")]

/-! ## Theorems -/

/-! ### Double precision -/

/-- The power of two as an integer power of the rational 2. -/
theorem pow2_eq_zpow (e : Int) : pow2 e = (2 : ℚ) ^ e := by
  unfold pow2
  split
  · rename_i h
    obtain ⟨n, rfl⟩ : ∃ n : Nat, e = (n : Int) := ⟨e.toNat, by omega⟩
    simp [zpow_natCast]
  · rename_i h
    obtain ⟨n, rfl⟩ : ∃ n : Nat, e = -(n : Int) := ⟨(-e).toNat, by omega⟩
    simp [zpow_neg, zpow_natCast]

/-- With enough fuel `log2Floor` is the position of the leading bit. -/
theorem log2Floor_spec : ∀ (fuel n : Nat), n ≤ fuel → 1 ≤ n →
    2 ^ log2Floor fuel n ≤ n ∧ n < 2 ^ (log2Floor fuel n + 1)
  | 0, n, h, hn => by omega
  | fuel + 1, n, h, hn => by
    unfold log2Floor
    split
    · constructor
      · simpa using hn
      · simpa using (by omega : n < 2)
    · obtain ⟨h1, h2⟩ := log2Floor_spec fuel (n / 2) (by omega) (by omega)
      rw [pow_succ] at h2
      constructor
      · rw [pow_succ]
        omega
      · rw [pow_succ, pow_succ]
        omega

/-- A positive rational lies between the power of two of its binary exponent
and the next one. -/
theorem binaryExponent_spec (a : ℚ) (ha : 0 < a) :
    (2 : ℚ) ^ binaryExponent a ≤ a ∧ a < (2 : ℚ) ^ (binaryExponent a + 1) := by
  have hnum : 0 < a.num := Rat.num_pos.mpr ha
  have hN : 1 ≤ a.num.natAbs := by omega
  have hD : 1 ≤ a.den := a.den_pos
  obtain ⟨n1, n2⟩ := log2Floor_spec a.num.natAbs a.num.natAbs le_rfl hN
  obtain ⟨d1, d2⟩ := log2Floor_spec a.den a.den le_rfl hD
  have ha_eq : a = (a.num.natAbs : ℚ) / (a.den : ℚ) := by
    have h2 : (a.num.natAbs : ℚ) = (a.num : ℚ) := by
      rw [Nat.cast_natAbs, abs_of_pos hnum]
    rw [h2]
    exact (Rat.num_div_den a).symm
  generalize hln : log2Floor a.num.natAbs a.num.natAbs = ln at n1 n2
  generalize hld : log2Floor a.den a.den = ld at d1 d2
  have hDpos : (0 : ℚ) < (a.den : ℚ) := by exact_mod_cast hD
  have n1q : ((2 : ℚ) ^ ln) ≤ (a.num.natAbs : ℚ) := by exact_mod_cast n1
  have n2q : (a.num.natAbs : ℚ) < ((2 : ℚ) ^ (ln + 1)) := by exact_mod_cast n2
  have d1q : ((2 : ℚ) ^ ld) ≤ (a.den : ℚ) := by exact_mod_cast d1
  have d2q : (a.den : ℚ) < ((2 : ℚ) ^ (ld + 1)) := by exact_mod_cast d2
  have two_pos : ∀ z : Int, (0 : ℚ) < (2 : ℚ) ^ z := fun z => zpow_pos (by norm_num) z
  -- bounds on a
  have hup : a < (2 : ℚ) ^ ((ln : Int) - (ld : Int) + 1) := by
    have : (2 : ℚ) ^ ((ln : Int) - (ld : Int) + 1) = (2 : ℚ) ^ (ln + 1) / (2 : ℚ) ^ ld := by
      rw [show ((ln : Int) - (ld : Int) + 1) = ((ln + 1 : Nat) : Int) - (ld : Int) by push_cast; ring]
      rw [zpow_sub₀ (by norm_num : (2 : ℚ) ≠ 0), zpow_natCast, zpow_natCast]
    rw [this, ha_eq, div_lt_div_iff₀ hDpos (by positivity)]
    calc (a.num.natAbs : ℚ) * 2 ^ ld < 2 ^ (ln + 1) * 2 ^ ld := by
          apply mul_lt_mul_of_pos_right n2q (by positivity)
      _ ≤ 2 ^ (ln + 1) * (a.den : ℚ) := by
          apply mul_le_mul_of_nonneg_left d1q (by positivity)
  have hlow : (2 : ℚ) ^ ((ln : Int) - (ld : Int) - 1) < a := by
    have : (2 : ℚ) ^ ((ln : Int) - (ld : Int) - 1) = (2 : ℚ) ^ ln / (2 : ℚ) ^ (ld + 1) := by
      rw [show ((ln : Int) - (ld : Int) - 1) = (ln : Int) - ((ld + 1 : Nat) : Int) by push_cast; ring]
      rw [zpow_sub₀ (by norm_num : (2 : ℚ) ≠ 0), zpow_natCast, zpow_natCast]
    rw [this, ha_eq, div_lt_div_iff₀ (by positivity) hDpos]
    calc (2 : ℚ) ^ ln * (a.den : ℚ) < 2 ^ ln * 2 ^ (ld + 1) := by
          apply mul_lt_mul_of_pos_left d2q (by positivity)
      _ ≤ (a.num.natAbs : ℚ) * 2 ^ (ld + 1) := by
          apply mul_le_mul_of_nonneg_right n1q (by positivity)
  unfold binaryExponent
  simp only [hln, hld, pow2_eq_zpow]
  split
  · rename_i h
    exact ⟨h, hup⟩
  · rename_i h
    push_neg at h
    refine ⟨hlow.le, ?_⟩
    simpa using h

/-- Rounding to the nearest integer moves a number by at most one half. -/
theorem roundHalfEven_close (x : ℚ) : |(roundHalfEven x : ℚ) - x| ≤ 1 / 2 := by
  have h1 := Int.floor_le x
  have h2 := Int.lt_floor_add_one x
  unfold roundHalfEven
  rw [abs_le]
  split_ifs <;> push_cast <;> constructor <;> linarith

/-- An integer is its own rounding. -/
theorem roundHalfEven_intCast (z : Int) : roundHalfEven (z : ℚ) = z := by
  unfold roundHalfEven
  simp


/-- In the normal range below 2 ^ 53 the nearest double is the rounded 53-bit
mantissa at the binary exponent of the number. -/
theorem toDouble_of_pos (q : ℚ) (hq : 0 < q) (hlo : (2 : ℚ) ^ (-1022 : Int) ≤ q)
    (hhi : q < 2 ^ 53) :
    ∃ e : Int, -1022 ≤ e ∧ e ≤ 52 ∧ (2 : ℚ) ^ e ≤ q ∧ q < (2 : ℚ) ^ (e + 1) ∧
      toDouble q = some ((roundHalfEven (q / (2 : ℚ) ^ (e - 52)) : ℚ) * (2 : ℚ) ^ (e - 52)) := by
  obtain ⟨h1, h2⟩ := binaryExponent_spec q hq
  have hge : -1022 ≤ binaryExponent q := by
    have h : (2 : ℚ) ^ (-1022 : Int) < (2 : ℚ) ^ (binaryExponent q + 1) := lt_of_le_of_lt hlo h2
    have := (zpow_lt_zpow_iff_right₀ (by norm_num : (1 : ℚ) < 2)).mp h
    omega
  have hle : binaryExponent q ≤ 52 := by
    have h : (2 : ℚ) ^ (binaryExponent q) < (2 : ℚ) ^ (53 : Int) := by
      refine lt_of_le_of_lt h1 ?_
      have : (2 : ℚ) ^ (53 : Int) = 2 ^ 53 := by norm_num
      rw [this]
      exact hhi
    have := (zpow_lt_zpow_iff_right₀ (by norm_num : (1 : ℚ) < 2)).mp h
    omega
  refine ⟨binaryExponent q, hge, hle, h1, h2, ?_⟩
  unfold toDouble
  rw [if_neg (ne_of_gt hq)]
  simp only [abs_of_pos hq, max_eq_left hge, pow2_eq_zpow]
  rw [if_neg, if_neg (not_lt.mpr hq.le)]
  rintro (h | ⟨h, -⟩) <;> omega

/-- The nearest double differs from the number by at most 2 ^ -53 of it. -/
theorem toDouble_error (q : ℚ) (hq : 0 < q) (hlo : (2 : ℚ) ^ (-1022 : Int) ≤ q)
    (hhi : q < 2 ^ 53) :
    ∃ r : ℚ, toDouble q = some r ∧ |r - q| ≤ q / 2 ^ 53 := by
  obtain ⟨e, -, -, h1, -, hr⟩ := toDouble_of_pos q hq hlo hhi
  refine ⟨_, hr, ?_⟩
  have hpos : (0 : ℚ) < (2 : ℚ) ^ (e - 52) := zpow_pos (by norm_num) _
  have hclose := roundHalfEven_close (q / (2 : ℚ) ^ (e - 52))
  have hsplit : (2 : ℚ) ^ e = (2 : ℚ) ^ (e - 52) * 2 ^ 52 := by
    rw [zpow_sub₀ (by norm_num : (2 : ℚ) ≠ 0)]
    norm_num
  have : (roundHalfEven (q / (2 : ℚ) ^ (e - 52)) : ℚ) * (2 : ℚ) ^ (e - 52) - q =
      ((roundHalfEven (q / (2 : ℚ) ^ (e - 52)) : ℚ) - q / (2 : ℚ) ^ (e - 52)) *
        (2 : ℚ) ^ (e - 52) := by
    field_simp
  rw [this, abs_mul, abs_of_pos hpos]
  calc |(roundHalfEven (q / (2 : ℚ) ^ (e - 52)) : ℚ) - q / (2 : ℚ) ^ (e - 52)| * (2 : ℚ) ^ (e - 52)
      ≤ 1 / 2 * (2 : ℚ) ^ (e - 52) := mul_le_mul_of_nonneg_right hclose hpos.le
    _ = (2 : ℚ) ^ e / 2 ^ 53 := by rw [hsplit]; ring
    _ ≤ q / 2 ^ 53 := by
        apply div_le_div_of_nonneg_right h1
        norm_num

/-- A natural number below 2 ^ 53, as an integer, is a double. -/
theorem toDouble_intCast (z : Int) (hz : 0 ≤ z) (hhi : z < 2 ^ 53) :
    toDouble (z : ℚ) = some (z : ℚ) := by
  rcases eq_or_lt_of_le hz with h0 | hpos
  · subst h0
    rfl
  · have hq : (0 : ℚ) < (z : ℚ) := by exact_mod_cast hpos
    have hone : (1 : ℚ) ≤ (z : ℚ) := by exact_mod_cast (by omega : (1 : Int) ≤ z)
    have hlo : (2 : ℚ) ^ (-1022 : Int) ≤ (z : ℚ) := by
      refine le_trans ?_ hone
      apply zpow_le_one_of_nonpos₀ (by norm_num) (by norm_num)
    have hhiq : (z : ℚ) < 2 ^ 53 := by exact_mod_cast hhi
    obtain ⟨e, -, he, -, -, hr⟩ := toDouble_of_pos (z : ℚ) hq hlo hhiq
    rw [hr]
    obtain ⟨k, hk⟩ : ∃ k : Nat, e - 52 = -(k : Int) := ⟨(52 - e).toNat, by omega⟩
    have hdiv : (z : ℚ) / (2 : ℚ) ^ (e - 52) = ((z * 2 ^ k : Int) : ℚ) := by
      rw [hk, zpow_neg, zpow_natCast]
      push_cast
      field_simp
    rw [hdiv, roundHalfEven_intCast, hk, zpow_neg, zpow_natCast]
    push_cast
    field_simp

/-- A natural number below 2 ^ 53 is a double. -/
theorem toDouble_natCast (n : Nat) (hn : n < 2 ^ 53) : toDouble (n : ℚ) = some (n : ℚ) := by
  have := toDouble_intCast (n : Int) (by omega) (by exact_mod_cast hn)
  simpa using this

/-- The double nearest to a quotient of naturals below 2 ^ 53 has the ceiling of
the quotient itself. -/
theorem toDouble_div_ceil (n m : Nat) (hn : n < 2 ^ 53) (hm1 : 1 ≤ m) (hm : m < 2 ^ 53) :
    ∃ r : ℚ, toDouble ((n : ℚ) / (m : ℚ)) = some r ∧ ⌈r⌉ = ⌈(n : ℚ) / (m : ℚ)⌉ := by
  have hmq : (0 : ℚ) < (m : ℚ) := by exact_mod_cast hm1
  by_cases hdvd : m ∣ n
  · obtain ⟨k, rfl⟩ := hdvd
    have hk : k < 2 ^ 53 := lt_of_le_of_lt (Nat.le_mul_of_pos_left k hm1) hn
    have hx : ((m * k : Nat) : ℚ) / (m : ℚ) = (k : ℚ) := by
      push_cast
      field_simp
    rw [hx]
    exact ⟨_, toDouble_natCast k hk, rfl⟩
  · have hn1 : 1 ≤ n := by
      rcases Nat.eq_zero_or_pos n with h | h
      · exact absurd (h ▸ dvd_zero m) hdvd
      · exact h
    have hnq : (1 : ℚ) ≤ (n : ℚ) := by exact_mod_cast hn1
    have hq : (0 : ℚ) < (n : ℚ) / (m : ℚ) := div_pos (by linarith) hmq
    have hmlt : (m : ℚ) < 2 ^ 53 := by exact_mod_cast hm
    have hnlt : (n : ℚ) < 2 ^ 53 := by exact_mod_cast hn
    have hlo : (2 : ℚ) ^ (-1022 : Int) ≤ (n : ℚ) / (m : ℚ) := by
      have h1 : (2 : ℚ) ^ (-1022 : Int) ≤ (2 : ℚ) ^ (-53 : Int) :=
        zpow_le_zpow_right₀ (by norm_num) (by norm_num)
      have h2 : (2 : ℚ) ^ (-53 : Int) ≤ (n : ℚ) / (m : ℚ) := by
        rw [le_div_iff₀ hmq]
        have : (2 : ℚ) ^ (-53 : Int) = 1 / 2 ^ 53 := by norm_num
        rw [this]
        have : 1 / 2 ^ 53 * (m : ℚ) ≤ 1 := by
          rw [div_mul_eq_mul_div, one_mul, div_le_one (by norm_num)]
          exact hmlt.le
        linarith
      exact le_trans h1 h2
    have hhi : (n : ℚ) / (m : ℚ) < 2 ^ 53 := by
      rw [div_lt_iff₀ hmq]
      calc (n : ℚ) < 2 ^ 53 := hnlt
        _ ≤ 2 ^ 53 * (m : ℚ) := by
            have : (1 : ℚ) ≤ (m : ℚ) := by exact_mod_cast hm1
            nlinarith
    obtain ⟨r, hr, herr⟩ := toDouble_error _ hq hlo hhi
    refine ⟨r, hr, ?_⟩
    have herr2 : |r - (n : ℚ) / (m : ℚ)| < 1 / (m : ℚ) := by
      refine lt_of_le_of_lt herr ?_
      rw [div_div, div_lt_div_iff₀ (by positivity) hmq]
      nlinarith
    rw [abs_lt] at herr2
    set k : Nat := n / m with hkdef
    have hmod : 1 ≤ n % m := by
      rcases Nat.eq_zero_or_pos (n % m) with h | h
      · exact absurd (Nat.dvd_of_mod_eq_zero h) hdvd
      · exact h
    have hmodlt : n % m < m := Nat.mod_lt _ hm1
    have hdecomp : (n : ℚ) = (m : ℚ) * (k : ℚ) + ((n % m : Nat) : ℚ) := by
      have := Nat.div_add_mod n m
      exact_mod_cast this.symm
    have hmodq1 : (1 : ℚ) ≤ ((n % m : Nat) : ℚ) := by exact_mod_cast hmod
    have hmodq2 : ((n % m : Nat) : ℚ) + 1 ≤ (m : ℚ) := by exact_mod_cast hmodlt
    have hx : (n : ℚ) / (m : ℚ) = (k : ℚ) + ((n % m : Nat) : ℚ) / (m : ℚ) := by
      rw [hdecomp]
      field_simp
      ring
    have hfrac1 : 1 / (m : ℚ) ≤ ((n % m : Nat) : ℚ) / (m : ℚ) :=
      div_le_div_of_nonneg_right hmodq1 hmq.le
    have hfrac2 : ((n % m : Nat) : ℚ) / (m : ℚ) ≤ 1 - 1 / (m : ℚ) := by
      rw [div_le_iff₀ hmq]
      field_simp
      linarith
    have hceil1 : ⌈(n : ℚ) / (m : ℚ)⌉ = (k : Int) + 1 := by
      rw [Int.ceil_eq_iff]
      push_cast
      have hinv : (0 : ℚ) < 1 / (m : ℚ) := div_pos one_pos hmq
      rw [hx]
      constructor <;> linarith
    rw [hceil1, Int.ceil_eq_iff]
    push_cast
    rw [hx] at herr2
    constructor <;> linarith [herr2.1, herr2.2]

/-- The nearest double of the opposite number is the opposite double. -/
theorem toDouble_neg (q : ℚ) : toDouble (-q) = (toDouble q).map (fun r => -r) := by
  unfold toDouble
  by_cases h0 : q = 0
  · simp [h0]
  · rcases lt_or_gt_of_ne h0 with hneg | hpos
    · have h1 : ¬ (-q < 0) := by linarith
      simp only [neg_eq_zero, h0, if_false, abs_neg, h1, hneg, if_true]
      split_ifs <;> simp
    · have h1 : -q < 0 := by linarith
      have h2 : ¬ (q < 0) := by linarith
      simp only [neg_eq_zero, h0, if_false, abs_neg, h1, h2, if_true]
      split_ifs <;> simp

/-- An integer of magnitude below 2 ^ 53 is a double. -/
theorem toDouble_intCast_abs (z : Int) (hlo : -(2 ^ 53) < z) (hhi : z < 2 ^ 53) :
    toDouble (z : ℚ) = some (z : ℚ) := by
  rcases le_or_lt 0 z with h | h
  · exact toDouble_intCast z h hhi
  · have hpos := toDouble_intCast (-z) (by omega) (by omega)
    have hneg := toDouble_neg ((-z : Int) : ℚ)
    rw [hpos] at hneg
    simpa using hneg

/-- ToNumber of a number is the number. -/
theorem toNumber_num (x : ℚ) : (Val.num x).toNumber = .num x := rfl

/-- The difference of two naturals below 2 ^ 53, the first not below the second,
is computed exactly. -/
theorem minus_natCast (a b : Val) (x y : ℕ) (ha : a.toNumber = .num (x : ℚ))
    (hb : b.toNumber = .num (y : ℚ)) (hx : x < 2 ^ 53) (hy : y ≤ x) :
    Val.minus a b = .num ((x - y : ℕ) : ℚ) := by
  have hdiff : (x : ℚ) - (y : ℚ) = ((x - y : ℕ) : ℚ) := by
    push_cast [Nat.cast_sub hy]
    ring
  simp only [Val.minus, ha, hb, toDouble_natCast x hx, toDouble_natCast y (by omega), hdiff,
    toDouble_natCast (x - y) (by omega)]

/-- The product of two naturals is computed exactly when it is below 2 ^ 53. -/
theorem times_natCast (a b : Val) (x y : ℕ) (ha : a.toNumber = .num (x : ℚ))
    (hb : b.toNumber = .num (y : ℚ)) (hx : x < 2 ^ 53) (hy : y < 2 ^ 53)
    (hxy : x * y < 2 ^ 53) :
    Val.times a b = .num ((x * y : ℕ) : ℚ) := by
  have hprod : (x : ℚ) * (y : ℚ) = ((x * y : ℕ) : ℚ) := by push_cast; ring
  simp only [Val.times, ha, hb, toDouble_natCast x hx, toDouble_natCast y hy, hprod,
    toDouble_natCast (x * y) hxy]

/-- The ceiling of a computed quotient of naturals below 2 ^ 53 is the ceiling of
the quotient. -/
theorem ceil_over_natCast (a b : Val) (n m : ℕ) (ha : a.toNumber = .num (n : ℚ))
    (hb : b.toNumber = .num (m : ℚ)) (hn : n < 2 ^ 53) (hm1 : 1 ≤ m) (hm : m < 2 ^ 53) :
    Val.ceil (Val.over a b) = .num ((⌈(n : ℚ) / (m : ℚ)⌉ : Int) : ℚ) := by
  obtain ⟨r, hr, hceil⟩ := toDouble_div_ceil n m hn hm1 hm
  have hm0 : (m : ℚ) ≠ 0 := by
    have : (0 : ℚ) < (m : ℚ) := by exact_mod_cast hm1
    exact ne_of_gt this
  simp only [Val.over, ha, hb, toDouble_natCast n hn, toDouble_natCast m hm, hm0, if_false, hr,
    Val.ceil, toNumber_num, hceil]



set_option maxRecDepth 20000

/-! ### Facts about values and the reference engine -/

theorem strictEq_str_iff (v : Val) (s : String) :
    Val.strictEq v (.str s) = true ↔ v = .str s := by
  cases v <;> simp [Val.strictEq]

theorem strictEq_str_false_iff (v : Val) (s : String) :
    Val.strictEq v (.str s) = false ↔ v ≠ .str s := by
  rw [ne_eq, ← strictEq_str_iff]; simp

theorem eq_of_strictEq {a b : Val} (h : Val.strictEq a b = true) : a = b := by
  cases a <;> cases b <;> simp_all [Val.strictEq]

theorem utf16_length_ge (cs : List Char) (n : Nat) :
    n + cs.length ≤ cs.foldl (fun n c => n + (if 0x10000 ≤ c.toNat then 2 else 1)) n := by
  induction cs generalizing n with
  | nil => simp
  | cons c cs ih =>
    simp only [List.foldl_cons, List.length_cons]
    by_cases hc : 0x10000 ≤ c.toNat
    · have := ih (n + 2)
      simp only [hc, if_true]
      omega
    · have := ih (n + 1)
      simp only [hc, if_false]
      omega

theorem card_long_enough (card : String) (h : 15 ≤ card.length) :
    (!(Val.str card).truthy || Val.lt (Val.str card).length (.num 15)) = false := by
  have hlen := utf16_length_ge card.data 0
  have hne : card ≠ "" := by
    intro h0
    subst h0
    simp at h
  have h15 : 15 ≤ card.data.foldl (fun n c => n + (if 0x10000 ≤ c.toNat then 2 else 1)) 0 := by
    have : card.length = card.data.length := rfl
    omega
  simp [Val.truthy, hne, Val.lt, Val.length, Val.toNumber, h15]

theorem tableExec_paymentBooking (P : Procedures) (db : Database) (key : Val) :
    tableExec P db ⟨Sql.paymentBooking, [key]⟩ =
      (.ok ((db.bookings.filter (fun b => keyEq b.booking_id key)).flatMap
        (fun b => leftJoinPayment db b (fun p =>
          [("booking_id", b.booking_id), ("user_id", b.user_id), ("status", b.status),
           ("payment_status", paymentColumn p (fun r => r.status)),
           ("room_type", b.room_type), ("hotel_name", b.hotel_name)]))), db) := by
  rfl

theorem tableExec_paymentAmount (P : Procedures) (db : Database) (key : Val) :
    tableExec P db ⟨Sql.paymentAmount, [key]⟩ =
      (.ok ((db.payments.filter (fun p => keyEq p.booking_id key)).map
        (fun p => [("amount", p.amount)])), db) := by
  rfl

theorem tableExec_paymentFailed (P : Procedures) (db : Database) (key : Val) :
    tableExec P db ⟨Sql.paymentFailed, [key]⟩ =
      (.ok [], { db with payments := db.payments.map (fun p =>
        if keyEq p.booking_id key then { p with status := .str "FAILED", paid_at := db.clock }
        else p) }) := by
  rfl

theorem tableExec_paymentSucceeded (P : Procedures) (db : Database) (method key : Val) :
    tableExec P db ⟨Sql.paymentSucceeded, [method, key]⟩ =
      (.ok [], { db with payments := db.payments.map (fun p =>
        if keyEq p.booking_id key then
          { p with status := .str "SUCCESS", paid_at := db.clock, method := method }
        else p) }) := by
  rfl

theorem tableExec_updatedPayment (P : Procedures) (db : Database) (key : Val) :
    tableExec P db ⟨Sql.updatedPayment, [key]⟩ =
      (.ok ((db.payments.filter (fun p => keyEq p.booking_id key)).map
        (fun p => [("payment_id", p.payment_id), ("amount", p.amount), ("status", p.status),
          ("paid_at", p.paid_at)])), db) := by
  rfl

/-- After the UPDATE of a successful payment, the payments of the booking are
the earlier ones, each marked SUCCESS. -/
theorem paid_rows (payments : List PaymentRec) (key method clock : Val) :
    (payments.map (fun p =>
        if keyEq p.booking_id key then
          { p with status := .str "SUCCESS", paid_at := clock, method := method }
        else p)).filter (fun p => keyEq p.booking_id key) =
      (payments.filter (fun p => keyEq p.booking_id key)).map (fun p =>
        { p with status := .str "SUCCESS", paid_at := clock, method := method }) := by
  induction payments with
  | nil => rfl
  | cons p ps ih =>
    cases h : keyEq p.booking_id key <;> simp [h, ih]

theorem tableExec_refundPayment (P : Procedures) (db : Database) (key : Val) :
    tableExec P db ⟨Sql.refundPayment, [key]⟩ =
      (.ok ((db.payments.filter (fun p => keyEq p.payment_id key)).flatMap
        (fun p => (db.bookings.filter (fun b => Val.strictEq p.booking_id b.booking_id)).map
          (fun b => [("payment_id", p.payment_id), ("booking_id", p.booking_id),
            ("status", p.status), ("amount", p.amount), ("booking_status", b.status)]))), db) := by
  rfl

theorem tableExec_paymentRefunded (P : Procedures) (db : Database) (key : Val) :
    tableExec P db ⟨Sql.paymentRefunded, [key]⟩ =
      (.ok [], { db with payments := db.payments.map (fun p =>
        if keyEq p.payment_id key then { p with status := .str "REFUNDED" } else p) }) := by
  rfl

/-! ### PUT /bookings/:booking_id/cancel and GET /bookings/:booking_id -/

/-- Claim C1. When the ownership query of PUT /bookings/:booking_id/cancel returns
a booking and the requester is its owner or an ADMIN: if the stored status is
'CANCELLED' the response is 400 'Booking is already cancelled' and no
`CALL CancelBooking` is issued; and if `CancelBooking`, called in the state the
query left, raises an error whose message contains 'already cancelled', the
response is that same 400 (so never 200 or 500). -/
theorem cancel_already_cancelled {σ : Type} (E : Engine σ) (rt : Runtime) (user : User)
    (booking_id : Val) (db db1 : σ) (booking : Row) (rest : List Row)
    (hrow : E.exec db ⟨Sql.bookingOwner, [booking_id]⟩ = (.ok (booking :: rest), db1))
    (hauth : Val.strictEq (booking.get "user_id") user.user_id = true ∨
      user.role = .str "ADMIN") :
    (booking.get "status" = .str "CANCELLED" →
      (cancelBooking E rt user booking_id db).response =
          json 400 [("success", .bool false), ("message", .str "Booking is already cancelled")] ∧
        ∀ s ∈ (cancelBooking E rt user booking_id db).log, s.sql ≠ Sql.cancelBooking) ∧
    (∀ (e : String) (db2 : σ),
      E.exec db1 ⟨Sql.cancelBooking, [booking_id]⟩ = (.error e, db2) →
      includes e "already cancelled" = true →
      (cancelBooking E rt user booking_id db).response =
        json 400 [("success", .bool false), ("message", .str "Booking is already cancelled")]) := by
  have hguard : (Val.strictNe (booking.get "user_id") user.user_id &&
      !Val.strictEq user.role (.str "ADMIN")) = false := by
    rcases hauth with h | h
    · simp [Val.strictNe, h]
    · simp [h, Val.strictEq]
  constructor
  · intro hst
    have hc : Val.strictEq (booking.get "status") (.str "CANCELLED") = true := by
      simp [hst, Val.strictEq]
    simp only [cancelBooking, hrow, hguard, hc]
    simp
    decide
  · intro e db2 hcall hinc
    cases hc : Val.strictEq (booking.get "status") (.str "CANCELLED")
    · simp [cancelBooking, hrow, hguard, hc, hcall, cancelBookingCatch, hinc]
    · simp [cancelBooking, hrow, hguard, hc]

/-- Witness of C1 on the sample tables: the owner cancels the cancelled booking 2;
and the owner cancels booking 1 while the procedure finds it cancelled. -/
theorem cancel_already_cancelled_witness :
    ((cancelBooking (tableEngine sampleProcedures) sampleRuntime alice (.str "2")
          sampleDb).response =
        json 400 [("success", .bool false), ("message", .str "Booking is already cancelled")] ∧
      ∀ s ∈ (cancelBooking (tableEngine sampleProcedures) sampleRuntime alice (.str "2")
          sampleDb).log, s.sql ≠ Sql.cancelBooking) ∧
    (cancelBooking (tableEngine racingProcedures) sampleRuntime alice (.str "1")
          sampleDb).response =
      json 400 [("success", .bool false), ("message", .str "Booking is already cancelled")] :=
  ⟨(cancel_already_cancelled (tableEngine sampleProcedures) sampleRuntime alice (.str "2")
      sampleDb sampleDb [("user_id", .num 7), ("status", .str "CANCELLED")] []
      (by with_unfolding_all rfl) (Or.inl (by with_unfolding_all rfl))).1 rfl,
   (cancel_already_cancelled (tableEngine racingProcedures) sampleRuntime alice (.str "1")
      sampleDb sampleDb [("user_id", .num 7), ("status", .str "CONFIRMED")] []
      (by with_unfolding_all rfl) (Or.inl (by with_unfolding_all rfl))).2
      "Booking is already cancelled" sampleDb (by with_unfolding_all rfl) (by decide)⟩

/-- Claim C2. When the query of GET /bookings/:booking_id (`WHERE b.booking_id = ?`
bound to the requested id) returns `rows`: the response is 404 'Booking not
found' iff there is no row; otherwise it is 403 'Access denied' iff the first
row's user_id differs (`!==`) from the requester's and the requester's role is
not 'ADMIN'; otherwise it is 200 with success true and that row as data. -/
theorem get_booking_contract {σ : Type} (E : Engine σ) (rt : Runtime) (user : User)
    (booking_id : Val) (db db1 : σ) (rows : List Row)
    (hrows : E.exec db ⟨Sql.bookingDetail, [booking_id]⟩ = (.ok rows, db1)) :
    ((getBooking E rt user booking_id db).response =
        json 404 [("success", .bool false), ("message", .str "Booking not found")] ↔
      rows = []) ∧
    (∀ (booking : Row) (rest : List Row), rows = booking :: rest →
      ((getBooking E rt user booking_id db).response =
          json 403 [("success", .bool false), ("message", .str "Access denied")] ↔
        (Val.strictNe (booking.get "user_id") user.user_id = true ∧
          user.role ≠ .str "ADMIN")) ∧
      (¬ (Val.strictNe (booking.get "user_id") user.user_id = true ∧
          user.role ≠ .str "ADMIN") →
        (getBooking E rt user booking_id db).response =
          json 200 [("success", .bool true), ("data", .obj booking)])) := by
  constructor
  · cases rows with
    | nil => simp [getBooking, hrows]
    | cons booking rest =>
      cases hg : (Val.strictNe (booking.get "user_id") user.user_id &&
        !Val.strictEq user.role (.str "ADMIN")) <;>
      simp [getBooking, hrows, hg, json]
  · intro booking rest hcons
    subst hcons
    cases hne : Val.strictNe (booking.get "user_id") user.user_id <;>
    cases hadm : Val.strictEq user.role (.str "ADMIN") <;>
    simp [getBooking, hrows, hne, hadm, json, ← strictEq_str_false_iff, ← strictEq_str_iff]

/-- Witness of C2 on the sample tables: another user is denied booking 1, there
is no booking 99, and an administrator reads booking 1. -/
theorem get_booking_contract_witness :
    (getBooking (tableEngine sampleProcedures) sampleRuntime bob (.str "1") sampleDb).response =
        json 403 [("success", .bool false), ("message", .str "Access denied")] ∧
    (getBooking (tableEngine sampleProcedures) sampleRuntime bob (.str "99") sampleDb).response =
        json 404 [("success", .bool false), ("message", .str "Booking not found")] ∧
    (getBooking (tableEngine sampleProcedures) sampleRuntime admin (.str "1") sampleDb).response =
        json 200 [("success", .bool true), ("data", .obj [("booking_id", .num 1),
          ("user_id", .num 7), ("status", .str "CONFIRMED"), ("room_type", .str "Deluxe"),
          ("hotel", .str "Grand Hotel"), ("total_amount", .str "150.00"),
          ("payment_method", .str "CARD"), ("payment_status", .str "PENDING")])] :=
  ⟨((get_booking_contract (tableEngine sampleProcedures) sampleRuntime bob (.str "1") sampleDb
      sampleDb _ (by with_unfolding_all rfl)).2 _ [] rfl).1.mpr
        ⟨by with_unfolding_all rfl, by simp [bob]⟩,
   (get_booking_contract (tableEngine sampleProcedures) sampleRuntime bob (.str "99") sampleDb
      sampleDb [] (by with_unfolding_all rfl)).1.mpr rfl,
   ((get_booking_contract (tableEngine sampleProcedures) sampleRuntime admin (.str "1") sampleDb
      sampleDb _ (by with_unfolding_all rfl)).2 _ [] rfl).2 (fun h => h.2 rfl)⟩

/-- Claim C3. When the ownership query of PUT /bookings/:booking_id/cancel returns
a booking: a requester who is neither its owner nor an ADMIN gets 403 'Access
denied' and no `CALL CancelBooking` is issued; for the owner or an ADMIN and a
status other than 'CANCELLED' the statements issued are the ownership query and
exactly one `CALL CancelBooking(booking_id)`, and if that call does not raise
the response is 200 with success true. -/
theorem cancel_booking_contract {σ : Type} (E : Engine σ) (rt : Runtime) (user : User)
    (booking_id : Val) (db db1 : σ) (booking : Row) (rest : List Row)
    (hrow : E.exec db ⟨Sql.bookingOwner, [booking_id]⟩ = (.ok (booking :: rest), db1)) :
    ((Val.strictNe (booking.get "user_id") user.user_id = true ∧ user.role ≠ .str "ADMIN") →
      (cancelBooking E rt user booking_id db).response =
          json 403 [("success", .bool false), ("message", .str "Access denied")] ∧
        ∀ s ∈ (cancelBooking E rt user booking_id db).log, s.sql ≠ Sql.cancelBooking) ∧
    ((Val.strictEq (booking.get "user_id") user.user_id = true ∨ user.role = .str "ADMIN") →
      booking.get "status" ≠ .str "CANCELLED" →
      (cancelBooking E rt user booking_id db).log =
          [⟨Sql.bookingOwner, [booking_id]⟩, ⟨Sql.cancelBooking, [booking_id]⟩] ∧
        ∀ (result : List Row) (db2 : σ),
          E.exec db1 ⟨Sql.cancelBooking, [booking_id]⟩ = (.ok result, db2) →
          (cancelBooking E rt user booking_id db).response =
            json 200 [("success", .bool true),
              ("message", .str "Booking cancelled successfully")]) := by
  constructor
  · rintro ⟨hne, hrole⟩
    have hadm : Val.strictEq user.role (.str "ADMIN") = false :=
      (strictEq_str_false_iff _ _).mpr hrole
    simp only [cancelBooking, hrow, hne, hadm]
    simp
    decide
  · intro hauth hst
    have hguard : (Val.strictNe (booking.get "user_id") user.user_id &&
        !Val.strictEq user.role (.str "ADMIN")) = false := by
      rcases hauth with h | h
      · simp [Val.strictNe, h]
      · simp [h, Val.strictEq]
    have hc : Val.strictEq (booking.get "status") (.str "CANCELLED") = false :=
      (strictEq_str_false_iff _ _).mpr hst
    constructor
    · simp only [cancelBooking, hrow, hguard, hc]
      rcases hcall : E.exec db1 ⟨Sql.cancelBooking, [booking_id]⟩ with ⟨r, db2⟩
      cases r <;> simp
    · intro result db2 hcall
      simp [cancelBooking, hrow, hguard, hc, hcall]

/-- Witness of C3 on the sample tables: another user is denied, the owner cancels
booking 1. -/
theorem cancel_booking_contract_witness :
    ((cancelBooking (tableEngine sampleProcedures) sampleRuntime bob (.str "1") sampleDb).response =
        json 403 [("success", .bool false), ("message", .str "Access denied")] ∧
      ∀ s ∈ (cancelBooking (tableEngine sampleProcedures) sampleRuntime bob (.str "1")
        sampleDb).log, s.sql ≠ Sql.cancelBooking) ∧
    (cancelBooking (tableEngine sampleProcedures) sampleRuntime alice (.str "1") sampleDb).log =
        [⟨Sql.bookingOwner, [.str "1"]⟩, ⟨Sql.cancelBooking, [.str "1"]⟩] ∧
    (cancelBooking (tableEngine sampleProcedures) sampleRuntime alice (.str "1") sampleDb).response =
        json 200 [("success", .bool true), ("message", .str "Booking cancelled successfully")] :=
  ⟨(cancel_booking_contract (tableEngine sampleProcedures) sampleRuntime bob (.str "1") sampleDb
      sampleDb [("user_id", .num 7), ("status", .str "CONFIRMED")] []
      (by with_unfolding_all rfl)).1 ⟨by with_unfolding_all rfl, by simp [bob]⟩,
   ((cancel_booking_contract (tableEngine sampleProcedures) sampleRuntime alice (.str "1") sampleDb
      sampleDb [("user_id", .num 7), ("status", .str "CONFIRMED")] []
      (by with_unfolding_all rfl)).2 (Or.inl (by with_unfolding_all rfl))
      ((strictEq_str_false_iff _ _).mp (by with_unfolding_all rfl))).1,
   ((cancel_booking_contract (tableEngine sampleProcedures) sampleRuntime alice (.str "1") sampleDb
      sampleDb [("user_id", .num 7), ("status", .str "CONFIRMED")] []
      (by with_unfolding_all rfl)).2 (Or.inl (by with_unfolding_all rfl))
      ((strictEq_str_false_iff _ _).mp (by with_unfolding_all rfl))).2 [] _ (by with_unfolding_all rfl)⟩

/-! ### GET /users/:user_id/bookings -/

/-- The guard of GET /users/:user_id/bookings. For a requester whose role is not
'ADMIN' and every text of the `:user_id` path parameter: either the response is
403 'Access denied' and no statement is issued, or `parseInt` of the parameter
is (`===`) the requester's own user id and every statement issued is the
listing query or the count query with that parameter, as it was written, bound
to its `user_id = ?`. -/
theorem user_bookings_owner_only {σ : Type} (E : Engine σ) (rt : Runtime) (user : User)
    (user_id : String) (query : Val) (db : σ) (hrole : user.role ≠ .str "ADMIN") :
    ((userBookings E rt user (.str user_id) query db).response =
        json 403 [("success", .bool false), ("message", .str "Access denied")] ∧
      (userBookings E rt user (.str user_id) query db).log = []) ∨
    (Val.strictEq (Val.parseInt (.str user_id)) user.user_id = true ∧
      ∀ s ∈ (userBookings E rt user (.str user_id) query db).log,
        (s.sql = Sql.userBookings (query.get "status").truthy ∨
          s.sql = Sql.userBookingsCount (query.get "status").truthy) ∧
        s.params.head? = some (.str user_id)) := by
  have hadm : Val.strictEq user.role (.str "ADMIN") = false :=
    (strictEq_str_false_iff _ _).mpr hrole
  cases hne : Val.strictNe (Val.parseInt (.str user_id)) user.user_id
  · right
    have heq : Val.strictEq (Val.parseInt (.str user_id)) user.user_id = true := by
      simpa [Val.strictNe] using hne
    refine ⟨heq, ?_⟩
    simp only [userBookings, hne, hadm]
    repeat' split
    all_goals simp
  · left
    simp [userBookings, hne, hadm]

/-- A user who is not an administrator lists the bookings of her own id 7 and
gets 200. -/
theorem user_bookings_owner_only_witness :
    alice.role ≠ .str "ADMIN" ∧
    (((userBookings (answering [[("total", .num 1)]]) sampleRuntime alice (.str "7") (.obj [])
          ()).response =
        json 403 [("success", .bool false), ("message", .str "Access denied")] ∧
      (userBookings (answering [[("total", .num 1)]]) sampleRuntime alice (.str "7") (.obj [])
          ()).log = []) ∨
    (Val.strictEq (Val.parseInt (.str "7")) alice.user_id = true ∧
      ∀ s ∈ (userBookings (answering [[("total", .num 1)]]) sampleRuntime alice (.str "7")
          (.obj []) ()).log,
        (s.sql = Sql.userBookings ((Val.obj []).get "status").truthy ∨
          s.sql = Sql.userBookingsCount ((Val.obj []).get "status").truthy) ∧
        s.params.head? = some (.str "7"))) ∧
    (userBookings (answering [[("total", .num 1)]]) sampleRuntime alice (.str "7") (.obj [])
          ()).response.status = 200 :=
  ⟨by simp [alice],
   user_bookings_owner_only (answering [[("total", .num 1)]]) sampleRuntime alice "7" (.obj [])
    () (by simp [alice]),
   by with_unfolding_all rfl⟩

/-! ### Routing -/

/-- Claim C5, as the code behaves. With the route table of app.js, a GET request
to /api/v1/users/:user_id/bookings reaches the 404 handler, whatever the user
id: the router mounted at /api/v1/users holds the route
/users/:user_id/bookings, which is therefore served at
/api/v1/users/users/:user_id/bookings and /api/v1/bookings/users/:user_id/bookings. -/
theorem users_path_not_routed (authRoutes : List Route) :
    (∀ user_id : String,
      dispatch (app "v1" authRoutes) .GET ["api", "v1", "users", user_id, "bookings"] =
        some ⟨.notFound, []⟩) ∧
    segments "/api/v1/users/1/bookings" = ["api", "v1", "users", "1", "bookings"] ∧
    dispatch (app "v1" authRoutes) .GET (segments "/api/v1/users/1/bookings") =
      some ⟨.notFound, []⟩ ∧
    dispatch (app "v1" authRoutes) .GET (segments "/api/v1/users/users/1/bookings") =
      some ⟨.userBookings, [("user_id", "1")]⟩ ∧
    dispatch (app "v1" authRoutes) .GET (segments "/api/v1/bookings/users/1/bookings") =
      some ⟨.userBookings, [("user_id", "1")]⟩ := by
  refine ⟨?_, by rfl, by rfl, by rfl, by rfl⟩
  intro user_id
  have h1 : sameLiteral "health" "api" = false := by decide
  have h2 : sameLiteral "api" "api" = true := by decide
  have h3 : sameLiteral "v1" "v1" = true := by decide
  have h4 : sameLiteral "auth" "users" = false := by decide
  have h5 : sameLiteral "cities" "users" = false := by decide
  have h6 : sameLiteral "hotels" "users" = false := by decide
  have h7 : sameLiteral "roomtypes" "users" = false := by decide
  have h8 : sameLiteral "bookings" "users" = false := by decide
  have h9 : sameLiteral "payments" "users" = false := by decide
  have h10 : sameLiteral "reviews" "users" = false := by decide
  have h11 : sameLiteral "seasonal-pricing" "users" = false := by decide
  have h12 : sameLiteral "users" "users" = true := by decide
  simp only [app, dispatch, dispatchRouter, belowMount, matchPath, servesMethod, bookingRoutes,
    h1, h2, h3, h4, h5, h6, h7, h8, h9, h10, h11, h12]
  have hA : matchPath [Seg.param "booking_id"] [user_id, "bookings"] = none := by
    unfold matchPath
    split <;> simp [matchPath]
  have hB : matchPath [Seg.lit "users", Seg.param "user_id", Seg.lit "bookings"]
      [user_id, "bookings"] = none := by
    unfold matchPath
    split
    · unfold matchPath
      simp [matchPath]
    · rfl
  simp [hA, hB]

/-- Claim C6, as the code behaves. With the routes of reviews.js in their order,
a GET request to /api/v1/reviews/recent is dispatched to the handler of
GET /:review_id with review_id 'recent', and the `data` of that handler's
response is never an array. -/
theorem recent_reviews_captured (authRoutes : List Route) :
    dispatch (app "v1" authRoutes) .GET (segments "/api/v1/reviews/recent") =
      some ⟨.getReview, [("review_id", "recent")]⟩ ∧
    ∀ {σ : Type} (E : Engine σ) (rt : Runtime) (db : σ) (xs : List Val),
      (getReview E rt (.str "recent") db).response.body.get "data" ≠ .arr xs := by
  refine ⟨by rfl, ?_⟩
  intro σ E rt db xs
  simp only [getReview]
  split <;> simp [json, Val.get, List.lookup]

/-! ### POST /payments and POST /payments/:payment_id/refund -/

/-- Claim C7. For a POST /payments request that passes validation, when the
booking lookup returns `rows`: if the first row's user_id differs (`!==`) from
the requester's, whatever the requester's role, the response is 403 'Access
denied'; if there is no row it is 404 'Booking not found'; if the first row is
the requester's and its status is 'CANCELLED' it is 400; and in each case no
UPDATE of Payment is issued. -/
theorem pay_only_own_booking {σ : Type} (E : Engine σ) (rt : Runtime) (user : User)
    (body : Val) (db db1 : σ) (rows : List Row)
    (hvalid : validatePayment rt body = [])
    (hrows : E.exec db ⟨Sql.paymentBooking, [body.get "booking_id"]⟩ = (.ok rows, db1)) :
    (∀ (booking : Row) (rest : List Row), rows = booking :: rest →
      Val.strictNe (booking.get "user_id") user.user_id = true →
      (processPayment E rt user body db).response =
          json 403 [("success", .bool false), ("message", .str "Access denied")] ∧
        ∀ s ∈ (processPayment E rt user body db).log, s.updatesPayment = false) ∧
    (rows = [] →
      (processPayment E rt user body db).response =
          json 404 [("success", .bool false), ("message", .str "Booking not found")] ∧
        ∀ s ∈ (processPayment E rt user body db).log, s.updatesPayment = false) ∧
    (∀ (booking : Row) (rest : List Row), rows = booking :: rest →
      Val.strictEq (booking.get "user_id") user.user_id = true →
      booking.get "status" = .str "CANCELLED" →
      (processPayment E rt user body db).response =
          json 400 [("success", .bool false),
            ("message", .str "Cannot pay for cancelled booking")] ∧
        ∀ s ∈ (processPayment E rt user body db).log, s.updatesPayment = false) := by
  have hq : Stmt.updatesPayment ⟨Sql.paymentBooking, [body.get "booking_id"]⟩ = false := by
    rfl
  refine ⟨?_, ?_, ?_⟩
  · intro booking rest hcons hne
    subst hcons
    simp [processPayment, hvalid, hrows, hne, hq]
  · intro hnil
    subst hnil
    simp [processPayment, hvalid, hrows, hq]
  · intro booking rest hcons heq hst
    subst hcons
    have hne : Val.strictNe (booking.get "user_id") user.user_id = false := by
      simp [Val.strictNe, heq]
    have hc : Val.strictEq (booking.get "status") (.str "CANCELLED") = true :=
      (strictEq_str_iff _ _).mpr hst
    simp [processPayment, hvalid, hrows, hne, hc, hq]

/-- Witness of C7 on the sample tables: a user pays for another user's booking 1,
for the missing booking 99, and the owner for the cancelled booking 2. -/
theorem pay_only_own_booking_witness :
    ((processPayment (tableEngine sampleProcedures) sampleRuntime bob cardBody
          sampleDb).response =
        json 403 [("success", .bool false), ("message", .str "Access denied")] ∧
      ∀ s ∈ (processPayment (tableEngine sampleProcedures) sampleRuntime bob cardBody
          sampleDb).log, s.updatesPayment = false) ∧
    ((processPayment (tableEngine sampleProcedures) sampleRuntime bob (cardBodyFor (.num 99))
          sampleDb).response =
        json 404 [("success", .bool false), ("message", .str "Booking not found")] ∧
      ∀ s ∈ (processPayment (tableEngine sampleProcedures) sampleRuntime bob
          (cardBodyFor (.num 99)) sampleDb).log, s.updatesPayment = false) ∧
    ((processPayment (tableEngine sampleProcedures) sampleRuntime alice (cardBodyFor (.num 2))
          sampleDb).response =
        json 400 [("success", .bool false),
          ("message", .str "Cannot pay for cancelled booking")] ∧
      ∀ s ∈ (processPayment (tableEngine sampleProcedures) sampleRuntime alice
          (cardBodyFor (.num 2)) sampleDb).log, s.updatesPayment = false) :=
  ⟨(pay_only_own_booking (tableEngine sampleProcedures) sampleRuntime bob cardBody sampleDb
      sampleDb _ (by with_unfolding_all rfl) (by with_unfolding_all rfl)).1 _ [] rfl
      (by with_unfolding_all rfl),
   (pay_only_own_booking (tableEngine sampleProcedures) sampleRuntime bob (cardBodyFor (.num 99))
      sampleDb sampleDb [] (by with_unfolding_all rfl) (by with_unfolding_all rfl)).2.1 rfl,
   (pay_only_own_booking (tableEngine sampleProcedures) sampleRuntime alice
      (cardBodyFor (.num 2)) sampleDb sampleDb _ (by with_unfolding_all rfl)
      (by with_unfolding_all rfl)).2.2 _ [] rfl (by with_unfolding_all rfl)
      (by with_unfolding_all rfl)⟩

/-- Claim C8. POST /payments/:payment_id/refund: a requester whose role is not
'ADMIN' gets 403 'Admin access required' and no statement is issued; for an
ADMIN, when the lookup returns a payment, a status other than 'SUCCESS' gives
400 with no UPDATE issued, and the status 'SUCCESS' makes the handler issue
`UPDATE Payment SET status = 'REFUNDED' WHERE payment_id = ?` for that id and,
if it does not raise, answer 200 with refund_amount `parseFloat` of the
payment's amount and reason `reason || 'Refund requested by admin'`; on the
reference tables the payment rows of that id then hold the status 'REFUNDED'
and nothing else changes. -/
theorem refund_admin_only_from_success {σ : Type} (E : Engine σ) (rt : Runtime) (user : User)
    (payment_id body : Val) (db : σ) :
    (user.role ≠ .str "ADMIN" →
      (refund E rt user payment_id body db).response =
          json 403 [("success", .bool false), ("message", .str "Admin access required")] ∧
        (refund E rt user payment_id body db).log = []) ∧
    (user.role = .str "ADMIN" →
      ∀ (payment : Row) (rest : List Row) (db1 : σ),
        E.exec db ⟨Sql.refundPayment, [payment_id]⟩ = (.ok (payment :: rest), db1) →
        (payment.get "status" ≠ .str "SUCCESS" →
          (refund E rt user payment_id body db).response =
              json 400 [("success", .bool false),
                ("message", .str "Can only refund successful payments")] ∧
            ∀ s ∈ (refund E rt user payment_id body db).log, s.updatesPayment = false) ∧
        (payment.get "status" = .str "SUCCESS" →
          (refund E rt user payment_id body db).log =
              [⟨Sql.refundPayment, [payment_id]⟩, ⟨Sql.paymentRefunded, [payment_id]⟩] ∧
            ∀ (result : List Row) (db2 : σ),
              E.exec db1 ⟨Sql.paymentRefunded, [payment_id]⟩ = (.ok result, db2) →
              (refund E rt user payment_id body db).response =
                json 200 [("success", .bool true),
                  ("message", .str "Refund processed successfully"),
                  ("data", .obj [("payment_id", Val.parseInt payment_id),
                    ("booking_id", payment.get "booking_id"),
                    ("refund_amount", Val.parseFloat (payment.get "amount")),
                    ("reason", Val.orElse (body.get "reason")
                      (.str "Refund requested by admin"))])])) ∧
    (user.role = .str "ADMIN" →
      ∀ (P : Procedures) (tables : Database) (payment : Row) (rest : List Row),
        tableExec P tables ⟨Sql.refundPayment, [payment_id]⟩ =
          (.ok (payment :: rest), tables) →
        payment.get "status" = .str "SUCCESS" →
        (refund (tableEngine P) rt user payment_id body tables).db =
          { tables with payments := tables.payments.map (fun p =>
              if keyEq p.payment_id payment_id then { p with status := .str "REFUNDED" }
              else p) }) := by
  refine ⟨?_, ?_, ?_⟩
  · intro hrole
    have hadm : Val.strictNe user.role (.str "ADMIN") = true := by
      simp [Val.strictNe, (strictEq_str_false_iff _ _).mpr hrole]
    simp [refund, hadm]
  · intro hrole payment rest db1 hrow
    have hadm : Val.strictNe user.role (.str "ADMIN") = false := by
      simp [Val.strictNe, (strictEq_str_iff _ _).mpr hrole]
    have hq : Stmt.updatesPayment ⟨Sql.refundPayment, [payment_id]⟩ = false := by rfl
    constructor
    · intro hst
      have hs : Val.strictNe (payment.get "status") (.str "SUCCESS") = true := by
        simp [Val.strictNe, (strictEq_str_false_iff _ _).mpr hst]
      simp [refund, hadm, hrow, hs, hq]
    · intro hst
      have hs : Val.strictNe (payment.get "status") (.str "SUCCESS") = false := by
        simp [Val.strictNe, hst, Val.strictEq]
      have hr : Val.strictEq (payment.get "status") (.str "REFUNDED") = false := by
        rw [hst]; decide
      constructor
      · simp only [refund, hadm, hrow, hs, hr]
        rcases hcall : E.exec db1 ⟨Sql.paymentRefunded, [payment_id]⟩ with ⟨r, db2⟩
        cases r <;> simp
      · intro result db2 hcall
        simp [refund, hadm, hrow, hs, hr, hcall]
  · intro hrole P tables payment rest hrow hst
    have hadm : Val.strictNe user.role (.str "ADMIN") = false := by
      simp [Val.strictNe, (strictEq_str_iff _ _).mpr hrole]
    have hs : Val.strictNe (payment.get "status") (.str "SUCCESS") = false := by
      simp [Val.strictNe, hst, Val.strictEq]
    have hr : Val.strictEq (payment.get "status") (.str "REFUNDED") = false := by
      rw [hst]; decide
    simp [refund, tableEngine, hadm, hrow, hs, hr, tableExec_paymentRefunded]

/-- Witness of C8 on the sample tables: a user is refused, an administrator
cannot refund the pending payment 10 and refunds the successful payment 11. -/
theorem refund_admin_only_from_success_witness :
    ((refund (tableEngine sampleProcedures) sampleRuntime bob (.str "11") (.obj [])
          sampleDb).response =
        json 403 [("success", .bool false), ("message", .str "Admin access required")] ∧
      (refund (tableEngine sampleProcedures) sampleRuntime bob (.str "11") (.obj [])
          sampleDb).log = []) ∧
    (refund (tableEngine sampleProcedures) sampleRuntime admin (.str "10") (.obj [])
          sampleDb).response =
      json 400 [("success", .bool false),
        ("message", .str "Can only refund successful payments")] ∧
    (refund (tableEngine sampleProcedures) sampleRuntime admin (.str "11") (.obj [])
          sampleDb).response =
      json 200 [("success", .bool true), ("message", .str "Refund processed successfully"),
        ("data", .obj [("payment_id", Val.parseInt (.str "11")),
          ("booking_id", Row.get [("payment_id", .num 11), ("booking_id", .num 3),
            ("status", .str "SUCCESS"), ("amount", .str "99.50"),
            ("booking_status", .str "CONFIRMED")] "booking_id"),
          ("refund_amount", Val.parseFloat (Row.get [("payment_id", .num 11),
            ("booking_id", .num 3), ("status", .str "SUCCESS"), ("amount", .str "99.50"),
            ("booking_status", .str "CONFIRMED")] "amount")),
          ("reason", Val.orElse ((Val.obj []).get "reason")
            (.str "Refund requested by admin"))])] ∧
    (refund (tableEngine sampleProcedures) sampleRuntime admin (.str "11") (.obj [])
          sampleDb).db =
      { sampleDb with payments := sampleDb.payments.map (fun p =>
          if keyEq p.payment_id (.str "11") then { p with status := .str "REFUNDED" } else p) } :=
  ⟨(refund_admin_only_from_success (tableEngine sampleProcedures) sampleRuntime bob (.str "11")
      (.obj []) sampleDb).1 (by simp [bob]),
   (((refund_admin_only_from_success (tableEngine sampleProcedures) sampleRuntime admin
      (.str "10") (.obj []) sampleDb).2.1 rfl
      [("payment_id", .num 10), ("booking_id", .num 1), ("status", .str "PENDING"),
        ("amount", .str "150.00"), ("booking_status", .str "CONFIRMED")] [] sampleDb
      (by with_unfolding_all rfl)).1
      ((strictEq_str_false_iff _ _).mp (by with_unfolding_all rfl))).1,
   (((refund_admin_only_from_success (tableEngine sampleProcedures) sampleRuntime admin
      (.str "11") (.obj []) sampleDb).2.1 rfl
      [("payment_id", .num 11), ("booking_id", .num 3), ("status", .str "SUCCESS"),
        ("amount", .str "99.50"), ("booking_status", .str "CONFIRMED")] [] sampleDb
      (by with_unfolding_all rfl)).2 (by with_unfolding_all rfl)).2 [] _
      (by with_unfolding_all rfl),
   (refund_admin_only_from_success (tableEngine sampleProcedures) sampleRuntime admin
      (.str "11") (.obj []) sampleDb).2.2 rfl sampleProcedures sampleDb
      [("payment_id", .num 11), ("booking_id", .num 3), ("status", .str "SUCCESS"),
        ("amount", .str "99.50"), ("booking_status", .str "CONFIRMED")] []
      (by with_unfolding_all rfl) (by with_unfolding_all rfl)⟩

/-- The outcome of a card payment for every draw. On the reference tables, for a
request that passes validation with payment_method 'CARD' and a card number of
at least 15 characters, when the booking of the requested id exists, is the
requester's, is not cancelled, has a Payment row and is not paid: if the draw
of `Math.random()` exceeds 0.05 the response is 200 with success true and
data.status 'SUCCESS'; if the draw is at most 0.05 the response is 400 'Payment
processing failed. Please try again.'. -/
theorem card_payment_outcome (P : Procedures) (rt : Runtime) (user : User) (body : Val)
    (db : Database) (card : String) (b : BookingRec) (bs : List BookingRec)
    (p : PaymentRec) (ps : List PaymentRec)
    (hvalid : validatePayment rt body = [])
    (hmethod : body.get "payment_method" = .str "CARD")
    (hcard : body.get "card_number" = .str card) (hlen : 15 ≤ card.length)
    (hb : db.bookings.filter (fun b => keyEq b.booking_id (body.get "booking_id")) = b :: bs)
    (hown : Val.strictEq b.user_id user.user_id = true)
    (hnc : b.status ≠ .str "CANCELLED")
    (hp : paymentsOf db b = p :: ps)
    (hunpaid : p.status ≠ .str "SUCCESS") :
    (rt.random > double_0_05 →
      (processPayment (tableEngine P) rt user body db).response.status = 200 ∧
      (processPayment (tableEngine P) rt user body db).response.body.get "success" =
        .bool true ∧
      ((processPayment (tableEngine P) rt user body db).response.body.get "data").get "status" =
        .str "SUCCESS") ∧
    (rt.random ≤ double_0_05 →
      (processPayment (tableEngine P) rt user body db).response =
        json 400 [("success", .bool false),
          ("message", .str "Payment processing failed. Please try again.")]) := by
  have hne : Val.strictNe b.user_id user.user_id = false := by simp [Val.strictNe, hown]
  have hc : Val.strictEq b.status (.str "CANCELLED") = false :=
    (strictEq_str_false_iff _ _).mpr hnc
  have hs : Val.strictEq p.status (.str "SUCCESS") = false :=
    (strictEq_str_false_iff _ _).mpr hunpaid
  have hbkey : keyEq b.booking_id (body.get "booking_id") = true := by
    have : b ∈ db.bookings.filter (fun b => keyEq b.booking_id (body.get "booking_id")) := by
      rw [hb]; exact List.mem_cons_self _ _
    simpa using (List.mem_filter.mp this).2
  have hpmem : p ∈ db.payments ∧ Val.strictEq p.booking_id b.booking_id = true := by
    have : p ∈ paymentsOf db b := by rw [hp]; exact List.mem_cons_self _ _
    simpa [paymentsOf] using this
  have hpkey : keyEq p.booking_id (body.get "booking_id") = true := by
    rw [eq_of_strictEq hpmem.2]; exact hbkey
  obtain ⟨p0, ps0, hfil⟩ : ∃ p0 ps0,
      db.payments.filter (fun p => keyEq p.booking_id (body.get "booking_id")) = p0 :: ps0 := by
    cases hf : db.payments.filter (fun p => keyEq p.booking_id (body.get "booking_id")) with
    | nil =>
      have : p ∈ db.payments.filter (fun p => keyEq p.booking_id (body.get "booking_id")) :=
        List.mem_filter.mpr ⟨hpmem.1, by simpa using hpkey⟩
      rw [hf] at this
      simp at this
    | cons p0 ps0 => exact ⟨p0, ps0, rfl⟩
  have hsim : simulatePaymentProcessing rt (.str "CARD") (.str card) =
      decide (rt.random > double_0_05) := by
    have hl := card_long_enough card hlen
    simp only [simulatePaymentProcessing, hl]
    simp [Val.strictEq]
  constructor
  · intro hdraw
    have hsim1 : simulatePaymentProcessing rt (.str "CARD") (.str card) = true := by
      rw [hsim]; simpa using hdraw
    have hresp : (processPayment (tableEngine P) rt user body db).response =
        json 200 [("success", .bool true), ("message", .str "Payment processed successfully"),
          ("data", .obj [("payment_id", p0.payment_id),
            ("booking_id", Val.parseInt (body.get "booking_id")),
            ("amount", Val.parseFloat p0.amount),
            ("status", .str "SUCCESS"),
            ("transaction_ref",
              .str ("txn_" ++ rt.toText rt.now ++ "_" ++ rt.toText (body.get "booking_id"))),
            ("paid_at", db.clock),
            ("hotel_name", b.hotel_name),
            ("room_type", b.room_type)])] := by
      simp [processPayment, hvalid, tableEngine, tableExec_paymentBooking,
        tableExec_paymentAmount, tableExec_paymentSucceeded, tableExec_updatedPayment, hb,
        leftJoinPayment, hp, paymentColumn, Row.get, List.lookup, hne, hc, hs, hfil, hmethod,
        hcard, hsim1, paid_rows]
    rw [hresp]
    simp [json, Val.get, List.lookup]
  · intro hdraw
    have hsim0 : simulatePaymentProcessing rt (.str "CARD") (.str card) = false := by
      rw [hsim]; simpa using hdraw
    simp [processPayment, hvalid, tableEngine, tableExec_paymentBooking, tableExec_paymentAmount,
      tableExec_paymentFailed, hb, leftJoinPayment, hp, paymentColumn,
      Row.get, List.lookup, hne, hc, hs, hfil, hmethod, hcard, hsim0]

/-- The owner pays booking 1 of the sample tables by card, once with a draw of
one half and once with a draw of one hundredth. -/
theorem card_payment_outcome_witness :
    ((processPayment (tableEngine sampleProcedures) sampleRuntime alice cardBody
          sampleDb).response.status = 200 ∧
      (processPayment (tableEngine sampleProcedures) sampleRuntime alice cardBody
          sampleDb).response.body.get "success" = .bool true ∧
      ((processPayment (tableEngine sampleProcedures) sampleRuntime alice cardBody
          sampleDb).response.body.get "data").get "status" = .str "SUCCESS") ∧
    (processPayment (tableEngine sampleProcedures) unluckyRuntime alice cardBody
          sampleDb).response =
      json 400 [("success", .bool false),
        ("message", .str "Payment processing failed. Please try again.")] :=
  ⟨(card_payment_outcome sampleProcedures sampleRuntime alice cardBody sampleDb
      "4242424242424242"
      ⟨.num 1, .num 7, .str "CONFIRMED", .str "Deluxe", .str "Grand Hotel", []⟩ []
      ⟨.num 10, .num 1, .str "150.00", .str "CARD", .str "PENDING", .null⟩ []
      (by with_unfolding_all rfl) (by with_unfolding_all rfl) (by with_unfolding_all rfl)
      (by decide) (by with_unfolding_all rfl) (by with_unfolding_all rfl)
      (by simp) (by with_unfolding_all rfl) (by simp)).1
      (by norm_num [sampleRuntime, double_0_05]),
   (card_payment_outcome sampleProcedures unluckyRuntime alice cardBody sampleDb
      "4242424242424242"
      ⟨.num 1, .num 7, .str "CONFIRMED", .str "Deluxe", .str "Grand Hotel", []⟩ []
      ⟨.num 10, .num 1, .str "150.00", .str "CARD", .str "PENDING", .null⟩ []
      (by with_unfolding_all rfl) (by with_unfolding_all rfl) (by with_unfolding_all rfl)
      (by decide) (by with_unfolding_all rfl) (by with_unfolding_all rfl)
      (by simp) (by with_unfolding_all rfl) (by simp)).2
      (by norm_num [unluckyRuntime, sampleRuntime, double_0_05])⟩

/-- Claim C9, as the code behaves. Booking 1 of the sample tables exists, is the
requester's, is not cancelled, has a Payment row and is not paid, and the
request is that of the test 'Should process payment for booking': 'CARD' with
the card number 4242424242424242, expiry 12/25 and cvv 123. With a draw of one
hundredth the response is 400 'Payment processing failed. Please try again.',
where the test expects 200; the same request on the same tables with a draw of
one half gets 200. -/
theorem card_payment_declined_by_draw :
    validatePayment unluckyRuntime cardBody = [] ∧
    validatePayment sampleRuntime cardBody = [] ∧
    unluckyRuntime.isCreditCard (cardBody.get "card_number") = true ∧
    Val.strictEq (cardBody.get "payment_method") (.str "CARD") = true ∧
    (tableExec sampleProcedures sampleDb ⟨Sql.paymentBooking, [cardBody.get "booking_id"]⟩).1 =
      .ok [[("booking_id", .num 1), ("user_id", alice.user_id), ("status", .str "CONFIRMED"),
        ("payment_status", .str "PENDING"), ("room_type", .str "Deluxe"),
        ("hotel_name", .str "Grand Hotel")]] ∧
    (processPayment (tableEngine sampleProcedures) unluckyRuntime alice cardBody
          sampleDb).response =
      json 400 [("success", .bool false),
        ("message", .str "Payment processing failed. Please try again.")] ∧
    (processPayment (tableEngine sampleProcedures) sampleRuntime alice cardBody
          sampleDb).response.status = 200 := by
  refine ⟨?_, ?_, ?_, ?_, ?_, ?_, ?_⟩ <;> with_unfolding_all rfl

/-! ### POST /bookings -/

/-- Claim C10. In POST /bookings, whenever an error with message `e` reaches the
`catch` block (which happens only after validation): the response is 409
'Selected dates are not available' iff `e` contains 'Insufficient inventory',
and otherwise it is 500 'Failed to create booking'. -/
theorem create_booking_error_mapping {σ : Type} (E : Engine σ) (rt : Runtime) (user : User)
    (body : Val) (db : σ) (e : String)
    (hraised : (createBooking E rt user body db).caught = some e) :
    ((createBooking E rt user body db).response =
        json 409 [("success", .bool false),
          ("message", .str "Selected dates are not available")] ↔
      includes e "Insufficient inventory" = true) ∧
    (includes e "Insufficient inventory" = false →
      (createBooking E rt user body db).response =
        json 500 [("success", .bool false), ("message", .str "Failed to create booking"),
          ("error", errorDetail rt e)]) := by
  have hresp : (createBooking E rt user body db).response = createBookingCatch rt e := by
    revert hraised
    simp only [createBooking]
    repeat' split
    all_goals simp
    all_goals (intro h; subst h; rfl)
  rw [hresp]
  cases hinc : includes e "Insufficient inventory" <;> simp [createBookingCatch, hinc, json]

/-- Witness of C10: `MakeBooking` raises for lack of inventory, and the database
cannot be reached. -/
theorem create_booking_error_mapping_witness :
    (createBooking soldOut sampleRuntime alice bookingBody ()).response =
      json 409 [("success", .bool false), ("message", .str "Selected dates are not available")] ∧
    (createBooking offline sampleRuntime alice bookingBody ()).response =
      json 500 [("success", .bool false), ("message", .str "Failed to create booking"),
        ("error", errorDetail sampleRuntime "connect ECONNREFUSED")] :=
  ⟨(create_booking_error_mapping soldOut sampleRuntime alice bookingBody ()
      "Insufficient inventory for selected dates" (by with_unfolding_all rfl)).1.mpr (by decide),
   (create_booking_error_mapping offline sampleRuntime alice bookingBody ()
      "connect ECONNREFUSED" (by with_unfolding_all rfl)).2 (by decide)⟩

/-! ### The response envelope of every handler -/

theorem get_obj (fields : List (String × Val)) (key : String) :
    (Val.obj fields).get key = (fields.lookup key).getD .undefined := rfl

theorem createBooking_enveloped {σ : Type} (E : Engine σ) (rt : Runtime) (user : User) (body : Val) (db : σ) :
    Enveloped rt (createBooking E rt user body db) := by
  simp only [createBooking, createBookingCatch, validationFailed]
  repeat' split
  all_goals simp [Enveloped, json, get_obj, List.lookup]

theorem getBooking_enveloped {σ : Type} (E : Engine σ) (rt : Runtime) (user : User) (booking_id : Val) (db : σ) :
    Enveloped rt (getBooking E rt user booking_id db) := by
  simp only [getBooking]
  repeat' split
  all_goals simp [Enveloped, json, get_obj, List.lookup]

theorem cancelBooking_enveloped {σ : Type} (E : Engine σ) (rt : Runtime) (user : User) (booking_id : Val) (db : σ) :
    Enveloped rt (cancelBooking E rt user booking_id db) := by
  simp only [cancelBooking, cancelBookingCatch]
  repeat' split
  all_goals simp [Enveloped, json, get_obj, List.lookup]

theorem userBookings_enveloped {σ : Type} (E : Engine σ) (rt : Runtime) (user : User) (user_id query : Val) (db : σ) :
    Enveloped rt (userBookings E rt user user_id query db) := by
  simp only [userBookings, userBookingsCatch]
  repeat' split
  all_goals simp [Enveloped, json, get_obj, List.lookup]

theorem processPayment_enveloped {σ : Type} (E : Engine σ) (rt : Runtime) (user : User) (body : Val) (db : σ) :
    Enveloped rt (processPayment E rt user body db) := by
  simp only [processPayment, processPaymentCatch, validationFailed]
  repeat' split
  all_goals simp [Enveloped, json, get_obj, List.lookup]

theorem getPayment_enveloped {σ : Type} (E : Engine σ) (rt : Runtime) (user : User) (payment_id : Val) (db : σ) :
    Enveloped rt (getPayment E rt user payment_id db) := by
  simp only [getPayment]
  repeat' split
  all_goals simp [Enveloped, json, get_obj, List.lookup]

theorem refund_enveloped {σ : Type} (E : Engine σ) (rt : Runtime) (user : User) (payment_id body : Val) (db : σ) :
    Enveloped rt (refund E rt user payment_id body db) := by
  simp only [refund, refundCatch]
  repeat' split
  all_goals simp [Enveloped, json, get_obj, List.lookup]

theorem addReview_enveloped {σ : Type} (E : Engine σ) (pf : Platform) (user : User) (body : Val) (db : σ) :
    Enveloped pf.toRuntime (addReview E pf user body db) := by
  simp only [addReview, addReviewCatch, validationFailed]
  repeat' split
  all_goals simp [Enveloped, json, get_obj, List.lookup]

theorem getReview_enveloped {σ : Type} (E : Engine σ) (rt : Runtime) (review_id : Val) (db : σ) :
    Enveloped rt (getReview E rt review_id db) := by
  simp only [getReview]
  repeat' split
  all_goals simp [Enveloped, json, get_obj, List.lookup]

theorem markHelpful_enveloped {σ : Type} (E : Engine σ) (rt : Runtime) (user : User) (review_id : Val) (db : σ) :
    Enveloped rt (markHelpful E rt user review_id db) := by
  simp only [markHelpful, markHelpfulCatch]
  repeat' split
  all_goals simp [Enveloped, json, get_obj, List.lookup]

theorem updateReview_enveloped {σ : Type} (E : Engine σ) (pf : Platform) (user : User) (review_id body : Val) (db : σ) :
    Enveloped pf.toRuntime (updateReview E pf user review_id body db) := by
  simp only [updateReview, updateReviewCatch, validationFailed]
  repeat' split
  all_goals simp [Enveloped, json, get_obj, List.lookup]

theorem deleteReview_enveloped {σ : Type} (E : Engine σ) (rt : Runtime) (user : User) (review_id : Val) (db : σ) :
    Enveloped rt (deleteReview E rt user review_id db) := by
  simp only [deleteReview, deleteReviewCatch]
  repeat' split
  all_goals simp [Enveloped, json, get_obj, List.lookup]

theorem recentReviews_enveloped {σ : Type} (E : Engine σ) (rt : Runtime) (query : Val) (db : σ) :
    Enveloped rt (recentReviews E rt query db) := by
  simp only [recentReviews]
  repeat' split
  all_goals simp [Enveloped, json, get_obj, List.lookup]

theorem listCities_enveloped {σ : Type} (E : Engine σ) (rt : Runtime) (db : σ) :
    Enveloped rt (listCities E rt db) := by
  simp only [listCities]
  repeat' split
  all_goals simp [Enveloped, json, get_obj, List.lookup]

theorem cityHotels_enveloped {σ : Type} (E : Engine σ) (rt : Runtime) (city_id query : Val) (db : σ) :
    Enveloped rt (cityHotels E rt city_id query db) := by
  simp only [cityHotels, cityHotelsCatch]
  repeat' split
  all_goals simp [Enveloped, json, get_obj, List.lookup]

theorem getHotel_enveloped {σ : Type} (E : Engine σ) (rt : Runtime) (hotel_id : Val) (db : σ) :
    Enveloped rt (getHotel E rt hotel_id db) := by
  simp only [getHotel, getHotelCatch]
  repeat' split
  all_goals simp [Enveloped, json, get_obj, List.lookup]

theorem hotelReviews_enveloped {σ : Type} (E : Engine σ) (rt : Runtime) (hotel_id query : Val) (db : σ) :
    Enveloped rt (hotelReviews E rt hotel_id query db) := by
  simp only [hotelReviews, hotelReviewsCatch]
  repeat' split
  all_goals simp [Enveloped, json, get_obj, List.lookup]

theorem availability_enveloped {σ : Type} (E : Engine σ) (rt : Runtime) (room_type_id query : Val) (db : σ) :
    Enveloped rt (availability E rt room_type_id query db) := by
  simp only [availability, availabilityCatch, validationFailed]
  repeat' split
  all_goals simp [Enveloped, json, get_obj, List.lookup]

theorem calendar_enveloped {σ : Type} (E : Engine σ) (rt : Runtime) (room_type_id query : Val) (db : σ) :
    Enveloped rt (calendar E rt room_type_id query db) := by
  simp only [calendar]
  repeat' split
  all_goals simp [Enveloped, json, get_obj, List.lookup]

theorem listPricing_enveloped {σ : Type} (E : Engine σ) (rt : Runtime) (query : Val) (db : σ) :
    Enveloped rt (listPricing E rt query db) := by
  simp only [listPricing]
  repeat' split
  all_goals simp [Enveloped, json, get_obj, List.lookup]

theorem createPricing_enveloped {σ : Type} (E : Engine σ) (pf : Platform) (body : Val) (db : σ) :
    Enveloped pf.toRuntime (createPricing E pf body db) := by
  simp only [createPricing, createPricingCatch, validationFailed]
  repeat' split
  all_goals simp [Enveloped, json, get_obj, List.lookup]

theorem getPricing_enveloped {σ : Type} (E : Engine σ) (rt : Runtime) (pricing_id : Val) (db : σ) :
    Enveloped rt (getPricing E rt pricing_id db) := by
  simp only [getPricing]
  repeat' split
  all_goals simp [Enveloped, json, get_obj, List.lookup]

theorem updatePricing_enveloped {σ : Type} (E : Engine σ) (pf : Platform) (pricing_id body : Val) (db : σ) :
    Enveloped pf.toRuntime (updatePricing E pf pricing_id body db) := by
  simp only [updatePricing, updatePricingCatch, validationFailed]
  repeat' split
  all_goals simp [Enveloped, json, get_obj, List.lookup]

theorem deletePricing_enveloped {σ : Type} (E : Engine σ) (rt : Runtime) (pricing_id : Val) (db : σ) :
    Enveloped rt (deletePricing E rt pricing_id db) := by
  simp only [deletePricing]
  repeat' split
  all_goals simp [Enveloped, json, get_obj, List.lookup]

theorem currentPrice_enveloped {σ : Type} (E : Engine σ) (rt : Runtime) (room_type_id query : Val) (db : σ) :
    Enveloped rt (currentPrice E rt room_type_id query db) := by
  simp only [currentPrice]
  repeat' split
  all_goals simp [Enveloped, json, get_obj, List.lookup]

theorem handle_enveloped {σ : Type} (E : Engine σ) (pf : Platform) (apiVersion : String)
    (call : Call) (db : σ) : Enveloped pf.toRuntime (handle E pf apiVersion call db) := by
  cases call
  case health => simp [handle, Enveloped, health, json, get_obj, List.lookup]
  case documentation => simp [handle, Enveloped, documentation, json, get_obj, List.lookup]
  case notFound => simp [handle, Enveloped, notFoundHandler, json, get_obj, List.lookup]
  case createBooking => exact createBooking_enveloped ..
  case getBooking => exact getBooking_enveloped ..
  case cancelBooking => exact cancelBooking_enveloped ..
  case userBookings => exact userBookings_enveloped ..
  case processPayment => exact processPayment_enveloped ..
  case getPayment => exact getPayment_enveloped ..
  case refund => exact refund_enveloped ..
  case addReview => exact addReview_enveloped ..
  case getReview => exact getReview_enveloped ..
  case markHelpful => exact markHelpful_enveloped ..
  case updateReview => exact updateReview_enveloped ..
  case deleteReview => exact deleteReview_enveloped ..
  case recentReviews => exact recentReviews_enveloped ..
  case listCities => exact listCities_enveloped ..
  case cityHotels => exact cityHotels_enveloped ..
  case getHotel => exact getHotel_enveloped ..
  case hotelReviews => exact hotelReviews_enveloped ..
  case availability => exact availability_enveloped ..
  case calendar => exact calendar_enveloped ..
  case listPricing => exact listPricing_enveloped ..
  case createPricing => exact createPricing_enveloped ..
  case getPricing => exact getPricing_enveloped ..
  case updatePricing => exact updatePricing_enveloped ..
  case deletePricing => exact deletePricing_enveloped ..
  case currentPrice => exact currentPrice_enveloped ..

/-! ### POST /reviews: translation of the errors of AddReview -/

/-- Claim C11. In POST /reviews, whenever an error with message `e` reaches the
`catch` block (raised by `CALL AddReview` or by the read-back): if `e` contains
'already exists' the response is 409, also when it contains 'only review your
own' as well; else if it contains 'only review your own' the response is 403;
else if it contains 'cancelled booking' the response is 400; else it is 500
'Failed to add review'. -/
theorem add_review_error_translation {σ : Type} (E : Engine σ) (pf : Platform) (user : User)
    (body : Val) (db : σ) (e : String)
    (hraised : (addReview E pf user body db).caught = some e) :
    (includes e "already exists" = true →
      (addReview E pf user body db).response =
        json 409 [("success", .bool false),
          ("message", .str "You have already reviewed this booking")]) ∧
    (includes e "already exists" = false → includes e "only review your own" = true →
      (addReview E pf user body db).response =
        json 403 [("success", .bool false),
          ("message", .str "You can only review your own bookings")]) ∧
    (includes e "already exists" = false → includes e "only review your own" = false →
      includes e "cancelled booking" = true →
      (addReview E pf user body db).response =
        json 400 [("success", .bool false),
          ("message", .str "Cannot review a cancelled booking")]) ∧
    (includes e "already exists" = false → includes e "only review your own" = false →
      includes e "cancelled booking" = false →
      (addReview E pf user body db).response =
        json 500 [("success", .bool false), ("message", .str "Failed to add review"),
          ("error", errorDetail pf.toRuntime e)]) := by
  have hresp : (addReview E pf user body db).response = addReviewCatch pf.toRuntime e := by
    revert hraised
    simp only [addReview]
    repeat' split
    all_goals simp
    all_goals (intro h; subst h; rfl)
  rw [hresp]
  refine ⟨?_, ?_, ?_, ?_⟩
  · intro h1
    simp [addReviewCatch, h1]
  · intro h1 h2
    simp [addReviewCatch, h1, h2]
  · intro h1 h2 h3
    simp [addReviewCatch, h1, h2, h3]
  · intro h1 h2 h3
    simp [addReviewCatch, h1, h2, h3]

/-- Witness of C11: `AddReview` raises a message that contains both 'already
exists' and 'only review your own', and the response is 409. -/
theorem add_review_error_translation_witness :
    (addReview (rejectingReview "Review already exists; you can only review your own bookings")
        samplePlatform alice reviewBody ()).response =
      json 409 [("success", .bool false),
        ("message", .str "You have already reviewed this booking")] :=
  (add_review_error_translation
    (rejectingReview "Review already exists; you can only review your own bookings")
    samplePlatform alice reviewBody ()
    "Review already exists; you can only review your own bookings"
    (by with_unfolding_all rfl)).1 (by decide)

/-! ### The 500 responses of the route handlers -/

/-- Claim C12. In every route handler (of bookings.js, cities.js, hotels.js,
payments.js, reviews.js, roomtypes.js, seasonal-pricing.js and of app.js),
when an error with message `e` reaches the `catch` block and the response is
500, its body has success false and an `error` field that is `e` when NODE_ENV
is 'development' and the constant 'Internal server error' otherwise. -/
theorem caught_error_detail {σ : Type} (E : Engine σ) (pf : Platform) (apiVersion : String)
    (call : Call) (db : σ) (e : String)
    (hraised : (handle E pf apiVersion call db).caught = some e)
    (hstatus : (handle E pf apiVersion call db).response.status = 500) :
    (handle E pf apiVersion call db).response.body.get "success" = .bool false ∧
    (pf.nodeEnv = .str "development" →
      (handle E pf apiVersion call db).response.body.get "error" = .str e) ∧
    (pf.nodeEnv ≠ .str "development" →
      (handle E pf apiVersion call db).response.body.get "error" =
        .str "Internal server error") := by
  obtain ⟨hsuccess, herror⟩ := (handle_enveloped E pf apiVersion call db).2 e hraised hstatus
  refine ⟨hsuccess, ?_, ?_⟩
  · intro henv
    rw [herror]
    simp [errorDetail, henv, Val.strictEq]
  · intro henv
    rw [herror]
    simp [errorDetail, (strictEq_str_false_iff _ _).mpr henv]

/-- Witness of C12: the database cannot be reached while the cities are listed,
in production mode and in development mode. -/
theorem caught_error_detail_witness :
    ((handle offline samplePlatform "v1" .listCities ()).response.body.get "success" =
        .bool false ∧
      (handle offline samplePlatform "v1" .listCities ()).response.body.get "error" =
        .str "Internal server error") ∧
    (handle offline developmentPlatform "v1" .listCities ()).response.body.get "error" =
      .str "connect ECONNREFUSED" :=
  ⟨⟨(caught_error_detail offline samplePlatform "v1" .listCities () "connect ECONNREFUSED"
      (by with_unfolding_all rfl) (by with_unfolding_all rfl)).1,
    (caught_error_detail offline samplePlatform "v1" .listCities () "connect ECONNREFUSED"
      (by with_unfolding_all rfl) (by with_unfolding_all rfl)).2.2
      (by simp [samplePlatform, sampleRuntime])⟩,
   (caught_error_detail offline developmentPlatform "v1" .listCities () "connect ECONNREFUSED"
      (by with_unfolding_all rfl) (by with_unfolding_all rfl)).2.1 (by rfl)⟩

/-! ### POST /bookings: validation -/

/-- Claim C14. When the body of a POST /bookings request fails at least one of
the declared checks (room_type_id an integer of at least 1, check_in a date,
check_out a date), the response is 400 with success false, message 'Validation
failed' and the errors of the failed checks, of which there is at least one, and
no statement is issued. -/
theorem invalid_booking_rejected {σ : Type} (E : Engine σ) (rt : Runtime) (user : User)
    (body : Val) (db : σ)
    (hfails : ¬ (rt.isInt 1 (body.get "room_type_id") = true ∧
      rt.isDate (body.get "check_in") = true ∧ rt.isDate (body.get "check_out") = true)) :
    (createBooking E rt user body db).response =
      json 400 [("success", .bool false), ("message", .str "Validation failed"),
        ("errors", .arr (validateBooking rt body))] ∧
    validateBooking rt body ≠ [] ∧
    (createBooking E rt user body db).log = [] := by
  have hne : validateBooking rt body ≠ [] := by
    intro hnil
    apply hfails
    simp only [validateBooking, checkField, List.append_eq_nil] at hnil
    obtain ⟨⟨h1, h2⟩, h3⟩ := hnil
    refine ⟨?_, ?_, ?_⟩
    · by_contra hc
      simp [hc] at h1
    · by_contra hc
      simp [hc] at h2
    · by_contra hc
      simp [hc] at h3
  have hempty : (validateBooking rt body).isEmpty = false := by
    cases hv : validateBooking rt body with
    | nil => exact absurd hv hne
    | cons _ _ => rfl
  refine ⟨?_, hne, ?_⟩
  · simp [createBooking, hempty, validationFailed]
  · simp [createBooking, hempty]

/-- Witness of C14: the body of the test 'Should return 400 for invalid booking
data'. -/
theorem invalid_booking_rejected_witness :
    (createBooking soldOut sampleRuntime alice invalidBookingBody ()).response =
      json 400 [("success", .bool false), ("message", .str "Validation failed"),
        ("errors", .arr (validateBooking sampleRuntime invalidBookingBody))] ∧
    validateBooking sampleRuntime invalidBookingBody ≠ [] ∧
    (createBooking soldOut sampleRuntime alice invalidBookingBody ()).log = [] :=
  invalid_booking_rejected soldOut sampleRuntime alice invalidBookingBody ()
    (fun h => absurd h.1 (by with_unfolding_all decide))

/-! ### The envelope -/

/-- Claim C15. The JSON body of the response of every route handler, the health
check, the documentation endpoint and the 404 handler included, carries a
boolean `success`, and it is true exactly when the status is below 400. -/
theorem success_matches_status {σ : Type} (E : Engine σ) (pf : Platform)
    (apiVersion : String) (call : Call) (db : σ) :
    ∃ success : Bool,
      (handle E pf apiVersion call db).response.body.get "success" = .bool success ∧
      (success = true ↔ (handle E pf apiVersion call db).response.status < 400) := by
  refine ⟨decide ((handle E pf apiVersion call db).response.status < 400),
    (handle_enveloped E pf apiVersion call db).1, ?_⟩
  simp

/-! ### The global error handler -/

/-- Claim C13, amended. For an error that reaches the global error handler and
is neither a JSON parse failure nor a CSRF token error, while NODE_ENV is not
'development': the status is `error.status`, or 500 when that is falsy, and the
body is success false with the message `error.message`, or 'Internal server
error' when that is falsy, and nothing else (no stack). -/
theorem global_error_response (rt : Runtime) (error : Val)
    (hparse : error.get "type" ≠ .str "entity.parse.failed")
    (hcsrf : error.get "code" ≠ .str "EBADCSRFTOKEN")
    (henv : rt.nodeEnv ≠ .str "development") :
    (globalErrorHandler rt error).status = Val.orElse (error.get "status") (.num 500) ∧
    (globalErrorHandler rt error).body =
      .obj [("success", .bool false),
        ("message", Val.orElse (error.get "message") (.str "Internal server error"))] := by
  simp [globalErrorHandler, (strictEq_str_false_iff _ _).mpr hparse,
    (strictEq_str_false_iff _ _).mpr hcsrf, (strictEq_str_false_iff _ _).mpr henv]

/-- Witness of C13 amended: an error with a message and no status, and an error
with the status 503, in production mode. -/
theorem global_error_response_witness :
    ((globalErrorHandler sampleRuntime (.obj [("message", .str "pool is closed")])).status =
        Val.orElse ((Val.obj [("message", .str "pool is closed")]).get "status") (.num 500) ∧
      (globalErrorHandler sampleRuntime (.obj [("message", .str "pool is closed")])).body =
        .obj [("success", .bool false),
          ("message", Val.orElse ((Val.obj [("message", .str "pool is closed")]).get "message")
            (.str "Internal server error"))]) ∧
    (globalErrorHandler sampleRuntime (.obj [("status", .num 503)])).status =
      Val.orElse ((Val.obj [("status", .num 503)]).get "status") (.num 500) :=
  ⟨global_error_response sampleRuntime (.obj [("message", .str "pool is closed")])
      (by simp [get_obj, List.lookup]) (by simp [get_obj, List.lookup])
      (by simp [sampleRuntime]),
   (global_error_response sampleRuntime (.obj [("status", .num 503)])
      (by simp [get_obj, List.lookup]) (by simp [get_obj, List.lookup])
      (by simp [sampleRuntime])).1⟩

/-- Counterexample to C13 as stated. In production mode, an error that is neither
a JSON parse failure nor a CSRF token error and whose message is 'pool is
closed' gets a body whose message is 'pool is closed'; and such an error with
the status 503 gets the status 503, not 500. -/
theorem global_error_exposes_message :
    sampleRuntime.nodeEnv = .str "production" ∧
    (globalErrorHandler sampleRuntime (.obj [("message", .str "pool is closed")])).status =
      .num 500 ∧
    (globalErrorHandler sampleRuntime (.obj [("message", .str "pool is closed")])).body.get
      "message" = .str "pool is closed" ∧
    (globalErrorHandler sampleRuntime
      (.obj [("status", .num 503), ("message", .str "pool is closed")])).status = .num 503 := by
  refine ⟨?_, ?_, ?_, ?_⟩ <;> with_unfolding_all rfl

/-! ### Authentication before the handlers -/

/-- Claim C16. Every route of bookings.js and payments.js has `authenticateToken`
first in its middleware chain, before its validation chains and its handler;
no route of cities.js, hotels.js or roomtypes.js has it; and POST /bookings,
served through its chain, runs its handler body exactly when `authenticateToken`
passes the request on: when it answers itself, that answer is the response and
no statement is issued. -/
theorem authentication_before_handlers :
    (∀ r ∈ bookingRoutes ++ paymentRoutes,
      ∃ rest, r.handler.chain = Middleware.authenticateToken :: rest) ∧
    (∀ r ∈ cityRoutes ++ hotelRoutes ++ roomTypeRoutes,
      Middleware.authenticateToken ∉ r.handler.chain) ∧
    (∀ {σ : Type} (E : Engine σ) (pf : Platform) (apiVersion : String) (gate : Gate)
      (user : User) (body : Val) (db : σ) (answer : Response),
      gate.authenticateToken = some answer →
      serve E pf apiVersion gate (.createBooking user body) db = ⟨answer, [], db, none⟩) ∧
    (∀ {σ : Type} (E : Engine σ) (pf : Platform) (apiVersion : String) (gate : Gate)
      (user : User) (body : Val) (db : σ),
      gate.authenticateToken = none →
      serve E pf apiVersion gate (.createBooking user body) db =
        createBooking E pf.toRuntime user body db) := by
  refine ⟨?_, ?_, ?_, ?_⟩
  · intro r hr
    simp only [bookingRoutes, paymentRoutes, List.cons_append, List.nil_append,
      List.mem_cons, List.mem_singleton] at hr
    rcases hr with h | h | h | h | h | h | h | h <;> first | (subst h; exact ⟨_, rfl⟩) | simp at h
  · intro r hr
    simp only [cityRoutes, hotelRoutes, roomTypeRoutes, List.cons_append, List.nil_append,
      List.mem_cons, List.mem_singleton] at hr
    rcases hr with h | h | h | h | h | h | h <;> first | (subst h; decide) | simp at h
  · intro σ E pf apiVersion gate user body db answer hgate
    simp [serve, Call.handler, Handler.chain, throughChain, hgate]
  · intro σ E pf apiVersion gate user body db hgate
    simp [serve, Call.handler, Handler.chain, throughChain, hgate, handle]

/-- Witness of C16: a booking request without a token is answered 401 by
`authenticateToken` and no statement is issued. -/
theorem authentication_before_handlers_witness :
    serve soldOut samplePlatform "v1" closedGate (.createBooking alice bookingBody) () =
      ⟨json 401 [("success", .bool false), ("message", .str "Access token required")],
        [], (), none⟩ :=
  authentication_before_handlers.2.2.1 soldOut samplePlatform "v1" closedGate alice
    bookingBody () _ rfl

/-! ### The 404 handler -/

theorem dispatch_append (front back : List Layer) (m : Method) (segs : List String) :
    dispatch (front ++ back) m segs =
      match dispatch front m segs with
      | some t => some t
      | none => dispatch back m segs := by
  induction front with
  | nil => simp [dispatch]
  | cons layer rest ih =>
    cases layer with
    | route r =>
      simp only [List.cons_append, dispatch]
      cases dispatchRouter [r] m segs <;> simp [ih]
    | mount base router =>
      simp only [List.cons_append, dispatch]
      cases belowMount base segs with
      | none => simp [ih]
      | some below =>
        dsimp only
        cases dispatchRouter router m below <;> simp [ih]
    | all h => simp [dispatch]

/-- Claim C17. A request that matches none of the routes registered before the
404 handler is dispatched to the 404 handler, which responds 404 with success
false, the message 'Endpoint not found', and `path` and `method` echoing
`req.originalUrl` and `req.method`. -/
theorem unmatched_request_gets_404 (apiVersion : String) (authRoutes : List Route)
    (m : Method) (segs : List String)
    (hunmatched : dispatch (app apiVersion authRoutes).dropLast m segs = none) :
    dispatch (app apiVersion authRoutes) m segs = some ⟨.notFound, []⟩ ∧
    ∀ {σ : Type} (E : Engine σ) (pf : Platform) (originalUrl method : Val) (db : σ),
      (handle E pf apiVersion (.notFound originalUrl method) db).response =
        json 404 [("success", .bool false), ("message", .str "Endpoint not found"),
          ("path", originalUrl), ("method", method),
          ("suggestion", .str ("Try GET /api/" ++ apiVersion ++ " for API documentation"))] := by
  constructor
  · have happ : app apiVersion authRoutes =
        (app apiVersion authRoutes).dropLast ++ [.all .notFound] := by
      simp [app]
    rw [happ, dispatch_append, hunmatched]
    simp [dispatch]
  · intro σ E pf originalUrl method db
    rfl

/-- Witness of C17: the request of the test 'Should return 404 for non-existent
endpoint'. -/
theorem unmatched_request_gets_404_witness :
    dispatch (app "v1" []) .GET (segments "/api/v1/non-existent") = some ⟨.notFound, []⟩ ∧
    (handle offline samplePlatform "v1"
        (.notFound (.str "/api/v1/non-existent") (.str "GET")) ()).response =
      json 404 [("success", .bool false), ("message", .str "Endpoint not found"),
        ("path", .str "/api/v1/non-existent"), ("method", .str "GET"),
        ("suggestion", .str ("Try GET /api/" ++ "v1" ++ " for API documentation"))] :=
  ⟨(unmatched_request_gets_404 "v1" [] .GET (segments "/api/v1/non-existent")
      (by rfl)).1,
   (unmatched_request_gets_404 "v1" [] .GET (segments "/api/v1/non-existent")
      (by rfl)).2 offline samplePlatform _ _ ()⟩

/-! ### GET /cities/:city_id/hotels: the query text -/

/-- Claim C18. For every request to GET /cities/:city_id/hotels, every statement
issued has the text `Sql.cityHotels` of four arguments: whether rating_min is
truthy (present and not empty), whether rating_max is, a sort field that is one
of name, rating, price_from (sort_by itself when it is one of them, 'name'
otherwise) and a sort order that is ASC or DESC (DESC exactly when `order`
upper-cased is 'DESC'); its bound parameters are city_id and `parseFloat` of the
rating bounds that are truthy; and one statement is issued whenever `order` is a
string or absent. -/
theorem city_hotels_query_text {σ : Type} (E : Engine σ) (rt : Runtime) (city_id query : Val)
    (db : σ) :
    (∀ s ∈ (cityHotels E rt city_id query db).log,
      ∃ field ∈ validSortFields, ∃ sortOrder ∈ ["ASC", "DESC"], ∃ o : String,
        withDefault (query.get "order") (.str "ASC") = .str o ∧
        (sortOrder = "DESC" ↔ rt.toUpperCase o = "DESC") ∧
        (∀ f ∈ validSortFields, query.get "sort_by" = .str f → field = f) ∧
        ((∀ f ∈ validSortFields, query.get "sort_by" ≠ .str f) → field = "name") ∧
        s.sql = Sql.cityHotels (query.get "rating_min").truthy (query.get "rating_max").truthy
          field sortOrder ∧
        s.params = [city_id] ++
          (if (query.get "rating_min").truthy then [Val.parseFloat (query.get "rating_min")]
            else []) ++
          (if (query.get "rating_max").truthy then [Val.parseFloat (query.get "rating_max")]
            else [])) ∧
    (∀ o : String, withDefault (query.get "order") (.str "ASC") = .str o →
      (cityHotels E rt city_id query db).log.length = 1) := by
  have hfield : ∃ field ∈ validSortFields,
      Val.text rt (if validSortFields.any
          (fun f => Val.strictEq (.str f) (withDefault (query.get "sort_by") (.str "name")))
        then withDefault (query.get "sort_by") (.str "name") else .str "name") = field ∧
      (∀ f ∈ validSortFields, query.get "sort_by" = .str f → field = f) ∧
      ((∀ f ∈ validSortFields, query.get "sort_by" ≠ .str f) → field = "name") := by
    cases hs : query.get "sort_by" with
    | str s =>
      by_cases h1 : s = "name"
      · subst h1
        exact ⟨"name", by simp [validSortFields], by
          simp [validSortFields, withDefault, Val.strictEq, Val.text]⟩
      · by_cases h2 : s = "rating"
        · subst h2
          exact ⟨"rating", by simp [validSortFields], by
            simp [validSortFields, withDefault, Val.strictEq, Val.text]⟩
        · by_cases h3 : s = "price_from"
          · subst h3
            exact ⟨"price_from", by simp [validSortFields], by
              simp [validSortFields, withDefault, Val.strictEq, Val.text]⟩
          · refine ⟨"name", by simp [validSortFields], ?_⟩
            have e1 : ¬ "name" = s := fun h => h1 h.symm
            have e2 : ¬ "rating" = s := fun h => h2 h.symm
            have e3 : ¬ "price_from" = s := fun h => h3 h.symm
            simp [validSortFields, withDefault, Val.strictEq, Val.text, e1, e2, e3, h1, h2, h3]
    | _ =>
      exact ⟨"name", by simp [validSortFields], by
        simp [validSortFields, withDefault, Val.strictEq, Val.text]⟩
  obtain ⟨field, hmem, htext, ha, hb⟩ := hfield
  constructor
  · intro s hs
    simp only [cityHotels] at hs
    split at hs
    · rename_i o ho
      have hq : s = ⟨Sql.cityHotels (query.get "rating_min").truthy
          (query.get "rating_max").truthy field
          (if rt.toUpperCase o = "DESC" then "DESC" else "ASC"),
          [city_id] ++
          (if (query.get "rating_min").truthy then [Val.parseFloat (query.get "rating_min")]
            else []) ++
          (if (query.get "rating_max").truthy then [Val.parseFloat (query.get "rating_max")]
            else [])⟩ := by
        rw [htext] at hs
        split at hs <;> simpa using hs
      subst hq
      refine ⟨field, hmem, if rt.toUpperCase o = "DESC" then "DESC" else "ASC", ?_, o, ho, ?_,
        ha, hb, rfl, rfl⟩
      · by_cases h : rt.toUpperCase o = "DESC" <;> simp [h]
      · by_cases h : rt.toUpperCase o = "DESC" <;> simp [h]
    · simp at hs
  · intro o ho
    simp only [cityHotels, ho]
    split <;> rfl

/-- Witness of C18: a request whose city_id, sort_by and order carry SQL text.
The statement issued sorts by name DESC, has one rating filter, and binds the
city_id text and the number 3. -/
theorem city_hotels_query_text_witness :
    (cityHotels (answering []) sampleRuntime (.str "1 OR 1=1") hostileHotelQuery ()).log =
      [⟨Sql.cityHotels true false "name" "DESC", [.str "1 OR 1=1", .num 3]⟩] ∧
    (cityHotels (answering []) sampleRuntime (.str "1 OR 1=1") hostileHotelQuery
      ()).log.length = 1 :=
  ⟨by with_unfolding_all rfl,
   (city_hotels_query_text (answering []) sampleRuntime (.str "1 OR 1=1") hostileHotelQuery
      ()).2 "desc" (by with_unfolding_all rfl)⟩

/-! ### The cancel request of the frontend -/

/-- Claim C19, as the code behaves. The request of the frontend's
`bookingService.cancelBooking` has the method POST; the router of bookings.js
serves a POST request only at its root, with the create handler, and its cancel
route is a PUT route; so the request for booking 5, sent to /api/v1, reaches the
404 handler, where a PUT request to the same path reaches the cancel handler. -/
theorem cancel_request_is_post (authRoutes : List Route) :
    (∀ bookingId : String,
      (bookingService.cancelBooking bookingId).method = .POST ∧
      (bookingService.cancelBooking bookingId).path = "/bookings/" ++ bookingId ++ "/cancel") ∧
    (∀ segs : List String, dispatchRouter bookingRoutes .POST segs =
      if segs.isEmpty then some ⟨.createBooking, []⟩ else none) ∧
    (bookingRoutes.filter (fun r => decide (r.handler = .cancelBooking))).map (fun r => r.method)
      = [.PUT] ∧
    segments (ClientRequest.serverPath "/api/v1" (bookingService.cancelBooking "5")) =
      ["api", "v1", "bookings", "5", "cancel"] ∧
    dispatch (app "v1" authRoutes) (bookingService.cancelBooking "5").method
      (segments (ClientRequest.serverPath "/api/v1" (bookingService.cancelBooking "5"))) =
        some ⟨.notFound, []⟩ ∧
    dispatch (app "v1" authRoutes) .PUT
      (segments (ClientRequest.serverPath "/api/v1" (bookingService.cancelBooking "5"))) =
        some ⟨.cancelBooking, [("booking_id", "5")]⟩ := by
  refine ⟨fun _ => ⟨rfl, rfl⟩, ?_, by decide, by rfl, by rfl, by rfl⟩
  intro segs
  cases segs <;> rfl

/-! ### GET /seasonal-pricing/room-types/:room_type_id/current-price -/

theorem topRow_rules (roomType : RoomTypeRec) (rules : List PricingRule) (hne : rules ≠ []) :
    ∃ best ∈ rules, (∀ other ∈ rules, other.priority ≤ best.priority) ∧
      topRow (rules.map (fun rule => (roomType, some rule))) = some (roomType, some best) := by
  induction rules with
  | nil => exact absurd rfl hne
  | cons x xs ih =>
    cases xs with
    | nil => exact ⟨x, by simp, by simp, rfl⟩
    | cons y ys =>
      obtain ⟨best, hmem, hmax, htop⟩ := ih (by simp)
      by_cases h : x.priority < best.priority
      · refine ⟨best, List.mem_cons_of_mem _ hmem, ?_, ?_⟩
        · intro other hother
          rcases List.mem_cons.mp hother with rfl | hrest
          · exact le_of_lt h
          · exact hmax other hrest
        · rw [List.map_cons, topRow, htop]
          simp [outranks, h]
      · refine ⟨x, by simp, ?_, ?_⟩
        · intro other hother
          rcases List.mem_cons.mp hother with rfl | hrest
          · exact le_refl _
          · exact le_trans (hmax other hrest) (not_lt.mp h)
        · rw [List.map_cons, topRow, htop]
          simp [outranks, h]

theorem pricingExec_one (db : PricingDb) (priceDate date key : Val) (roomType : RoomTypeRec)
    (hexists : db.roomTypes.filter (fun r => keyEq r.room_type_id key) = [roomType]) :
    pricingEngine.exec db ⟨Sql.currentPrice, [priceDate, date, key]⟩ =
      (.ok (match topRow (joinedRules db roomType date) with
        | none => []
        | some (rt, rule) =>
          [[("room_type_id", rt.room_type_id), ("room_type_name", rt.name),
            ("base_price", rt.base_price),
            ("current_price", db.seasonalPrice rt.room_type_id priceDate),
            ("hotel_name", rt.hotel_name),
            ("season_name", (rule.map (fun r => r.season_name)).getD .null),
            ("price_multiplier", (rule.map (fun r => r.price_multiplier)).getD .null)]]), db) := by
  simp [pricingEngine, pricingExec, hexists, List.flatMap]

theorem pricingExec_none (db : PricingDb) (priceDate date key : Val)
    (hmissing : db.roomTypes.filter (fun r => keyEq r.room_type_id key) = []) :
    pricingEngine.exec db ⟨Sql.currentPrice, [priceDate, date, key]⟩ = (.ok [], db) := by
  simp [pricingEngine, pricingExec, hmissing, List.flatMap, topRow]

/-- Claim C20. On the reference tables, for the date of the request (the `date`
query value, today when absent): when no room type has the requested id the
response is 404 'Room type not found'; when one room type has it the response
is 200 and, if no active rule of that room type has the date in its range,
active_season is null and price_change_percent is 0, and otherwise both come
from one of those rules whose priority no other of them exceeds: active_season
is its season_name (null for a falsy one) and price_change_percent is
`priceChangePercent` of its multiplier, which for a truthy multiplier of numeric
value q is (q - 1) * 100 * 100 rounded to the nearest integer, a half going up,
divided by 100. -/
theorem current_price_by_priority (rt : Runtime) (db : PricingDb) (room_type_id query : Val) :
    (db.roomTypes.filter (fun r => keyEq r.room_type_id room_type_id) = [] →
      (currentPrice pricingEngine rt room_type_id query db).response =
        json 404 [("success", .bool false), ("message", .str "Room type not found")]) ∧
    (∀ roomType : RoomTypeRec,
      db.roomTypes.filter (fun r => keyEq r.room_type_id room_type_id) = [roomType] →
      (currentPrice pricingEngine rt room_type_id query db).response.status = 200 ∧
      (activeRules db roomType (withDefault (query.get "date") (todayIso rt)) = [] →
        ((currentPrice pricingEngine rt room_type_id query db).response.body.get "data").get
          "active_season" = .null ∧
        ((currentPrice pricingEngine rt room_type_id query db).response.body.get "data").get
          "price_change_percent" = .num 0) ∧
      (activeRules db roomType (withDefault (query.get "date") (todayIso rt)) ≠ [] →
        ∃ rule ∈ activeRules db roomType (withDefault (query.get "date") (todayIso rt)),
          (∀ other ∈ activeRules db roomType (withDefault (query.get "date") (todayIso rt)),
            other.priority ≤ rule.priority) ∧
          ((currentPrice pricingEngine rt room_type_id query db).response.body.get "data").get
            "active_season" = Val.orElse rule.season_name .null ∧
          ((currentPrice pricingEngine rt room_type_id query db).response.body.get "data").get
            "price_change_percent" = priceChangePercent rule.price_multiplier)) ∧
    (∀ (price_multiplier : Val) (q : ℚ), price_multiplier.truthy = true →
      price_multiplier.toNumber = .num q →
      priceChangePercent price_multiplier =
        .num (((⌊(q - 1) * 100 * 100 + 1 / 2⌋ : Int) : ℚ) / 100)) := by
  refine ⟨?_, ?_, ?_⟩
  · intro hmissing
    simp only [currentPrice, pricingExec_none db _ _ _ hmissing]
  · intro roomType hexists
    cases hrules : activeRules db roomType (withDefault (query.get "date") (todayIso rt)) with
    | nil =>
      have hjoin : topRow (joinedRules db roomType (withDefault (query.get "date") (todayIso rt)))
          = some (roomType, none) := by
        simp [joinedRules, hrules, topRow]
      simp only [currentPrice, pricingExec_one db _ _ _ roomType hexists, hjoin]
      refine ⟨rfl, fun _ => ⟨?_, ?_⟩, fun h => absurd rfl h⟩
      · simp [json, get_obj, List.lookup, Row.get, Val.orElse, Val.truthy]
      · simp [json, get_obj, List.lookup, Row.get, priceChangePercent, Val.truthy]
    | cons x xs =>
      obtain ⟨best, hmem, hmax, htop⟩ := topRow_rules roomType (x :: xs) (by simp)
      have hjoin : topRow (joinedRules db roomType (withDefault (query.get "date") (todayIso rt)))
          = some (roomType, some best) := by
        simp only [joinedRules, hrules]
        exact htop
      simp only [currentPrice, pricingExec_one db _ _ _ roomType hexists, hjoin]
      refine ⟨rfl, fun h => by simp at h, fun _ => ⟨best, hmem, hmax, ?_, ?_⟩⟩
      · simp [json, get_obj, List.lookup, Row.get]
      · simp [json, get_obj, List.lookup, Row.get]
  · intro pm q htruthy hnum
    have hn : ∀ x : ℚ, (Val.num x).toNumber = .num x := fun _ => rfl
    simp [priceChangePercent, htruthy, Val.div, Val.round, Val.mul, Val.sub, Val.arith, hnum, hn]

/-- Witness of C20: on the sample tables, room type 1 on 2025-07-15 has the
summer rule (priority 1) and the festival rule (priority 5) in range, and the
response names the festival with a change of 50 percent; room type 9 does not
exist and gets 404. -/
theorem current_price_by_priority_witness :
    samplePricingDb.roomTypes.filter (fun r => keyEq r.room_type_id (.str "1")) = [deluxe] ∧
    activeRules samplePricingDb deluxe
      (withDefault (festivalQuery.get "date") (todayIso sampleRuntime)) ≠ [] ∧
    (∃ rule ∈ activeRules samplePricingDb deluxe
        (withDefault (festivalQuery.get "date") (todayIso sampleRuntime)),
      (∀ other ∈ activeRules samplePricingDb deluxe
          (withDefault (festivalQuery.get "date") (todayIso sampleRuntime)),
        other.priority ≤ rule.priority) ∧
      ((currentPrice pricingEngine sampleRuntime (.str "1") festivalQuery
          samplePricingDb).response.body.get "data").get "active_season" =
        Val.orElse rule.season_name .null ∧
      ((currentPrice pricingEngine sampleRuntime (.str "1") festivalQuery
          samplePricingDb).response.body.get "data").get "price_change_percent" =
        priceChangePercent rule.price_multiplier) ∧
    ((currentPrice pricingEngine sampleRuntime (.str "1") festivalQuery
        samplePricingDb).response.body.get "data").get "active_season" = .str "Festival" ∧
    ((currentPrice pricingEngine sampleRuntime (.str "1") festivalQuery
        samplePricingDb).response.body.get "data").get "price_change_percent" = .num 50 ∧
    (currentPrice pricingEngine sampleRuntime (.str "9") festivalQuery
        samplePricingDb).response =
      json 404 [("success", .bool false), ("message", .str "Room type not found")] :=
  ⟨by with_unfolding_all rfl,
   List.ne_nil_of_length_pos (by with_unfolding_all decide),
   ((current_price_by_priority sampleRuntime samplePricingDb (.str "1") festivalQuery).2.1
      deluxe (by with_unfolding_all rfl)).2.2
      (List.ne_nil_of_length_pos (by with_unfolding_all decide)),
   by with_unfolding_all rfl,
   by with_unfolding_all rfl,
   (current_price_by_priority sampleRuntime samplePricingDb (.str "9") festivalQuery).1
      (by with_unfolding_all rfl)⟩

/-! ### Pagination -/

theorem double_1e_6_nearest : toDouble (1 / 1000000) = some double_1e_6 := by
  with_unfolding_all rfl

theorem parseInt_natCast (n : ℕ) (hn : n < 10 ^ 21) :
    Val.parseInt (.num (n : ℚ)) = .num (n : ℚ) := by
  have h0 : (0 : ℚ) ≤ (n : ℚ) := Nat.cast_nonneg n
  have habs : |(n : ℚ)| = (n : ℚ) := abs_of_nonneg h0
  have hlt : (n : ℚ) < 1000000000000000000000 := by exact_mod_cast hn
  have hcond : (n : ℚ) = 0 ∨
      (double_1e_6 ≤ |(n : ℚ)| ∧ |(n : ℚ)| < 1000000000000000000000) := by
    rcases Nat.eq_zero_or_pos n with h | h
    · left
      exact_mod_cast h
    · right
      rw [habs]
      refine ⟨?_, hlt⟩
      have h1 : (1 : ℚ) ≤ (n : ℚ) := by exact_mod_cast h
      have h2 : double_1e_6 ≤ 1 := by norm_num [double_1e_6]
      linarith
  simp only [Val.parseInt, hcond, if_true, h0]
  simp

theorem offset_value (page limit : Val) (p l : ℕ) (hp : 1 ≤ p) (hl : 1 ≤ l)
    (hbound : p * l < 2 ^ 53)
    (hpage : page.toNumber = .num (p : ℚ)) (hlimit : limit.toNumber = .num (l : ℚ)) :
    Val.parseInt (Val.times (Val.minus page (.num 1)) limit) =
      .num (((p - 1) * l : ℕ) : ℚ) := by
  have hle : (p - 1) * l ≤ p * l := Nat.mul_le_mul_right l (Nat.sub_le p 1)
  have hp53 : p < 2 ^ 53 := lt_of_le_of_lt (Nat.le_mul_of_pos_right p hl) hbound
  have hl53 : l < 2 ^ 53 := lt_of_le_of_lt (Nat.le_mul_of_pos_left l hp) hbound
  have hone : (Val.num 1).toNumber = .num ((1 : ℕ) : ℚ) := by
    rw [toNumber_num]
    norm_num
  have hminus : Val.minus page (.num 1) = .num ((p - 1 : ℕ) : ℚ) :=
    minus_natCast page (.num 1) p 1 hpage hone hp53 hp
  have hval : Val.times (Val.minus page (.num 1)) limit = .num (((p - 1) * l : ℕ) : ℚ) := by
    rw [hminus]
    exact times_natCast _ limit (p - 1) l (toNumber_num _) hlimit (by omega) hl53 (by omega)
  have hsmall : (p - 1) * l < 10 ^ 21 := by
    have h2 : (2 : ℕ) ^ 53 < 10 ^ 21 := by norm_num
    omega
  rw [hval, parseInt_natCast _ hsmall]

theorem ceil_div_natCast (t l : ℕ) (hl : 1 ≤ l) :
    ⌈(t : ℚ) / (l : ℚ)⌉ = (((t + l - 1) / l : ℕ) : Int) := by
  have hlpos : (0 : ℚ) < (l : ℚ) := by exact_mod_cast hl
  have h1 : l * ((t + l - 1) / l) ≤ t + l - 1 := Nat.mul_div_le _ _
  have h2 : t + l - 1 < l * ((t + l - 1) / l) + l := by
    have hlt : t + l - 1 < (t + l - 1) / l * l + l := Nat.lt_div_mul_add hl
    rw [Nat.mul_comm] at hlt
    exact hlt
  generalize (t + l - 1) / l = m at h1 h2 ⊢
  rw [Int.ceil_eq_iff]
  constructor
  · rw [lt_div_iff₀ hlpos]
    have h3 : l * m < t + l := by omega
    have h4 : ((l * m : ℕ) : ℚ) < ((t + l : ℕ) : ℚ) := by exact_mod_cast h3
    push_cast at h4 ⊢
    linarith
  · rw [div_le_iff₀ hlpos]
    have h3 : t ≤ l * m := by omega
    have h4 : ((t : ℕ) : ℚ) ≤ ((l * m : ℕ) : ℚ) := by exact_mod_cast h3
    push_cast at h4 ⊢
    linarith

theorem total_pages_value (total limit : Val) (t l : ℕ) (hl : 1 ≤ l) (ht53 : t < 2 ^ 53)
    (hl53 : l < 2 ^ 53)
    (htotal : total.toNumber = .num (t : ℚ)) (hlimit : limit.toNumber = .num (l : ℚ)) :
    Val.ceil (Val.over total limit) = .num (((t + l - 1) / l : ℕ) : ℚ) := by
  rw [ceil_over_natCast total limit t l htotal hlimit ht53 hl hl53, ceil_div_natCast t l hl,
    Int.cast_natCast]

theorem windows_take {α : Type} (l : ℕ) (rows : List α) (n : ℕ) :
    (List.range n).flatMap (fun k => pageWindow l (k * l) rows) = rows.take (n * l) := by
  induction n with
  | zero => simp
  | succ n ih =>
    rw [List.range_succ, List.flatMap_append, ih]
    simp only [List.flatMap_cons, List.flatMap_nil, List.append_nil, pageWindow]
    rw [Nat.succ_mul, List.take_add]

theorem windows_cover {α : Type} (l : ℕ) (hl : 1 ≤ l) (rows : List α) :
    (List.range ((rows.length + l - 1) / l)).flatMap (fun k => pageWindow l (k * l) rows)
      = rows := by
  rw [windows_take]
  apply List.take_of_length_le
  have h2 : rows.length + l - 1 < l * ((rows.length + l - 1) / l) + l := by
    have hlt : rows.length + l - 1 < (rows.length + l - 1) / l * l + l :=
      Nat.lt_div_mul_add hl
    rw [Nat.mul_comm] at hlt
    exact hlt
  rw [Nat.mul_comm]
  omega

theorem userBookings_first_statement {σ : Type} (E : Engine σ) (rt : Runtime) (user : User)
    (user_id query : Val) (db : σ) (s : Stmt)
    (hs : (userBookings E rt user user_id query db).log.head? = some s) :
    s.sql = Sql.userBookings (query.get "status").truthy ∧
    ∃ front, s.params = front ++
      [Val.parseInt (withDefault (query.get "limit") (.num 10)),
       Val.parseInt (Val.times (Val.minus (withDefault (query.get "page") (.num 1)) (.num 1))
        (withDefault (query.get "limit") (.num 10)))] := by
  revert hs
  simp only [userBookings]
  repeat' split
  all_goals intro hs
  all_goals first
    | (simp only [List.head?_cons, Option.some.injEq] at hs; subst hs; exact ⟨rfl, _, rfl⟩)
    | simp at hs

theorem hotelReviews_first_statement {σ : Type} (E : Engine σ) (rt : Runtime)
    (hotel_id query : Val) (db : σ) (s : Stmt)
    (hs : (hotelReviews E rt hotel_id query db).log.head? = some s) :
    s.sql = Sql.hotelReviews (query.get "rating_filter").truthy ∧
    ∃ front, s.params = front ++
      [Val.parseInt (withDefault (query.get "limit") (.num 10)),
       Val.parseInt (Val.times (Val.minus (withDefault (query.get "page") (.num 1)) (.num 1))
        (withDefault (query.get "limit") (.num 10)))] := by
  revert hs
  simp only [hotelReviews]
  repeat' split
  all_goals intro hs
  all_goals (simp only [List.head?_cons, Option.some.injEq] at hs; subst hs; exact ⟨rfl, _, rfl⟩)

theorem over_by_value (total limit : Val) (l : ℚ) (hlimit : limit.toNumber = .num l) :
    Val.over total limit = Val.over total (.num l) := by
  simp only [Val.over, hlimit, toNumber_num]

/-- Claim C21, amended. In GET /users/:user_id/bookings and GET
/hotels/:hotel_id/reviews, when `page` and `limit` (1 and 10 when absent) read
as the integers p >= 1 and l >= 1 with p * l below 2 ^ 53: the first statement
issued is the listing query and its last two bound parameters are l for LIMIT
and (p - 1) * l for OFFSET, the double product being exact; when the listing
query and then the count query answer, the response is 200 with the rows of the
listing and with current_page p, per_page l, total_items the `total` of the
first row of the count query and total_pages `Math.ceil(total / l)` of the
double quotient, which for a total that reads as the natural number t below
2 ^ 53 is (t + l - 1) / l rounded down, the ceiling of the exact quotient; and
the windows of that many pages (page k + 1 keeps `pageWindow l (k * l)`), one
after the other, are the rows of the ordered result, each row once. -/
theorem pagination_contract {σ : Type} (E : Engine σ) (rt : Runtime) (user : User)
    (user_id hotel_id query : Val) (db : σ) (p l : ℕ) (hp : 1 ≤ p) (hl : 1 ≤ l)
    (hbound : p * l < 2 ^ 53)
    (hpage : (withDefault (query.get "page") (.num 1)).toNumber = .num (p : ℚ))
    (hpageInt : Val.parseInt (withDefault (query.get "page") (.num 1)) = .num (p : ℚ))
    (hlimit : (withDefault (query.get "limit") (.num 10)).toNumber = .num (l : ℚ))
    (hlimitInt : Val.parseInt (withDefault (query.get "limit") (.num 10)) = .num (l : ℚ)) :
    (∀ s, (userBookings E rt user user_id query db).log.head? = some s →
      s.sql = Sql.userBookings (query.get "status").truthy ∧
      ∃ front, s.params = front ++ [.num (l : ℚ), .num (((p - 1) * l : ℕ) : ℚ)]) ∧
    (∀ statusParams : List Val,
      (Val.strictEq (Val.parseInt user_id) user.user_id = true ∨ user.role = .str "ADMIN") →
      (((query.get "status").truthy = false ∧ statusParams = []) ∨
        ∃ status : String, query.get "status" = .str status ∧
          (query.get "status").truthy = true ∧ statusParams = [.str (rt.toUpperCase status)]) →
      ∀ (bookings : List Row) (db1 : σ) (countRow : Row) (rest : List Row) (db2 : σ),
        E.exec db ⟨Sql.userBookings (query.get "status").truthy,
          [user_id] ++ statusParams ++ [.num (l : ℚ), .num (((p - 1) * l : ℕ) : ℚ)]⟩ =
          (.ok bookings, db1) →
        E.exec db1 ⟨Sql.userBookingsCount (query.get "status").truthy,
          [user_id] ++ statusParams⟩ = (.ok (countRow :: rest), db2) →
        (userBookings E rt user user_id query db).response =
          json 200 [("success", .bool true),
            ("data", .obj [("bookings", .arr (bookings.map Val.obj)),
              ("pagination", .obj [("current_page", .num (p : ℚ)), ("per_page", .num (l : ℚ)),
                ("total_items", countRow.get "total"),
                ("total_pages", Val.ceil (Val.over (countRow.get "total") (.num (l : ℚ))))])])]) ∧
    (∀ s, (hotelReviews E rt hotel_id query db).log.head? = some s →
      s.sql = Sql.hotelReviews (query.get "rating_filter").truthy ∧
      ∃ front, s.params = front ++ [.num (l : ℚ), .num (((p - 1) * l : ℕ) : ℚ)]) ∧
    (∀ (reviews : List Row) (db1 : σ) (countRow : Row) (rest : List Row) (db2 : σ),
      E.exec db ⟨Sql.hotelReviews (query.get "rating_filter").truthy,
        [hotel_id] ++
          (if (query.get "rating_filter").truthy then [Val.parseInt (query.get "rating_filter")]
            else []) ++
          [.num (l : ℚ), .num (((p - 1) * l : ℕ) : ℚ)]⟩ = (.ok reviews, db1) →
      E.exec db1 ⟨Sql.hotelReviewsCount (query.get "rating_filter").truthy,
        [hotel_id] ++
          (if (query.get "rating_filter").truthy then [Val.parseInt (query.get "rating_filter")]
            else [])⟩ = (.ok (countRow :: rest), db2) →
      (hotelReviews E rt hotel_id query db).response =
        json 200 [("success", .bool true),
          ("data", .obj [("reviews", .arr (reviews.map Val.obj)),
            ("pagination", .obj [("current_page", .num (p : ℚ)), ("per_page", .num (l : ℚ)),
              ("total_items", countRow.get "total"),
              ("total_pages", Val.ceil (Val.over (countRow.get "total") (.num (l : ℚ))))])])]) ∧
    (∀ (total : Val) (t : ℕ), t < 2 ^ 53 → total.toNumber = .num (t : ℚ) →
      Val.ceil (Val.over total (.num (l : ℚ))) = .num (((t + l - 1) / l : ℕ) : ℚ)) ∧
    (∀ rows : List Row,
      (List.range ((rows.length + l - 1) / l)).flatMap (fun k => pageWindow l (k * l) rows)
        = rows) ∧
    (query.get "page" = .undefined → p = 1) ∧
    (query.get "limit" = .undefined → l = 10) := by
  have hoff := offset_value _ _ p l hp hl hbound hpage hlimit
  have hl53 : l < 2 ^ 53 := lt_of_le_of_lt (Nat.le_mul_of_pos_left l hp) hbound
  refine ⟨?_, ?_, ?_, ?_, ?_, ?_, ?_, ?_⟩
  · intro s hs
    obtain ⟨hsql, front, hparams⟩ := userBookings_first_statement E rt user user_id query db s hs
    rw [hlimitInt, hoff] at hparams
    exact ⟨hsql, front, hparams⟩
  · intro statusParams haccess hstatus bookings db1 countRow rest db2 hlist hcount
    have hguard : (Val.strictNe (Val.parseInt user_id) user.user_id &&
        !Val.strictEq user.role (.str "ADMIN")) = false := by
      rcases haccess with h | h
      · simp [Val.strictNe, h]
      · simp [h, Val.strictEq]
    rcases hstatus with ⟨hfalsy, hnil⟩ | ⟨status, hstr, htruthy, hone⟩
    · subst hnil
      rw [hfalsy] at hlist hcount
      simp only [userBookings, hguard, hfalsy, hlimitInt, hoff, hpageInt, Bool.false_eq_true,
        if_false]
      simp only [hlist, hcount, over_by_value _ _ _ hlimit]
    · subst hone
      rw [htruthy] at hlist hcount
      rw [hstr] at htruthy
      simp only [userBookings, hguard, hstr, htruthy, hlimitInt, hoff, hpageInt,
        Bool.false_eq_true, if_false, if_true]
      simp only [hlist, hcount, over_by_value _ _ _ hlimit]
  · intro s hs
    obtain ⟨hsql, front, hparams⟩ := hotelReviews_first_statement E rt hotel_id query db s hs
    rw [hlimitInt, hoff] at hparams
    exact ⟨hsql, front, hparams⟩
  · intro reviews db1 countRow rest db2 hlist hcount
    simp only [hotelReviews, hlimitInt, hoff, hpageInt, hlist, hcount,
      over_by_value _ _ _ hlimit]
  · intro total t ht53 htotal
    exact total_pages_value total (.num (l : ℚ)) t l hl ht53 hl53 htotal rfl
  · intro rows
    exact windows_cover l hl rows
  · intro habsent
    rw [habsent] at hpage
    have h : (1 : ℚ) = (p : ℚ) := by simpa [withDefault, Val.toNumber] using hpage
    exact_mod_cast h.symm
  · intro habsent
    rw [habsent] at hlimit
    have h : (10 : ℚ) = (l : ℚ) := by simpa [withDefault, Val.toNumber] using hlimit
    exact_mod_cast h.symm

/-- Witness of C21 amended: page 2 with 5 per page of 12 bookings is answered with
total_items 12 and 3 pages; without `page` and `limit` the listing of reviews
has LIMIT 10 OFFSET 0. -/
theorem pagination_contract_witness :
    (userBookings (answering [[("total", .num 12)]]) sampleRuntime alice (.str "7")
        secondPageQuery ()).response =
      json 200 [("success", .bool true),
        ("data", .obj [("bookings", .arr (([[("total", .num 12)]] : List Row).map Val.obj)),
          ("pagination", .obj [("current_page", .num ((2 : ℕ) : ℚ)),
            ("per_page", .num ((5 : ℕ) : ℚ)),
            ("total_items", Row.get [("total", .num 12)] "total"),
            ("total_pages",
              Val.ceil (Val.over (Row.get [("total", .num 12)] "total")
                (.num ((5 : ℕ) : ℚ))))])])] ∧
    ((userBookings (answering [[("total", .num 12)]]) sampleRuntime alice (.str "7")
        secondPageQuery ()).response.body.get "data").get "pagination" =
      .obj [("current_page", .num 2), ("per_page", .num 5), ("total_items", .num 12),
        ("total_pages", .num 3)] ∧
    (∀ s, (hotelReviews (answering [[("total", .num 12)]]) sampleRuntime (.str "1")
        (.obj []) ()).log.head? = some s →
      s.sql = Sql.hotelReviews ((Val.obj []).get "rating_filter").truthy ∧
      ∃ front, s.params = front ++ [.num ((10 : ℕ) : ℚ), .num (((1 - 1) * 10 : ℕ) : ℚ)]) :=
  ⟨(pagination_contract (answering [[("total", .num 12)]]) sampleRuntime alice (.str "7")
      (.str "1") secondPageQuery () 2 5 (by decide) (by decide) (by norm_num)
      (by with_unfolding_all rfl) (by with_unfolding_all rfl)
      (by with_unfolding_all rfl) (by with_unfolding_all rfl)).2.1 []
      (Or.inl (by with_unfolding_all rfl)) (Or.inl ⟨by with_unfolding_all rfl, rfl⟩)
      [[("total", .num 12)]] () [("total", .num 12)] [] () rfl rfl,
   by with_unfolding_all rfl,
   (pagination_contract (answering [[("total", .num 12)]]) sampleRuntime alice (.str "7")
      (.str "1") (.obj []) () 1 10 (by decide) (by decide) (by norm_num)
      (by with_unfolding_all rfl) (by with_unfolding_all rfl)
      (by with_unfolding_all rfl) (by with_unfolding_all rfl)).2.2.1⟩

/-- Counterexample to C21 as stated. For `?page=2&limit=1000000000000000000000`
both values read as integers of at least 1, yet the OFFSET bound by both
listings is 1 and not (2 - 1) * 10 ^ 21: the offset is computed as the number
1e21, whose text is `1e+21`, and `parseInt` reads the 1. And for
`?page=4&limit=4503599627370497` the product 3 * (2 ^ 52 + 1) is not a double:
the OFFSET bound is 13510798882111492, one more than (4 - 1) * limit. -/
theorem huge_limit_offset :
    (withDefault (hugeLimitQuery.get "page") (.num 1)).toNumber = .num 2 ∧
    Val.parseInt (withDefault (hugeLimitQuery.get "page") (.num 1)) = .num 2 ∧
    (withDefault (hugeLimitQuery.get "limit") (.num 10)).toNumber =
      .num 1000000000000000000000 ∧
    Val.parseInt (withDefault (hugeLimitQuery.get "limit") (.num 10)) =
      .num 1000000000000000000000 ∧
    Val.times (Val.minus (withDefault (hugeLimitQuery.get "page") (.num 1)) (.num 1))
      (withDefault (hugeLimitQuery.get "limit") (.num 10)) = .num 1000000000000000000000 ∧
    toDouble 1000000000000000000000 = some 1000000000000000000000 ∧
    (hotelReviews offline sampleRuntime (.str "1") hugeLimitQuery ()).log =
      [⟨Sql.hotelReviews false, [.str "1", .num 1000000000000000000000, .num 1]⟩] ∧
    (userBookings offline sampleRuntime alice (.str "7") hugeLimitQuery ()).log =
      [⟨Sql.userBookings false, [.str "7", .num 1000000000000000000000, .num 1]⟩] ∧
    (withDefault (oddLimitQuery.get "page") (.num 1)).toNumber = .num 4 ∧
    Val.parseInt (withDefault (oddLimitQuery.get "page") (.num 1)) = .num 4 ∧
    (withDefault (oddLimitQuery.get "limit") (.num 10)).toNumber = .num 4503599627370497 ∧
    Val.parseInt (withDefault (oddLimitQuery.get "limit") (.num 10)) = .num 4503599627370497 ∧
    (hotelReviews offline sampleRuntime (.str "1") oddLimitQuery ()).log =
      [⟨Sql.hotelReviews false, [.str "1", .num 4503599627370497, .num 13510798882111492]⟩] ∧
    (userBookings offline sampleRuntime alice (.str "7") oddLimitQuery ()).log =
      [⟨Sql.userBookings false, [.str "7", .num 4503599627370497, .num 13510798882111492]⟩] ∧
    ((4 - 1) * 4503599627370497 : ℕ) = 13510798882111491 := by
  refine ⟨?_, ?_, ?_, ?_, ?_, ?_, ?_, ?_, ?_, ?_, ?_, ?_, ?_, ?_, ?_⟩ <;> with_unfolding_all rfl

/-! ### POST /payments: the status of the payment -/

/-- Claim C22, amended. For a POST /payments request that passes validation, when
the booking lookup returns a first row that is the requester's and not
cancelled: if its payment_status is 'SUCCESS' the response is 400 'Payment
already completed for this booking' and the lookup is the only statement
issued; otherwise, when the amount lookup returns a row, the handler itself
issues an UPDATE of Payment that sets the status, to 'FAILED' or to 'SUCCESS'
as `simulatePaymentProcessing` decides. -/
theorem payment_status_guard {σ : Type} (E : Engine σ) (rt : Runtime) (user : User)
    (body : Val) (db db1 : σ) (booking : Row) (rest : List Row)
    (hvalid : validatePayment rt body = [])
    (hrow : E.exec db ⟨Sql.paymentBooking, [body.get "booking_id"]⟩ =
      (.ok (booking :: rest), db1))
    (hown : Val.strictEq (booking.get "user_id") user.user_id = true)
    (hnc : booking.get "status" ≠ .str "CANCELLED") :
    (booking.get "payment_status" = .str "SUCCESS" →
      (processPayment E rt user body db).response =
        json 400 [("success", .bool false),
          ("message", .str "Payment already completed for this booking")] ∧
      (processPayment E rt user body db).log = [⟨Sql.paymentBooking, [body.get "booking_id"]⟩])
    ∧
    (booking.get "payment_status" ≠ .str "SUCCESS" →
      ∀ (amount : Row) (amounts : List Row) (db2 : σ),
        E.exec db1 ⟨Sql.paymentAmount, [body.get "booking_id"]⟩ = (.ok (amount :: amounts), db2) →
        (processPayment E rt user body db).log.get? 2 =
          some (if simulatePaymentProcessing rt (body.get "payment_method")
              (body.get "card_number")
            then ⟨Sql.paymentSucceeded, [body.get "payment_method", body.get "booking_id"]⟩
            else ⟨Sql.paymentFailed, [body.get "booking_id"]⟩)) := by
  have hne : Val.strictNe (booking.get "user_id") user.user_id = false := by
    simp [Val.strictNe, hown]
  have hc : Val.strictEq (booking.get "status") (.str "CANCELLED") = false :=
    (strictEq_str_false_iff _ _).mpr hnc
  constructor
  · intro hpaid
    have hs : Val.strictEq (booking.get "payment_status") (.str "SUCCESS") = true := by
      simp [hpaid, Val.strictEq]
    simp [processPayment, hvalid, hrow, hne, hc, hs]
  · intro hunpaid amount amounts db2 hamount
    have hs : Val.strictEq (booking.get "payment_status") (.str "SUCCESS") = false :=
      (strictEq_str_false_iff _ _).mpr hunpaid
    simp only [processPayment, hvalid, hrow, hne, hc, hs, hamount]
    cases hsim : simulatePaymentProcessing rt (body.get "payment_method")
      (body.get "card_number")
    · simp only [List.isEmpty_nil, Bool.not_true, Bool.false_eq_true, if_false, Bool.not_false,
        if_true]
      split <;> rfl
    · simp only [List.isEmpty_nil, Bool.not_true, Bool.false_eq_true, if_false, if_true]
      repeat' split
      all_goals rfl

/-- Witness of C22 amended, on the sample tables: booking 1 with its payment
marked SUCCESS is answered 400 after the lookup alone; with its payment
pending, the third statement is the UPDATE that sets SUCCESS. -/
theorem payment_status_guard_witness :
    ((processPayment (tableEngine sampleProcedures) sampleRuntime alice cardBody paidDb).response =
        json 400 [("success", .bool false),
          ("message", .str "Payment already completed for this booking")] ∧
      (processPayment (tableEngine sampleProcedures) sampleRuntime alice cardBody paidDb).log =
        [⟨Sql.paymentBooking, [cardBody.get "booking_id"]⟩]) ∧
    (processPayment (tableEngine sampleProcedures) sampleRuntime alice cardBody sampleDb).log.get? 2
      = some (if simulatePaymentProcessing sampleRuntime (cardBody.get "payment_method")
              (cardBody.get "card_number")
            then ⟨Sql.paymentSucceeded, [cardBody.get "payment_method", cardBody.get "booking_id"]⟩
            else ⟨Sql.paymentFailed, [cardBody.get "booking_id"]⟩) :=
  ⟨(payment_status_guard (tableEngine sampleProcedures) sampleRuntime alice cardBody paidDb paidDb
      [("booking_id", .num 1), ("user_id", .num 7), ("status", .str "CONFIRMED"),
        ("payment_status", .str "SUCCESS"), ("room_type", .str "Deluxe"),
        ("hotel_name", .str "Grand Hotel")] []
      (by with_unfolding_all rfl) (by with_unfolding_all rfl) (by with_unfolding_all rfl)
      (by simp [Row.get, List.lookup])).1 (by with_unfolding_all rfl),
   (payment_status_guard (tableEngine sampleProcedures) sampleRuntime alice cardBody sampleDb
      sampleDb
      [("booking_id", .num 1), ("user_id", .num 7), ("status", .str "CONFIRMED"),
        ("payment_status", .str "PENDING"), ("room_type", .str "Deluxe"),
        ("hotel_name", .str "Grand Hotel")] []
      (by with_unfolding_all rfl) (by with_unfolding_all rfl) (by with_unfolding_all rfl)
      (by simp [Row.get, List.lookup])).2 (by simp [Row.get, List.lookup])
      [("amount", .str "150.00")] [] sampleDb (by with_unfolding_all rfl)⟩

/-- Counterexample to C22 as stated. The tables `sampleDb` and `paidDb` differ
only in the status of the payment of booking 1 (PENDING and SUCCESS); the same
card payment of the owner is answered 200 on the first and 400 'Payment already
completed for this booking' on the second; and on the first the handler issues
`UPDATE Payment SET status = 'SUCCESS' ...`, after which the stored status is
'SUCCESS'. -/
theorem payment_status_decides :
    paidDb.bookings = sampleDb.bookings ∧
    paidDb.payments.map (fun p => (p.payment_id, p.booking_id, p.amount, p.method, p.paid_at)) =
      sampleDb.payments.map (fun p => (p.payment_id, p.booking_id, p.amount, p.method, p.paid_at)) ∧
    sampleDb.payments.map (fun p => p.status) = [.str "PENDING", .str "SUCCESS"] ∧
    paidDb.payments.map (fun p => p.status) = [.str "SUCCESS", .str "SUCCESS"] ∧
    (processPayment (tableEngine sampleProcedures) sampleRuntime alice cardBody
      sampleDb).response.status = 200 ∧
    (processPayment (tableEngine sampleProcedures) sampleRuntime alice cardBody paidDb).response =
      json 400 [("success", .bool false),
        ("message", .str "Payment already completed for this booking")] ∧
    (processPayment (tableEngine sampleProcedures) sampleRuntime alice cardBody sampleDb).log.get? 2
      = some ⟨Sql.paymentSucceeded, [.str "CARD", .num 1]⟩ ∧
    (processPayment (tableEngine sampleProcedures) sampleRuntime alice cardBody
      sampleDb).db.payments.map (fun p => p.status) = [.str "SUCCESS", .str "SUCCESS"] := by
  refine ⟨?_, ?_, ?_, ?_, ?_, ?_, ?_, ?_⟩ <;> with_unfolding_all rfl

/-! ### A refunded payment -/

/-- Claim C28, as the code behaves. On the sample tables with the payment of
booking 1 marked REFUNDED: a refund request of an administrator for that payment
is answered 400 and leaves the status REFUNDED, but a card payment of the owner
for booking 1 is processed as if nothing had been paid, and the stored status
becomes 'SUCCESS' when the simulated processing succeeds and 'FAILED' when it
fails. -/
theorem refunded_payment_overwritten :
    refundedDb.payments.map (fun p => (p.payment_id, p.status)) =
      [(.num 10, .str "REFUNDED"), (.num 11, .str "SUCCESS")] ∧
    (refund (tableEngine sampleProcedures) sampleRuntime admin (.str "10") (.obj [])
      refundedDb).response =
      json 400 [("success", .bool false), ("message", .str "Can only refund successful payments")] ∧
    (refund (tableEngine sampleProcedures) sampleRuntime admin (.str "10") (.obj [])
      refundedDb).db.payments.map (fun p => (p.payment_id, p.status)) =
      [(.num 10, .str "REFUNDED"), (.num 11, .str "SUCCESS")] ∧
    (processPayment (tableEngine sampleProcedures) sampleRuntime alice cardBody
      refundedDb).response.status = 200 ∧
    (processPayment (tableEngine sampleProcedures) sampleRuntime alice cardBody
      refundedDb).db.payments.map (fun p => (p.payment_id, p.status)) =
      [(.num 10, .str "SUCCESS"), (.num 11, .str "SUCCESS")] ∧
    (processPayment (tableEngine sampleProcedures) unluckyRuntime alice cardBody
      refundedDb).response =
      json 400 [("success", .bool false),
        ("message", .str "Payment processing failed. Please try again.")] ∧
    (processPayment (tableEngine sampleProcedures) unluckyRuntime alice cardBody
      refundedDb).db.payments.map (fun p => (p.payment_id, p.status)) =
      [(.num 10, .str "FAILED"), (.num 11, .str "SUCCESS")] := by
  refine ⟨?_, ?_, ?_, ?_, ?_, ?_, ?_⟩ <;> with_unfolding_all rfl

/-! ### A card payment without a usable card number -/

/-- Claim C29. On the reference tables, for a POST /payments request that passes
validation with payment_method 'CARD', whose card_number is missing (falsy) or
has a length below 15, when the booking exists, is the requester's, is not
cancelled, has a Payment row and is not paid: whatever the random draw,
`simulatePaymentProcessing` returns false, the response is 400 'Payment
processing failed. Please try again.', and the payments of the booking are
marked FAILED with `paid_at` set, every other column of every payment, the
method included, being left as it was. -/
theorem short_card_always_fails (P : Procedures) (rt : Runtime) (user : User) (body : Val)
    (db : Database) (b : BookingRec) (bs : List BookingRec)
    (p : PaymentRec) (ps : List PaymentRec)
    (hvalid : validatePayment rt body = [])
    (hmethod : body.get "payment_method" = .str "CARD")
    (hcard : (body.get "card_number").truthy = false ∨
      Val.lt (body.get "card_number").length (.num 15) = true)
    (hb : db.bookings.filter (fun b => keyEq b.booking_id (body.get "booking_id")) = b :: bs)
    (hown : Val.strictEq b.user_id user.user_id = true)
    (hnc : b.status ≠ .str "CANCELLED")
    (hp : paymentsOf db b = p :: ps)
    (hunpaid : p.status ≠ .str "SUCCESS") :
    simulatePaymentProcessing rt (body.get "payment_method") (body.get "card_number") = false ∧
    (processPayment (tableEngine P) rt user body db).response =
      json 400 [("success", .bool false),
        ("message", .str "Payment processing failed. Please try again.")] ∧
    (processPayment (tableEngine P) rt user body db).db.payments =
      db.payments.map (fun q =>
        if keyEq q.booking_id (body.get "booking_id") then
          { q with status := .str "FAILED", paid_at := db.clock }
        else q) ∧
    (processPayment (tableEngine P) rt user body db).db.payments.map (fun q => q.method) =
      db.payments.map (fun q => q.method) := by
  have hne : Val.strictNe b.user_id user.user_id = false := by simp [Val.strictNe, hown]
  have hc : Val.strictEq b.status (.str "CANCELLED") = false :=
    (strictEq_str_false_iff _ _).mpr hnc
  have hs : Val.strictEq p.status (.str "SUCCESS") = false :=
    (strictEq_str_false_iff _ _).mpr hunpaid
  have hbkey : keyEq b.booking_id (body.get "booking_id") = true := by
    have : b ∈ db.bookings.filter (fun b => keyEq b.booking_id (body.get "booking_id")) := by
      rw [hb]; exact List.mem_cons_self _ _
    simpa using (List.mem_filter.mp this).2
  have hpmem : p ∈ db.payments ∧ Val.strictEq p.booking_id b.booking_id = true := by
    have : p ∈ paymentsOf db b := by rw [hp]; exact List.mem_cons_self _ _
    simpa [paymentsOf] using this
  have hpkey : keyEq p.booking_id (body.get "booking_id") = true := by
    rw [eq_of_strictEq hpmem.2]; exact hbkey
  obtain ⟨p0, ps0, hfil⟩ : ∃ p0 ps0,
      db.payments.filter (fun p => keyEq p.booking_id (body.get "booking_id")) = p0 :: ps0 := by
    cases hf : db.payments.filter (fun p => keyEq p.booking_id (body.get "booking_id")) with
    | nil =>
      have : p ∈ db.payments.filter (fun p => keyEq p.booking_id (body.get "booking_id")) :=
        List.mem_filter.mpr ⟨hpmem.1, by simpa using hpkey⟩
      rw [hf] at this
      simp at this
    | cons p0 ps0 => exact ⟨p0, ps0, rfl⟩
  have hsim0 : simulatePaymentProcessing rt (body.get "payment_method")
      (body.get "card_number") = false := by
    rw [hmethod]
    rcases hcard with h | h
    · simp [simulatePaymentProcessing, Val.strictEq, h]
    · simp [simulatePaymentProcessing, Val.strictEq, h]
  have hout : processPayment (tableEngine P) rt user body db =
      ⟨json 400 [("success", .bool false),
          ("message", .str "Payment processing failed. Please try again.")],
        [⟨Sql.paymentBooking, [body.get "booking_id"]⟩,
          ⟨Sql.paymentAmount, [body.get "booking_id"]⟩,
          ⟨Sql.paymentFailed, [body.get "booking_id"]⟩],
        { db with payments := db.payments.map (fun q =>
            if keyEq q.booking_id (body.get "booking_id") then
              { q with status := .str "FAILED", paid_at := db.clock }
            else q) }, none⟩ := by
    simp [processPayment, hvalid, tableEngine, tableExec_paymentBooking, tableExec_paymentAmount,
      tableExec_paymentFailed, hb, leftJoinPayment, hp, paymentColumn,
      Row.get, List.lookup, hne, hc, hs, hfil, hsim0]
  refine ⟨hsim0, ?_, ?_, ?_⟩
  · rw [hout]
  · rw [hout]
  · rw [hout]
    simp only [List.map_map]
    apply List.map_congr_left
    intro q _
    simp only [Function.comp]
    split <;> rfl

/-- Witness of C29, on the sample tables: a card payment of the owner of booking 1
with a card number of 13 digits, and one without a card number. -/
theorem short_card_always_fails_witness :
    (processPayment (tableEngine sampleProcedures) sampleRuntime alice shortCardBody
      sampleDb).response =
      json 400 [("success", .bool false),
        ("message", .str "Payment processing failed. Please try again.")] ∧
    (processPayment (tableEngine sampleProcedures) sampleRuntime alice noCardBody
      sampleDb).response =
      json 400 [("success", .bool false),
        ("message", .str "Payment processing failed. Please try again.")] ∧
    (processPayment (tableEngine sampleProcedures) sampleRuntime alice shortCardBody
      sampleDb).db.payments.map (fun q => (q.status, q.method)) =
      [(.str "FAILED", .str "CARD"), (.str "SUCCESS", .str "UPI")] :=
  ⟨(short_card_always_fails sampleProcedures sampleRuntime alice shortCardBody sampleDb
      ⟨.num 1, .num 7, .str "CONFIRMED", .str "Deluxe", .str "Grand Hotel", []⟩ []
      ⟨.num 10, .num 1, .str "150.00", .str "CARD", .str "PENDING", .null⟩ []
      (by with_unfolding_all rfl) (by with_unfolding_all rfl)
      (Or.inr (by with_unfolding_all rfl)) (by with_unfolding_all rfl)
      (by with_unfolding_all rfl) (by simp) (by with_unfolding_all rfl) (by simp)).2.1,
   (short_card_always_fails sampleProcedures sampleRuntime alice noCardBody sampleDb
      ⟨.num 1, .num 7, .str "CONFIRMED", .str "Deluxe", .str "Grand Hotel", []⟩ []
      ⟨.num 10, .num 1, .str "150.00", .str "CARD", .str "PENDING", .null⟩ []
      (by with_unfolding_all rfl) (by with_unfolding_all rfl)
      (Or.inl (by with_unfolding_all rfl)) (by with_unfolding_all rfl)
      (by with_unfolding_all rfl) (by simp) (by with_unfolding_all rfl) (by simp)).2.1,
   by with_unfolding_all rfl⟩

/-! ### GET /roomtypes/:room_type_id/availability: nights without inventory -/

/-- Claim C23, as the code behaves. On the inventory tables, the inventory query
answers `MIN(qty)` over the rows that exist in the range, so a night without a
row does not count: with rows for the nights of 2025-12-01 (3 rooms) and
2025-12-03 and none for the night of 2025-12-02, a stay from 2025-12-01 to
2025-12-03 of two nights is answered 200 with `available` true and
available_count 3. -/
theorem availability_ignores_missing_nights :
    (∀ (db : InventoryDb) (key first last : Val),
      inventoryEngine.exec db ⟨Sql.availabilityInventory, [key, first, last]⟩ =
        (.ok [[("min_available", minQty (inventoryInRange db key first last))]], db)) ∧
    gappedInventory.inventory.filter (fun r =>
      keyEq r.room_type_id (.str "1") && Val.strictEq r.stay_date (.str "2025-12-02")) = [] ∧
    (availability inventoryEngine sampleRuntime (.str "1") decemberStay
      gappedInventory).response.status = 200 ∧
    ((availability inventoryEngine sampleRuntime (.str "1") decemberStay
      gappedInventory).response.body.get "data").get "nights" = .num 2 ∧
    ((availability inventoryEngine sampleRuntime (.str "1") decemberStay
      gappedInventory).response.body.get "data").get "available" = .bool true ∧
    ((availability inventoryEngine sampleRuntime (.str "1") decemberStay
      gappedInventory).response.body.get "data").get "available_count" = .num 3 := by
  refine ⟨fun _ _ _ _ => rfl, ?_, ?_, ?_, ?_, ?_⟩ <;> with_unfolding_all rfl

/-! ### DELETE /reviews/:review_id -/

/-- The responses of DELETE /reviews/:review_id, for every database engine. When
the ownership query returns no row the response is 404 'Review not found' and
nothing else is issued; when it returns a review: a requester who is neither
its author nor an ADMIN receives 403 'Access denied' and no DELETE is issued,
the database being left as the query left it; and for its author, and for an
ADMIN, the DELETE statement is issued for that review id and, when the database
carries it out, the response is 200 'Review deleted successfully'. -/
theorem delete_review_owner_or_admin {σ : Type} (E : Engine σ) (rt : Runtime) (user : User)
    (review_id : Val) (db db1 : σ) (rows : List Row)
    (hquery : E.exec db ⟨Sql.reviewOwner, [review_id]⟩ = (.ok rows, db1)) :
    (rows = [] →
      deleteReview E rt user review_id db =
        ⟨json 404 [("success", .bool false), ("message", .str "Review not found")],
          [⟨Sql.reviewOwner, [review_id]⟩], db1, none⟩) ∧
    (∀ (review : Row) (rest : List Row), rows = review :: rest →
      (Val.strictNe (review.get "user_id") user.user_id = true → user.role ≠ .str "ADMIN" →
        deleteReview E rt user review_id db =
          ⟨json 403 [("success", .bool false), ("message", .str "Access denied")],
            [⟨Sql.reviewOwner, [review_id]⟩], db1, none⟩) ∧
      (Val.strictEq (review.get "user_id") user.user_id = true ∨ user.role = .str "ADMIN" →
        (deleteReview E rt user review_id db).log =
          [⟨Sql.reviewOwner, [review_id]⟩, ⟨Sql.deleteReview, [review_id]⟩] ∧
        ∀ (deleted : List Row) (db2 : σ),
          E.exec db1 ⟨Sql.deleteReview, [review_id]⟩ = (.ok deleted, db2) →
          deleteReview E rt user review_id db =
            ⟨json 200 [("success", .bool true),
              ("message", .str "Review deleted successfully")],
              [⟨Sql.reviewOwner, [review_id]⟩, ⟨Sql.deleteReview, [review_id]⟩], db2, none⟩)) := by
  constructor
  · intro hnone
    subst hnone
    simp [deleteReview, hquery]
  · intro review rest hrows
    subst hrows
    constructor
    · intro hother hrole
      have hadm : Val.strictEq user.role (.str "ADMIN") = false :=
        (strictEq_str_false_iff _ _).mpr hrole
      simp [deleteReview, hquery, hother, hadm]
    · intro hauth
      have hguard : (Val.strictNe (review.get "user_id") user.user_id &&
          !Val.strictEq user.role (.str "ADMIN")) = false := by
        rcases hauth with h | h
        · simp [Val.strictNe, h]
        · simp [h, Val.strictEq]
      constructor
      · simp only [deleteReview, hquery, hguard, Bool.false_eq_true, if_false]
        split <;> rfl
      · intro deleted db2 hdelete
        simp [deleteReview, hquery, hguard, hdelete]

/-- On the sample reviews, user 8 may not delete review 1 of user 7, and the
reviews stay as they are. -/
theorem delete_review_owner_or_admin_witness :
    deleteReview reviewEngine sampleRuntime bob (.str "1") sampleReviews =
      ⟨json 403 [("success", .bool false), ("message", .str "Access denied")],
        [⟨Sql.reviewOwner, [.str "1"]⟩], sampleReviews, none⟩ :=
  ((delete_review_owner_or_admin reviewEngine sampleRuntime bob (.str "1") sampleReviews
      sampleReviews [[("user_id", .num 7)]] (by with_unfolding_all rfl)).2
      [("user_id", .num 7)] [] rfl).1 (by with_unfolding_all rfl) (by simp [bob])

/-- Claim C24, as the code behaves. An administrator (user 1) deletes review 1,
whose author is user 7: the DELETE statement is issued, the response is 200
'Review deleted successfully', and the review is gone; the same administrator
updating the same review with PUT /reviews/:review_id is refused with 403 'You
can only update your own reviews' and no UPDATE is issued. -/
theorem admin_deletes_review_of_other :
    admin.user_id = .num 1 ∧ admin.role = .str "ADMIN" ∧
    sampleReviews.map (fun r => (r.review_id, r.user_id)) = [(.num 1, .num 7), (.num 2, .num 8)] ∧
    (deleteReview reviewEngine sampleRuntime admin (.str "1") sampleReviews).response =
      json 200 [("success", .bool true), ("message", .str "Review deleted successfully")] ∧
    (deleteReview reviewEngine sampleRuntime admin (.str "1") sampleReviews).log =
      [⟨Sql.reviewOwner, [.str "1"]⟩, ⟨Sql.deleteReview, [.str "1"]⟩] ∧
    (deleteReview reviewEngine sampleRuntime admin (.str "1") sampleReviews).db.map
      (fun r => (r.review_id, r.user_id)) = [(.num 2, .num 8)] ∧
    (updateReview reviewEngine samplePlatform admin (.str "1") reviewBody sampleReviews).response =
      json 403 [("success", .bool false),
        ("message", .str "You can only update your own reviews")] ∧
    (updateReview reviewEngine samplePlatform admin (.str "1") reviewBody sampleReviews).log =
      [⟨Sql.reviewOwner, [.str "1"]⟩] := by
  refine ⟨?_, ?_, ?_, ?_, ?_, ?_, ?_, ?_⟩ <;> with_unfolding_all rfl

/-! ### The date checks of POST /bookings and of the availability endpoint -/

/-- Claim C25. In POST /bookings and in GET /roomtypes/:room_type_id/availability,
for a request that passes validation and whose check_in and check_out read
(`new Date`) as the time values a and b, with t the time value of server-local
midnight of the current day: if a < t the response is 400 'Check-in date cannot
be in the past', whatever the order of the two dates; if t <= a and b <= a
(equal dates included) the response is 400 'Check-out date must be after
check-in date'; and in both cases no statement is issued. -/
theorem date_order_validation {σ : Type} (E : Engine σ) (rt : Runtime) (user : User)
    (room_type_id fields : Val) (db : σ) (a b t : ℚ)
    (hin : rt.newDate (fields.get "check_in") = .num a)
    (hout : rt.newDate (fields.get "check_out") = .num b)
    (htoday : rt.today = .num t) :
    (validateBooking rt fields = [] →
      (a < t → createBooking E rt user fields db =
        ⟨json 400 [("success", .bool false),
          ("message", .str "Check-in date cannot be in the past")], [], db, none⟩) ∧
      (t ≤ a → b ≤ a → createBooking E rt user fields db =
        ⟨json 400 [("success", .bool false),
          ("message", .str "Check-out date must be after check-in date")], [], db, none⟩)) ∧
    (validateAvailability rt fields = [] →
      (a < t → availability E rt room_type_id fields db =
        ⟨json 400 [("success", .bool false),
          ("message", .str "Check-in date cannot be in the past")], [], db, none⟩) ∧
      (t ≤ a → b ≤ a → availability E rt room_type_id fields db =
        ⟨json 400 [("success", .bool false),
          ("message", .str "Check-out date must be after check-in date")], [], db, none⟩)) := by
  have hlt : Val.lt (.num a) (.num t) = decide (a < t) := rfl
  have hge : Val.ge (.num a) (.num b) = decide (b ≤ a) := rfl
  refine ⟨fun hvalid => ⟨fun hpast => ?_, fun hnow horder => ?_⟩,
    fun hvalid => ⟨fun hpast => ?_, fun hnow horder => ?_⟩⟩
  · simp [createBooking, hvalid, hin, hout, htoday, hlt, hpast]
  · simp [createBooking, hvalid, hin, hout, htoday, hlt, hge, not_lt.mpr hnow, horder]
  · simp [availability, hvalid, hin, hout, htoday, hlt, hpast]
  · simp [availability, hvalid, hin, hout, htoday, hlt, hge, not_lt.mpr hnow, horder]

/-- Witness of C25, with today 2025-11-05: a stay from 2025-12-01 to 2025-12-01
is answered 'Check-out date must be after check-in date', and a stay from
2025-11-04 to 2025-11-03 'Check-in date cannot be in the past'. -/
theorem date_order_validation_witness :
    createBooking offline sampleRuntime alice (stayFrom (.num 1) "2025-12-01" "2025-12-01") () =
      ⟨json 400 [("success", .bool false),
        ("message", .str "Check-out date must be after check-in date")], [], (), none⟩ ∧
    availability offline sampleRuntime (.str "1") (stayFrom (.num 1) "2025-11-04" "2025-11-03")
        () =
      ⟨json 400 [("success", .bool false),
        ("message", .str "Check-in date cannot be in the past")], [], (), none⟩ :=
  ⟨((date_order_validation offline sampleRuntime alice (.str "1")
      (stayFrom (.num 1) "2025-12-01" "2025-12-01") () 1764547200000 1764547200000 1762300800000
      (by with_unfolding_all rfl) (by with_unfolding_all rfl) (by with_unfolding_all rfl)).1
      (by with_unfolding_all rfl)).2 (by norm_num) (by norm_num),
   ((date_order_validation offline sampleRuntime alice (.str "1")
      (stayFrom (.num 1) "2025-11-04" "2025-11-03") () 1762214400000 1762128000000 1762300800000
      (by with_unfolding_all rfl) (by with_unfolding_all rfl) (by with_unfolding_all rfl)).2
      (by with_unfolding_all rfl)).1 (by norm_num)⟩

/-! ### POST /bookings: nights and total amount -/

theorem isoDate_midnight (v : Val) (x : ℚ) (hdate : isoDate v = .num x) :
    ∃ day : Int, x = (day : ℚ) * 86400000 := by
  unfold isoDate at hdate
  repeat' split at hdate
  all_goals first
    | (simp only [Val.num.injEq] at hdate
       exact ⟨_, by rw [← hdate]; push_cast; ring⟩)
    | simp at hdate

theorem nights_value (a b : Int) (hlow : -(2 ^ 53) < a) (hhigh : b < 2 ^ 53) (horder : a < b)
    (hspan : b - a < 2 ^ 53) :
    Val.ceil (Val.over (Val.minus (.num (b : ℚ)) (.num (a : ℚ))) (.num (1000 * 60 * 60 * 24))) =
      .num ((⌈((b : ℚ) - (a : ℚ)) / 86400000⌉ : Int) : ℚ) := by
  obtain ⟨n, hn⟩ : ∃ n : ℕ, b - a = (n : Int) := ⟨(b - a).toNat, by omega⟩
  have hn53 : n < 2 ^ 53 := by omega
  have hdiff : (b : ℚ) - (a : ℚ) = (n : ℚ) := by
    have h : ((b - a : Int) : ℚ) = ((n : Int) : ℚ) := by rw [hn]
    push_cast at h
    exact h
  have hminus : Val.minus (.num (b : ℚ)) (.num (a : ℚ)) = .num (n : ℚ) := by
    simp only [Val.minus, toNumber_num, toDouble_intCast_abs b (by omega) hhigh,
      toDouble_intCast_abs a hlow (by omega), hdiff, toDouble_natCast n hn53]
  have hday : (Val.num (1000 * 60 * 60 * 24)).toNumber = .num ((86400000 : ℕ) : ℚ) := by
    rw [toNumber_num]
    norm_num
  rw [hminus, ceil_over_natCast _ _ n 86400000 (toNumber_num _) hday hn53 (by norm_num)
    (by norm_num), hdiff]
  norm_num

/-- The nights and the total amount of POST /bookings. For a request that passes
validation and the date checks, with a < b the time values of check_in and
check_out (whole milliseconds of magnitude below 2 ^ 53, as every time value of
a Date is, and less than 2 ^ 53 apart, as all dates with four-digit years are):
`nights`, the `Math.ceil` of the double quotient, is ceil((b - a) / 86400000),
at least 1; it is the number of calendar days from check_in to check_out when
both time values are midnights UTC, as they are for dates written YYYY-MM-DD;
when the price lookup `GetSeasonalPrice(room_type_id, check_in)` returns
`priceInfo`, the second statement is `CALL MakeBooking` with the total amount
`price * nights` as JavaScript computes it (`Val.times`, the double nearest to
the product), where price is the price_per_night of the first row, or 0 when
that is missing or falsy; and the 201 response carries the same `nights`. -/
theorem booking_total_amount {σ : Type} (E : Engine σ) (rt : Runtime) (user : User)
    (body : Val) (db : σ) (a b : Int)
    (hvalid : validateBooking rt body = [])
    (hin : rt.newDate (body.get "check_in") = .num (a : ℚ))
    (hout : rt.newDate (body.get "check_out") = .num (b : ℚ))
    (htoday : Val.lt (.num (a : ℚ)) rt.today = false)
    (horder : a < b)
    (hlow : -(2 ^ 53) < a) (hhigh : b < 2 ^ 53) (hspan : b - a < 2 ^ 53) :
    (1 : Int) ≤ ⌈((b : ℚ) - (a : ℚ)) / 86400000⌉ ∧
    (∀ d1 d2 : Int, (a : ℚ) = (d1 : ℚ) * 86400000 → (b : ℚ) = (d2 : ℚ) * 86400000 →
      ⌈((b : ℚ) - (a : ℚ)) / 86400000⌉ = d2 - d1) ∧
    (rt.newDate (body.get "check_in") = isoDate (body.get "check_in") →
      rt.newDate (body.get "check_out") = isoDate (body.get "check_out") →
      ∃ d1 d2 : Int, (a : ℚ) = (d1 : ℚ) * 86400000 ∧ (b : ℚ) = (d2 : ℚ) * 86400000 ∧
        ⌈((b : ℚ) - (a : ℚ)) / 86400000⌉ = d2 - d1) ∧
    (∀ (priceInfo : List Row) (db1 : σ),
      E.exec db ⟨Sql.seasonalPrice, [body.get "room_type_id", body.get "check_in"]⟩ =
        (.ok priceInfo, db1) →
      (createBooking E rt user body db).log.get? 1 =
        some ⟨Sql.makeBooking, [user.user_id, body.get "room_type_id", body.get "check_in",
          body.get "check_out",
          Val.times (Val.orElse (firstColumn priceInfo "price_per_night") (.num 0))
            (.num ((⌈((b : ℚ) - (a : ℚ)) / 86400000⌉ : Int) : ℚ)),
          .str "CARD"]⟩ ∧
      ((createBooking E rt user body db).response.status = 201 →
        ((createBooking E rt user body db).response.body.get "data").get "nights" =
          .num ((⌈((b : ℚ) - (a : ℚ)) / 86400000⌉ : Int) : ℚ))) ∧
    (∀ price : Val, price.truthy = true → Val.orElse price (.num 0) = price) ∧
    (∀ price : Val, price.truthy = false → Val.orElse price (.num 0) = .num 0) := by
  have horderq : (a : ℚ) < (b : ℚ) := by exact_mod_cast horder
  have hge : Val.ge (.num (a : ℚ)) (.num (b : ℚ)) = false := by
    have : Val.ge (.num (a : ℚ)) (.num (b : ℚ)) = decide ((b : ℚ) ≤ (a : ℚ)) := rfl
    rw [this]
    simpa using horderq
  have hnights := nights_value a b hlow hhigh horder hspan
  have hdays : ∀ d1 d2 : Int, (a : ℚ) = (d1 : ℚ) * 86400000 → (b : ℚ) = (d2 : ℚ) * 86400000 →
      ⌈((b : ℚ) - (a : ℚ)) / 86400000⌉ = d2 - d1 := by
    intro d1 d2 ha hb
    have h : ((b : ℚ) - (a : ℚ)) / 86400000 = ((d2 - d1 : Int) : ℚ) := by
      rw [ha, hb]
      push_cast
      ring
    rw [h, Int.ceil_intCast]
  refine ⟨?_, hdays, ?_, ?_, ?_, ?_⟩
  · have hpos : (0 : ℚ) < ((b : ℚ) - (a : ℚ)) / 86400000 := by
      apply div_pos
      · linarith
      · norm_num
    have := Int.ceil_pos.mpr hpos
    omega
  · intro hisoIn hisoOut
    obtain ⟨d1, h1⟩ := isoDate_midnight _ (a : ℚ) (by rw [← hisoIn]; exact hin)
    obtain ⟨d2, h2⟩ := isoDate_midnight _ (b : ℚ) (by rw [← hisoOut]; exact hout)
    exact ⟨d1, d2, h1, h2, hdays d1 d2 h1 h2⟩
  · intro priceInfo db1 hprice
    constructor
    · simp only [createBooking, hvalid, hin, hout, htoday, hge, hprice, hnights]
      simp only [List.isEmpty_nil, Bool.not_true, Bool.false_eq_true, if_false]
      repeat' split
      all_goals rfl
    · revert hnights
      simp only [createBooking, hvalid, hin, hout, htoday, hge, hprice]
      simp only [List.isEmpty_nil, Bool.not_true, Bool.false_eq_true, if_false]
      intro hnights
      repeat' split
      all_goals intro hok
      all_goals first
        | (simp [json] at hok; done)
        | (simp only [createBookingCatch] at hok; split at hok <;> simp [json] at hok)
        | (simp only [json, get_obj, List.lookup]; simpa [get_obj, List.lookup] using hnights)
  · intro price htruthy
    simp [Val.orElse, htruthy]
  · intro price hfalsy
    simp [Val.orElse, hfalsy]

/-- An instance: two nights from 2025-12-01 at 120.00 a night are booked for
240, and the 201 response reports 2 nights, the number of days from day 20423
to day 20425. -/
theorem booking_total_amount_witness :
    (createBooking (answering [[("price_per_night", .str "120.00"), ("booking_id", .num 42)]])
        sampleRuntime alice bookingBody ()).log.get? 1 =
      some ⟨Sql.makeBooking, [.num 7, .num 1, .str "2025-12-01", .str "2025-12-03", .num 240,
        .str "CARD"]⟩ ∧
    (createBooking (answering [[("price_per_night", .str "120.00"), ("booking_id", .num 42)]])
        sampleRuntime alice bookingBody ()).response.status = 201 ∧
    ((createBooking (answering [[("price_per_night", .str "120.00"), ("booking_id", .num 42)]])
        sampleRuntime alice bookingBody ()).response.body.get "data").get "nights" =
      .num ((⌈(((1764720000000 : Int) : ℚ) - ((1764547200000 : Int) : ℚ)) / 86400000⌉ : Int) : ℚ) ∧
    ⌈(((1764720000000 : Int) : ℚ) - ((1764547200000 : Int) : ℚ)) / 86400000⌉ =
      (20425 : Int) - 20423 :=
  ⟨by with_unfolding_all rfl,
   by with_unfolding_all rfl,
   ((booking_total_amount (answering [[("price_per_night", .str "120.00"), ("booking_id", .num 42)]])
      sampleRuntime alice bookingBody () 1764547200000 1764720000000
      (by with_unfolding_all rfl) (by with_unfolding_all rfl) (by with_unfolding_all rfl)
      (by with_unfolding_all rfl) (by norm_num) (by norm_num) (by norm_num)
      (by norm_num)).2.2.2.1 _ () rfl).2 (by with_unfolding_all rfl),
   (booking_total_amount (answering [[("price_per_night", .str "120.00"), ("booking_id", .num 42)]])
      sampleRuntime alice bookingBody () 1764547200000 1764720000000
      (by with_unfolding_all rfl) (by with_unfolding_all rfl) (by with_unfolding_all rfl)
      (by with_unfolding_all rfl) (by norm_num) (by norm_num) (by norm_num)
      (by norm_num)).2.1 20423 20425 (by norm_num) (by norm_num)⟩

/-- Claim C26, as the code behaves. On a server in a zone that leaves daylight
saving time in the night of 2025-10-26, a stay from 2025/10/25 to 2025/10/27
passes validation, whose message asks for YYYY-MM-DD, and the date checks; the
two local midnights are 49 hours apart, so the booking is created with `nights`
3 although the dates are 2 calendar days apart, and `CALL MakeBooking` is
issued with the amount of three nights at 120.10, which is bound as the double
360.29999999999995 (1584616157950771 / 2 ^ 42). The same stay written
2025-10-25 to 2025-10-27 is booked with `nights` 2 and the amount of two
nights, 240.2. -/
theorem nights_exceed_calendar_days :
    validateBooking autumnRuntime (stayFrom (.num 1) "2025/10/25" "2025/10/27") = [] ∧
    slashDay (.str "2025/10/27") = (slashDay (.str "2025/10/25")).map (fun day => day + 2) ∧
    Val.minus (autumnDate (.str "2025/10/27")) (autumnDate (.str "2025/10/25")) =
      .num (49 * 3600000) ∧
    (createBooking pricedAt12010 autumnRuntime alice
      (stayFrom (.num 1) "2025/10/25" "2025/10/27") ()).response.status = 201 ∧
    ((createBooking pricedAt12010 autumnRuntime alice
      (stayFrom (.num 1) "2025/10/25" "2025/10/27") ()).response.body.get "data").get "nights" =
      .num 3 ∧
    (createBooking pricedAt12010 autumnRuntime alice
      (stayFrom (.num 1) "2025/10/25" "2025/10/27") ()).log.get? 1 =
      some ⟨Sql.makeBooking, [.num 7, .num 1, .str "2025/10/25", .str "2025/10/27",
        .num (1584616157950771 / 4398046511104), .str "CARD"]⟩ ∧
    toDouble (1201 / 10) = some (4225643087868723 / 35184372088832) ∧
    toDouble (4225643087868723 / 35184372088832 * 3) = some (1584616157950771 / 4398046511104) ∧
    (1584616157950771 / 4398046511104 : ℚ) < 3603 / 10 ∧
    ((createBooking pricedAt12010 autumnRuntime alice
      (stayFrom (.num 1) "2025-10-25" "2025-10-27") ()).response.body.get "data").get "nights" =
      .num 2 ∧
    (createBooking pricedAt12010 autumnRuntime alice
      (stayFrom (.num 1) "2025-10-25" "2025-10-27") ()).log.get? 1 =
      some ⟨Sql.makeBooking, [.num 7, .num 1, .str "2025-10-25", .str "2025-10-27",
        .num (4225643087868723 / 17592186044416), .str "CARD"]⟩ := by
  refine ⟨?_, ?_, ?_, ?_, ?_, ?_, ?_, ?_, ?_, ?_, ?_⟩
  · with_unfolding_all rfl
  · with_unfolding_all rfl
  · with_unfolding_all rfl
  · with_unfolding_all rfl
  · with_unfolding_all rfl
  · with_unfolding_all rfl
  · with_unfolding_all rfl
  · with_unfolding_all rfl
  · norm_num
  · with_unfolding_all rfl
  · with_unfolding_all rfl

/-! ### A check-in on the server's current day -/

/-- Claim C27, as the code behaves. Midnight UTC of the server's local date is
earlier than the server's local midnight exactly when the zone is west of UTC
(a negative offset). So on a server five hours behind UTC, at 2025-11-05 12:00
local time, a check_in of 2025-11-05, the local date, is answered 400 'Check-in
date cannot be in the past' by POST /bookings and by the availability endpoint,
with no statement issued; on a server five and a half hours ahead of UTC the
same requests pass the date checks and reach the database. -/
theorem local_today_rejected_west_of_utc :
    (∀ nowMs offsetMinutes : Int,
      Val.lt (.num (localDayStart nowMs offsetMinutes : ℚ))
        (.num (localMidnight nowMs offsetMinutes : ℚ)) = decide (offsetMinutes < 0)) ∧
    localDate sampleClock (-300) = "2025-11-05" ∧
    isoDate (.str (localDate sampleClock (-300))) = .num (localDayStart sampleClock (-300) : ℚ) ∧
    (zonedRuntime sampleRuntime sampleClock (-300)).today =
      .num (localMidnight sampleClock (-300) : ℚ) ∧
    createBooking offline (zonedRuntime sampleRuntime sampleClock (-300)) alice
        (stayFrom (.num 1) (localDate sampleClock (-300)) "2025-11-06") () =
      ⟨json 400 [("success", .bool false),
        ("message", .str "Check-in date cannot be in the past")], [], (), none⟩ ∧
    availability offline (zonedRuntime sampleRuntime sampleClock (-300)) (.str "1")
        (stayFrom (.num 1) (localDate sampleClock (-300)) "2025-11-06") () =
      ⟨json 400 [("success", .bool false),
        ("message", .str "Check-in date cannot be in the past")], [], (), none⟩ ∧
    localDate sampleClock 330 = "2025-11-05" ∧
    (createBooking offline (zonedRuntime sampleRuntime sampleClock 330) alice
        (stayFrom (.num 1) (localDate sampleClock 330) "2025-11-06") ()).log =
      [⟨Sql.seasonalPrice, [.num 1, .str "2025-11-05"]⟩] ∧
    (availability offline (zonedRuntime sampleRuntime sampleClock 330) (.str "1")
        (stayFrom (.num 1) (localDate sampleClock 330) "2025-11-06") ()).log =
      [⟨Sql.availabilityRoomType, [.str "2025-11-05", .str "1"]⟩] := by
  refine ⟨?_, ?_, ?_, ?_, ?_, ?_, ?_, ?_, ?_⟩
  · intro nowMs offsetMinutes
    have hlt : Val.lt (.num (localDayStart nowMs offsetMinutes : ℚ))
        (.num (localMidnight nowMs offsetMinutes : ℚ)) =
        decide ((localDayStart nowMs offsetMinutes : ℚ) < (localMidnight nowMs offsetMinutes : ℚ)) :=
      rfl
    rw [hlt]
    have hiff : ((localDayStart nowMs offsetMinutes : ℚ) < (localMidnight nowMs offsetMinutes : ℚ))
        ↔ offsetMinutes < 0 := by
      rw [Int.cast_lt]
      unfold localMidnight
      constructor <;> intro h <;> omega
    simp [hiff]
  all_goals with_unfolding_all rfl

/-! ### The requests of the frontend services -/

/-- Claim C30, as the code behaves. Of the fourteen requests of cityService,
hotelService, bookingService, reviewService and roomService (with 5 for every
id), sent to /api/v1, eight reach the handler of their resource; five reach the
404 handler (`getHotels`, `getUserBookings`, `cancelBooking`, `getHotelReviews`,
`getRoomPricing`); and `searchHotels` reaches the handler of GET /hotels/:hotel_id
with hotel_id 'search'. -/
theorem service_requests_dispatched (authRoutes : List Route) :
    (cityService.getCities.target authRoutes = some ⟨.listCities, []⟩ ∧
      (cityService.getCityHotels "5").target authRoutes =
        some ⟨.cityHotels, [("city_id", "5")]⟩ ∧
      (hotelService.getHotelDetails "5").target authRoutes =
        some ⟨.getHotel, [("hotel_id", "5")]⟩ ∧
      bookingService.createBooking.target authRoutes = some ⟨.createBooking, []⟩ ∧
      (bookingService.getBookingDetails "5").target authRoutes =
        some ⟨.getBooking, [("booking_id", "5")]⟩ ∧
      reviewService.addReview.target authRoutes = some ⟨.addReview, []⟩ ∧
      (reviewService.markReviewHelpful "5").target authRoutes =
        some ⟨.markHelpful, [("review_id", "5")]⟩ ∧
      (roomService.checkAvailability "5").target authRoutes =
        some ⟨.availability, [("room_type_id", "5")]⟩) ∧
    (hotelService.getHotels.target authRoutes = some ⟨.notFound, []⟩ ∧
      bookingService.getUserBookings.target authRoutes = some ⟨.notFound, []⟩ ∧
      (bookingService.cancelBooking "5").target authRoutes = some ⟨.notFound, []⟩ ∧
      (reviewService.getHotelReviews "5").target authRoutes = some ⟨.notFound, []⟩ ∧
      (roomService.getRoomPricing "5").target authRoutes = some ⟨.notFound, []⟩) ∧
    hotelService.searchHotels.target authRoutes = some ⟨.getHotel, [("hotel_id", "search")]⟩ := by
  refine ⟨⟨?_, ?_, ?_, ?_, ?_, ?_, ?_, ?_⟩, ⟨?_, ?_, ?_, ?_, ?_⟩, ?_⟩ <;> rfl

/-! ### GET /users/:user_id/bookings: the listing of another user -/

/-- Claim C4, as the code behaves. The guard compares `parseInt` of the path
parameter with the requester's id, but the statements bind the parameter as it
was written. For user 7, who is not an administrator, and the parameter '7e2':
`parseInt('7e2')` is 7, so the guard lets the request pass; the listing query
and the count query are issued with '7e2' bound to `user_id = ?`, which the
database reads as the number 700; and the 200 response lists booking 4, a
booking of user 700, with total_items 1, where the requester's own listing (the
parameter '7') holds bookings 1 and 2. -/
theorem listing_of_another_user :
    alice.user_id = .num 7 ∧ alice.role = .str "USER" ∧
    Val.parseInt (.str "7e2") = .num 7 ∧
    Val.toNumber (.str "7e2") = .num 700 ∧
    (userBookings listingEngine sampleRuntime alice (.str "7e2") (.obj []) crowdedDb).log =
      [⟨Sql.userBookings false, [.str "7e2", .num 10, .num 0]⟩,
       ⟨Sql.userBookingsCount false, [.str "7e2"]⟩] ∧
    (userBookings listingEngine sampleRuntime alice (.str "7e2") (.obj [])
      crowdedDb).response =
      json 200 [("success", .bool true),
        ("data", .obj [("bookings", .arr [.obj [("booking_id", .num 4),
            ("status", .str "CONFIRMED"), ("room_type", .str "Suite"),
            ("hotel", .str "Sea View"), ("total_amount", .null), ("payment_status", .null)]]),
          ("pagination", .obj [("current_page", .num 1), ("per_page", .num 10),
            ("total_items", .num 1), ("total_pages", .num 1)])])] ∧
    (crowdedDb.bookings.filter (fun b => Val.strictEq b.booking_id (.num 4))).map
      (fun b => b.user_id) = [.num 700] ∧
    (((userBookings listingEngine sampleRuntime alice (.str "7") (.obj [])
      crowdedDb).response.body.get "data").get "pagination").get "total_items" = .num 2 := by
  refine ⟨?_, ?_, ?_, ?_, ?_, ?_, ?_, ?_⟩ <;> with_unfolding_all rfl

end HotelApi
